import Mathlib

/-!
# Workflow pod synthesis (`workflow/controller/workflowpod.go`)

A shallow embedding of `createWorkflowPod` and its helpers, followed by theorems
about them.

Conventions of the embedding

* Go structs are Lean structures with the same field names; a pointer field that may
  be `nil` is an `Option`.
* Go slices are Lean lists; a `nil` slice and an empty slice are both `[]` (the code
  only ever tests `len(..)`, ranges over, or appends to its slices).
* Go `map[string]string` is an association list read with `GoMap.get` and written
  with `GoMap.set`.
* Mutation through pointers (`pod *apiv1.Pod`, `tmpl *wfv1.Template`) is explicit
  state passing: a helper takes the pod (or template) and returns the new one.
* Where it matters which object a `*wfv1.Template` points to, templates live in a
  heap (`TemplateHeap`) and `tmpl.DeepCopy()` allocates (`assembleWorkflowPodAt`).
* A call returns an `Outcome`: a value, a Go `error`, or a run-time panic.
* Declarations that the file imports from packages whose source is not part of
  `workflowpod.go` (constants of `common`, methods of `wfv1` types, `json.Marshal`)
  are parameters, collected in `Imports`.
-/

namespace Workflowpod

/-! ## Outcomes and errors -/

/-- Codes of package `errors`: only the two that `workflowpod.go` uses. -/
inductive Code where
  | CodeBadRequest
  | CodeInternal
  deriving DecidableEq, Repr, Inhabited

/-- An `error` value that does not come from package `errors`: a Kubernetes API status
error with its reason, or any other error. -/
inductive ForeignError where
  | status (reason : String) (message : String)
  | other (message : String)
  deriving DecidableEq, Repr, Inhabited

/-- Text of `err.Error()`. -/
def ForeignError.Error : ForeignError → String
  | .status _ m => m
  | .other m => m

/-- Error of package `errors` (`argoerr`): a code, a message and, for a wrapped error,
its cause. -/
structure ArgoError where
  code : Code
  message : String
  cause : Option ForeignError
  deriving DecidableEq, Repr, Inhabited

/-- Go `error` values returned by `createWorkflowPod`. -/
inductive GoError where
  | argo (e : ArgoError)
  | foreign (e : ForeignError)
  deriving DecidableEq, Repr, Inhabited

/-- Code carried by an error, if it is an error of package `errors`. -/
def GoError.code? : GoError → Option Code
  | .argo e => some e.code
  | .foreign _ => none

/-- Go `errors.InternalError(message)`. -/
def errors.InternalError (message : String) : GoError :=
  .argo { code := .CodeInternal, message := message, cause := none }

/-- Go `errors.InternalWrapError(err)`: wraps `err` with the internal code. -/
def errors.InternalWrapError (err : ForeignError) : GoError :=
  .argo { code := .CodeInternal, message := err.Error, cause := some err }

/-- Go `errors.Errorf(code, format, args...)`, with the message already formatted. -/
def errors.Errorf (code : Code) (message : String) : GoError :=
  .argo { code := code, message := message, cause := none }

/-- Go `apierr.IsAlreadyExists(err)`: the reason of the error is `AlreadyExists`. -/
def apierr.IsAlreadyExists : ForeignError → Bool
  | .status reason _ => reason == "AlreadyExists"
  | .other _ => false

/-- Result of running Go code: normal return of a value, return of an `error`, or a
run-time panic. -/
inductive Outcome (α : Type) where
  | ok (a : α)
  | error (e : GoError)
  | panic (msg : String)
  deriving DecidableEq, Repr, Inhabited

/-- Sequencing: the first error or panic ends the run. -/
def Outcome.bind {α β : Type} (x : Outcome α) (f : α → Outcome β) : Outcome β :=
  match x with
  | .ok a => f a
  | .error e => .error e
  | .panic m => .panic m

instance : Monad Outcome where
  pure := Outcome.ok
  bind := Outcome.bind

/-- The value of an outcome that is `ok`; the default value of the type otherwise. -/
def Outcome.value {α : Type} [Inhabited α] : Outcome α → α
  | .ok a => a
  | .error _ => default
  | .panic _ => default

/-- Message of the panic raised by dereferencing a nil pointer. -/
def nilDereference : String := "runtime error: invalid memory address or nil pointer dereference"

/-! ## Go maps -/

/-- A `map[string]string`. -/
abbrev GoMap := List (String × String)

/-- Read `m[k]`: the zero value `""` when the key is absent. -/
def GoMap.get (m : GoMap) (k : String) : String :=
  match m.find? (fun p => p.1 == k) with
  | some p => p.2
  | none => ""

/-- Write `m[k] = v`. -/
def GoMap.set : GoMap → String → String → GoMap
  | [], k, v => [(k, v)]
  | p :: m, k, v => if p.1 = k then (k, v) :: m else p :: GoMap.set m k v

/-! ## Kubernetes API types (`apiv1`, `metav1`): the fields the file reads or writes -/

structure ObjectFieldSelector where
  APIVersion : String
  FieldPath : String
  deriving DecidableEq, Repr, Inhabited

structure EnvVarSource where
  FieldRef : Option ObjectFieldSelector
  deriving DecidableEq, Repr, Inhabited

structure EnvVar where
  Name : String
  Value : String
  ValueFrom : Option EnvVarSource
  deriving DecidableEq, Repr, Inhabited

structure VolumeMount where
  Name : String
  ReadOnly : Bool
  MountPath : String
  SubPath : String
  deriving DecidableEq, Repr, Inhabited

structure DownwardAPIVolumeFile where
  Path : String
  FieldRef : Option ObjectFieldSelector
  deriving DecidableEq, Repr, Inhabited

structure DownwardAPIVolumeSource where
  Items : List DownwardAPIVolumeFile
  deriving DecidableEq, Repr, Inhabited

/-- The field `Type` of the Go struct is `HostPathType` here. -/
structure HostPathVolumeSource where
  Path : String
  HostPathType : Option String
  deriving DecidableEq, Repr, Inhabited

structure EmptyDirVolumeSource where
  Medium : String
  deriving DecidableEq, Repr, Inhabited

structure PersistentVolumeClaimVolumeSource where
  ClaimName : String
  ReadOnly : Bool
  deriving DecidableEq, Repr, Inhabited

structure VolumeSource where
  HostPath : Option HostPathVolumeSource
  EmptyDir : Option EmptyDirVolumeSource
  PersistentVolumeClaim : Option PersistentVolumeClaimVolumeSource
  DownwardAPI : Option DownwardAPIVolumeSource
  deriving DecidableEq, Repr, Inhabited

/-- The zero `VolumeSource{}`. -/
def VolumeSource.zero : VolumeSource :=
  { HostPath := none, EmptyDir := none, PersistentVolumeClaim := none, DownwardAPI := none }

structure Volume where
  Name : String
  VolumeSource : VolumeSource
  deriving DecidableEq, Repr, Inhabited

/-- A `ResourceList` maps a resource name to a quantity (kept as its text). -/
structure ResourceRequirements where
  Limits : GoMap
  Requests : GoMap
  deriving DecidableEq, Repr, Inhabited

structure SecurityContext where
  Privileged : Option Bool
  deriving DecidableEq, Repr, Inhabited

structure Container where
  Name : String
  Image : String
  Command : List String
  Args : List String
  WorkingDir : String
  Env : List EnvVar
  Resources : ResourceRequirements
  VolumeMounts : List VolumeMount
  SecurityContext : Option SecurityContext
  deriving DecidableEq, Repr, Inhabited

/-- The zero `apiv1.Container{}`. -/
def Container.zero : Container :=
  { Name := "", Image := "", Command := [], Args := [], WorkingDir := "", Env := [],
    Resources := { Limits := [], Requests := [] }, VolumeMounts := [],
    SecurityContext := none }

structure OwnerReference where
  APIVersion : String
  Kind : String
  Name : String
  UID : String
  BlockOwnerDeletion : Option Bool
  deriving DecidableEq, Repr, Inhabited

structure ObjectMeta where
  Name : String
  UID : String
  Labels : GoMap
  Annotations : GoMap
  OwnerReferences : List OwnerReference
  deriving DecidableEq, Repr, Inhabited

structure PodSpec where
  Volumes : List Volume
  InitContainers : List Container
  Containers : List Container
  RestartPolicy : String
  deriving DecidableEq, Repr, Inhabited

structure Pod where
  ObjectMeta : ObjectMeta
  Spec : PodSpec
  deriving DecidableEq, Repr, Inhabited

/-! ## Workflow API types (`wfv1`): the fields the file reads or writes -/

structure S3Bucket where
  Endpoint : String
  Bucket : String
  deriving DecidableEq, Repr, Inhabited

structure S3Artifact where
  S3Bucket : S3Bucket
  Key : String
  deriving DecidableEq, Repr, Inhabited

structure GitArtifact where
  Repo : String
  deriving DecidableEq, Repr, Inhabited

structure HTTPArtifact where
  URL : String
  deriving DecidableEq, Repr, Inhabited

/-- An input or output artifact, with its embedded `ArtifactLocation`. -/
structure Artifact where
  Name : String
  Path : String
  S3 : Option S3Artifact
  Git : Option GitArtifact
  HTTP : Option HTTPArtifact
  deriving DecidableEq, Repr, Inhabited

structure Inputs where
  Artifacts : List Artifact
  deriving DecidableEq, Repr, Inhabited

structure Outputs where
  Artifacts : List Artifact
  deriving DecidableEq, Repr, Inhabited

structure Script where
  Image : String
  Command : List String
  Source : String
  deriving DecidableEq, Repr, Inhabited

structure SidecarOptions where
  VolumeMirroring : Option Bool
  deriving DecidableEq, Repr, Inhabited

/-- A sidecar embeds an `apiv1.Container`. -/
structure Sidecar where
  Container : Container
  Options : SidecarOptions
  deriving DecidableEq, Repr, Inhabited

structure Template where
  Name : String
  Inputs : Inputs
  Outputs : Outputs
  Container : Option Container
  Script : Option Script
  Sidecars : List Sidecar
  deriving DecidableEq, Repr, Inhabited

/-- Go `tmpl.DeepCopy()` on values: the value of the copy is the value of the object
copied. The allocation of the copy, which is what keeps later writes from the caller's
object, is `TemplateHeap.DeepCopy`. -/
def Template.DeepCopy (tmpl : Template) : Template := tmpl

structure WorkflowSpec where
  Volumes : List Volume
  deriving DecidableEq, Repr, Inhabited

structure WorkflowStatus where
  PersistentVolumeClaims : List Volume
  deriving DecidableEq, Repr, Inhabited

structure Workflow where
  ObjectMeta : ObjectMeta
  Spec : WorkflowSpec
  Status : WorkflowStatus
  deriving DecidableEq, Repr, Inhabited

/-! ## Controller types -/

structure S3ArtifactRepository where
  S3Bucket : S3Bucket
  KeyPrefix : String
  deriving DecidableEq, Repr, Inhabited

structure ArtifactRepository where
  S3 : Option S3ArtifactRepository
  deriving DecidableEq, Repr, Inhabited

structure WorkflowControllerConfig where
  ExecutorImage : String
  ArtifactRepository : ArtifactRepository
  deriving DecidableEq, Repr, Inhabited

/-- The pod client: `Create` answers with the created pod or an error; `submitted`
records, in order, the pods that have been passed to `Create`. -/
structure PodClient where
  Create : Pod → Except ForeignError Pod
  submitted : List Pod

structure WorkflowController where
  Config : WorkflowControllerConfig
  podCl : PodClient

structure wfOperationCtx where
  wf : Workflow
  controller : WorkflowController

/-! ## Imported declarations -/

/-- Constants and functions of package `common` used by the file. -/
structure Common where
  MainContainerName : String
  InitContainerName : String
  WaitContainerName : String
  PodMetadataVolumeName : String
  PodMetadataAnnotationsVolumePath : String
  PodMetadataMountPath : String
  PodMetadataAnnotationsPath : String
  DockerLibVolumeName : String
  DockerLibHostPath : String
  EnvVarHostIP : String
  EnvVarPodIP : String
  EnvVarPodName : String
  EnvVarNamespace : String
  LabelKeyWorkflow : String
  LabelKeyArgoWorkflow : String
  AnnotationKeyNodeName : String
  AnnotationKeyTemplate : String
  ExecutorArtifactBaseDir : String
  ScriptTemplateEmptyDir : String
  ScriptTemplateSourcePath : String
  FindOverlappingVolume : Template → String → Option VolumeMount

/-- Declarations of package `wfv1` used by the file. -/
structure Wfv1 where
  CRDFullName : String
  CRDKind : String
  NodeID : Workflow → String → String
  HasLocation : Artifact → Bool

/-- Everything the file imports and whose source is elsewhere. -/
structure Imports where
  common : Common
  wfv1 : Wfv1
  jsonMarshal : Template → Except ForeignError String

/-! ## Reusable pod spec portions -/

/-- Go `volumePodMetadata`: the pod metadata as a file, through the downward API. -/
def volumePodMetadata (c : Common) : Volume :=
  { Name := c.PodMetadataVolumeName,
    VolumeSource :=
      { VolumeSource.zero with
        DownwardAPI := some
          { Items :=
              [{ Path := c.PodMetadataAnnotationsVolumePath,
                 FieldRef := some { APIVersion := "v1", FieldPath := "metadata.annotations" } }] } } }

/-- Go `volumeMountPodMetadata`. -/
def volumeMountPodMetadata (c : Common) : VolumeMount :=
  { Name := (volumePodMetadata c).Name, ReadOnly := false,
    MountPath := c.PodMetadataMountPath, SubPath := "" }

/-- Go `hostPathDir = apiv1.HostPathDirectory`. -/
def hostPathDir : String := "Directory"

/-- Go `volumeDockerLib`: the host's docker runtime files. -/
def volumeDockerLib (c : Common) : Volume :=
  { Name := c.DockerLibVolumeName,
    VolumeSource :=
      { VolumeSource.zero with
        HostPath := some { Path := c.DockerLibHostPath, HostPathType := some hostPathDir } } }

/-- Go `volumeMountDockerLib`: its mount path is `volumeDockerLib.VolumeSource.HostPath.Path`. -/
def volumeMountDockerLib (c : Common) : VolumeMount :=
  { Name := (volumeDockerLib c).Name, ReadOnly := true,
    MountPath := c.DockerLibHostPath, SubPath := "" }

/-- Go `envFromField(envVarName, fieldPath)`. -/
def envFromField (envVarName fieldPath : String) : EnvVar :=
  { Name := envVarName, Value := "",
    ValueFrom := some { FieldRef := some { APIVersion := "v1", FieldPath := fieldPath } } }

/-- Go `execEnvVars`. -/
def execEnvVars (c : Common) : List EnvVar :=
  [ envFromField c.EnvVarHostIP "status.hostIP",
    envFromField c.EnvVarPodIP "status.podIP",
    envFromField c.EnvVarPodName "metadata.name",
    envFromField c.EnvVarNamespace "metadata.namespace" ]

/-! ## Role containers -/

/-- Go `woc.newExecContainer(name, privileged)`. -/
def newExecContainer (im : Imports) (woc : wfOperationCtx) (name : String) (privileged : Bool) :
    Container :=
  { Name := name,
    Image := woc.controller.Config.ExecutorImage,
    Command := [], Args := [], WorkingDir := "",
    Env := execEnvVars im.common,
    Resources :=
      { Limits := [("cpu", "0.5"), ("memory", "512Mi")],
        Requests := [("cpu", "0.1"), ("memory", "64Mi")] },
    VolumeMounts := [],
    SecurityContext := some { Privileged := some privileged } }

/-- Go `woc.newInitContainer(tmpl)`. -/
def newInitContainer (im : Imports) (woc : wfOperationCtx) (_tmpl : Template) : Container :=
  let ctr := newExecContainer im woc im.common.InitContainerName false
  let ctr := { ctr with Command := ["sh", "-c"] }
  let argoExecCmd :=
    "echo sleeping; cat " ++ im.common.PodMetadataAnnotationsPath ++ "; sleep 10; find /argo; echo done"
  let ctr := { ctr with Args := [argoExecCmd] }
  { ctr with VolumeMounts := [volumeMountPodMetadata im.common] }

/-- Go `woc.newWaitContainer(tmpl)`: its error is always `nil`. -/
def newWaitContainer (im : Imports) (woc : wfOperationCtx) (_tmpl : Template) : Outcome Container :=
  let ctr := newExecContainer im woc im.common.WaitContainerName false
  let ctr := { ctr with Command := ["sh", "-c"] }
  let argoExecCmd :=
    "echo sleeping; cat " ++ im.common.PodMetadataAnnotationsPath ++ "; sleep 10; echo done"
  let ctr := { ctr with Args := [argoExecCmd] }
  .ok { ctr with VolumeMounts := [volumeMountPodMetadata im.common, volumeMountDockerLib im.common] }

/-! ## Volume references -/

/-- Go `getVolByName(name, wf)`: the first volume of the workflow spec with that name, else
the first recorded claim with that name, else `nil`. -/
def getVolByName (name : String) (wf : Workflow) : Option Volume :=
  match wf.Spec.Volumes.find? (fun vol => vol.Name == name) with
  | some vol => some vol
  | none => wf.Status.PersistentVolumeClaims.find? (fun pvc => pvc.Name == name)

/-- The loop of `addVolumeReferences` over the remaining mounts of the container. -/
def addVolumeReferences_loop (woc : wfOperationCtx) : List VolumeMount → Pod → Outcome Pod
  | [], pod => .ok pod
  | volMnt :: rest, pod =>
    match getVolByName volMnt.Name woc.wf with
    | none =>
      .error (errors.Errorf .CodeBadRequest
        ("volume '" ++ volMnt.Name ++ "' not found in workflow spec"))
    | some vol =>
      addVolumeReferences_loop woc rest
        { pod with Spec.Volumes := pod.Spec.Volumes ++ [vol] }

/-- Go `woc.addVolumeReferences(pod, tmpl)`. -/
def addVolumeReferences (woc : wfOperationCtx) (pod : Pod) (tmpl : Template) : Outcome Pod :=
  match tmpl.Container with
  | none => .ok pod
  | some ctr => addVolumeReferences_loop woc ctr.VolumeMounts pod

/-! ## Input artifacts -/

/-- The volume `artVol` of `addInputArtifactsVolumes`. -/
def artVol : Volume :=
  { Name := "input-artifacts",
    VolumeSource := { VolumeSource.zero with EmptyDir := some { Medium := "" } } }

/-- The first loop of `addInputArtifactsVolumes`, over `pod.Spec.InitContainers`: the
first container named `InitContainerName` receives the artifact mount and one
`/mainctrfs` mount per mount of `tmpl.Container`, then the loop breaks. Ranging over
`tmpl.Container.VolumeMounts` dereferences `tmpl.Container`, which panics when it is
`nil`. -/
def addInputArtifactsVolumes_initLoop (c : Common) (tmpl : Template) :
    List Container → Outcome (List Container)
  | [] => .ok []
  | initCtr :: rest =>
    if initCtr.Name = c.InitContainerName then
      let volMount : VolumeMount :=
        { Name := artVol.Name, ReadOnly := false,
          MountPath := c.ExecutorArtifactBaseDir, SubPath := "" }
      let initCtr := { initCtr with VolumeMounts := initCtr.VolumeMounts ++ [volMount] }
      match tmpl.Container with
      | none => .panic nilDereference
      | some tmplCtr =>
        let initCtr :=
          { initCtr with
            VolumeMounts :=
              tmplCtr.VolumeMounts.foldl
                (fun (mounts : List VolumeMount) (mnt : VolumeMount) =>
                  mounts ++ [{ mnt with MountPath := "/mainctrfs" ++ mnt.MountPath }])
                initCtr.VolumeMounts }
        let initCtr := { initCtr with Command := ["sh", "-c"] }
        let initCtr := { initCtr with Args := ["sleep 999999; echo done"] }
        .ok (initCtr :: rest)
    else
      match addInputArtifactsVolumes_initLoop c tmpl rest with
      | .ok rest => .ok (initCtr :: rest)
      | .error e => .error e
      | .panic m => .panic m

/-- State of the second loop of `addInputArtifactsVolumes`, over `pod.Spec.Containers`.
`mainCtr` points to the loop variable `ctr`, which is one variable for the whole loop:
after the loop `*mainCtr` is the value `ctr` had in the last iteration. -/
structure MainCtrScan where
  Containers : List Container
  mainCtrIndex : Nat
  mainCtrSet : Bool
  ctr : Container

/-- The second loop of `addInputArtifactsVolumes`, from index `i` on. -/
def addInputArtifactsVolumes_scan (c : Common) : List Container → Nat → MainCtrScan → MainCtrScan
  | [], _, st => st
  | ctr :: rest, i, st =>
    let st :=
      if ctr.Name = c.MainContainerName then
        { st with mainCtrIndex := i, mainCtrSet := true }
      else st
    if ctr.Name = c.WaitContainerName then
      let ctr := { ctr with Command := ["sh", "-c"] }
      let ctr := { ctr with Args := ["sleep 999999; echo done"] }
      addInputArtifactsVolumes_scan c rest (i + 1)
        { st with ctr := ctr, Containers := st.Containers.set i ctr }
    else
      addInputArtifactsVolumes_scan c rest (i + 1) { st with ctr := ctr }

/-- The third loop of `addInputArtifactsVolumes`, over the input artifacts: an artifact
without a path ends it with a bad-request error; an artifact whose path overlaps a
mount of the template is skipped; any other adds a mount to the main container. -/
def addInputArtifactsVolumes_artLoop (c : Common) (tmpl : Template) :
    List Artifact → Container → Outcome Container
  | [], mainCtr => .ok mainCtr
  | art :: rest, mainCtr =>
    if art.Path = "" then
      .error (errors.Errorf .CodeBadRequest
        ("inputs.artifacts." ++ art.Name ++ " did not specify a path"))
    else
      match c.FindOverlappingVolume tmpl art.Path with
      | some _ => addInputArtifactsVolumes_artLoop c tmpl rest mainCtr
      | none =>
        let volMount : VolumeMount :=
          { Name := artVol.Name, ReadOnly := false, MountPath := art.Path, SubPath := art.Name }
        addInputArtifactsVolumes_artLoop c tmpl rest
          { mainCtr with VolumeMounts := mainCtr.VolumeMounts ++ [volMount] }

/-- Go `woc.addInputArtifactsVolumes(pod, tmpl)`. -/
def addInputArtifactsVolumes (c : Common) (pod : Pod) (tmpl : Template) : Outcome Pod :=
  if tmpl.Inputs.Artifacts.length = 0 then
    .ok pod
  else
    let pod := { pod with Spec.Volumes := pod.Spec.Volumes ++ [artVol] }
    match addInputArtifactsVolumes_initLoop c tmpl pod.Spec.InitContainers with
    | .error e => .error e
    | .panic m => .panic m
    | .ok initCtrs =>
      let pod := { pod with Spec.InitContainers := initCtrs }
      let st := addInputArtifactsVolumes_scan c pod.Spec.Containers 0
        { Containers := pod.Spec.Containers, mainCtrIndex := 0, mainCtrSet := false,
          ctr := Container.zero }
      let pod := { pod with Spec.Containers := st.Containers }
      if st.mainCtrSet = false then
        .panic "Could not find main container in pod spec"
      else
        match addInputArtifactsVolumes_artLoop c tmpl tmpl.Inputs.Artifacts st.ctr with
        | .error e => .error e
        | .panic m => .panic m
        | .ok mainCtr =>
          .ok { pod with Spec.Containers := pod.Spec.Containers.set st.mainCtrIndex mainCtr }

/-! ## Output artifacts -/

/-- The body of the loop of `addOutputArtifactsRepoMetaData` for one artifact: the value
stored back at its index (an artifact with a location is skipped, so stays as it is). -/
def addOutputArtifactsRepoMetaData_step (im : Imports) (woc : wfOperationCtx) (pod : Pod)
    (art : Artifact) : Artifact :=
  if im.wfv1.HasLocation art then art
  else
    match woc.controller.Config.ArtifactRepository.S3 with
    | some s3 =>
      let keyPrefix := if s3.KeyPrefix ≠ "" then s3.KeyPrefix ++ "/" else ""
      let artLocationKey :=
        keyPrefix ++ GoMap.get pod.ObjectMeta.Labels im.common.LabelKeyWorkflow ++ "/" ++
          pod.ObjectMeta.Name ++ "/" ++ art.Name
      { art with S3 := some { S3Bucket := s3.S3Bucket, Key := artLocationKey } }
    | none => art

/-- Go `woc.addOutputArtifactsRepoMetaData(pod, tmpl)`: returns the template as the call
leaves it; index `i` of the output artifacts is rewritten from the artifact at `i`. -/
def addOutputArtifactsRepoMetaData (im : Imports) (woc : wfOperationCtx) (pod : Pod)
    (tmpl : Template) : Template :=
  { tmpl with
    Outputs.Artifacts := tmpl.Outputs.Artifacts.map (addOutputArtifactsRepoMetaData_step im woc pod) }

/-! ## Script volume -/

/-- The volume `scriptVol` of `addScriptVolume`, named `volName = "script"`. -/
def scriptVol : Volume :=
  { Name := "script",
    VolumeSource := { VolumeSource.zero with EmptyDir := some { Medium := "" } } }

/-- The mount `volMount` of the script volume in `addScriptVolume`. -/
def scriptVolMount (c : Common) : VolumeMount :=
  { Name := scriptVol.Name, ReadOnly := false, MountPath := c.ScriptTemplateEmptyDir, SubPath := "" }

/-- The first loop of `addScriptVolume`, over `pod.Spec.InitContainers`. -/
def addScriptVolume_initLoop (c : Common) : List Container → List Container
  | [] => []
  | initCtr :: rest =>
    if initCtr.Name = c.InitContainerName then
      let initCtr := { initCtr with VolumeMounts := initCtr.VolumeMounts ++ [scriptVolMount c] }
      let initCtr := { initCtr with Command := ["sh", "-c"] }
      let initCtr :=
        { initCtr with
          Args := ["grep template /argo/podmetadata/annotations | cut -d = -f 2- | jq -rM '.' | jq -rM '.script.source' > /argo/script/source"] }
      initCtr :: rest
    else
      initCtr :: addScriptVolume_initLoop c rest

/-- The arguments given to the wait container by `addScriptVolume`. -/
def scriptWaitArgs : String :=
  "\n\t\t\t\twhile true ; do kubectl get pod $ARGO_POD_NAME -o custom-columns=status:status.containerStatuses[0].state.terminated 2>/dev/null; if [ $? -eq 0 ] ; then break; fi; echo waiting; sleep 5; done &&\n\t\t\t\tcontainer_id=$(kubectl get pod $ARGO_POD_NAME -o jsonpath='\x7b.status.containerStatuses[0].containerID\x7d' | cut -d / -f 3-) &&\n\t\t\t\toutput=$(grep stdout /var/lib/docker/containers/$container_id/*.log | jq -r '.log') &&\n\t\t\t\toutputjson=\x7b\\\"result\\\":\\\"$output\\\"\x7d &&\n\t\t\t\tkubectl annotate pods $ARGO_POD_NAME --overwrite workflows.argoproj.io/outputs=$\x7boutputjson\x7d\n\t\t\t"

/-- The second loop of `addScriptVolume`, over `pod.Spec.Containers`: returns the
containers and `found`. The first container named `MainContainerName` receives the
script mount and ends the loop; a container named `WaitContainerName` met before it
has its command replaced. -/
def addScriptVolume_mainLoop (c : Common) : List Container → List Container × Bool
  | [] => ([], false)
  | ctr :: rest =>
    if ctr.Name = c.MainContainerName then
      ({ ctr with VolumeMounts := ctr.VolumeMounts ++ [scriptVolMount c] } :: rest, true)
    else
      let ctr :=
        if ctr.Name = c.WaitContainerName then
          { ctr with Command := ["sh", "-c"], Args := [scriptWaitArgs] }
        else ctr
      let r := addScriptVolume_mainLoop c rest
      (ctr :: r.1, r.2)

/-- Go `addScriptVolume(pod)`. -/
def addScriptVolume (c : Common) (pod : Pod) : Outcome Pod :=
  let pod := { pod with Spec.Volumes := pod.Spec.Volumes ++ [scriptVol] }
  let pod := { pod with Spec.InitContainers := addScriptVolume_initLoop c pod.Spec.InitContainers }
  let r := addScriptVolume_mainLoop c pod.Spec.Containers
  let pod := { pod with Spec.Containers := r.1 }
  if r.2 = false then .panic "Unable to locate main container" else .ok pod

/-! ## Sidecars -/

/-- The body of the loop of `addSidecars` for one sidecar: the container appended to the
pod. With mirroring on, every mount of the main container is appended to the mounts of
the loop's copy of the sidecar. -/
def addSidecars_step (mainCtr : Container) (sidecar : Sidecar) : Container :=
  if sidecar.Options.VolumeMirroring = some true then
    { sidecar.Container with
      VolumeMounts :=
        mainCtr.VolumeMounts.foldl (fun mounts volMnt => mounts ++ [volMnt])
          sidecar.Container.VolumeMounts }
  else sidecar.Container

/-- Go `addSidecars(pod, tmpl)`: its error is always `nil`. -/
def addSidecars (c : Common) (pod : Pod) (tmpl : Template) : Outcome Pod :=
  if tmpl.Sidecars.length = 0 then
    .ok pod
  else
    match pod.Spec.Containers.find? (fun ctr => ctr.Name == c.MainContainerName) with
    | none => .panic "Unable to locate main container"
    | some mainCtr =>
      .ok { pod with
            Spec.Containers :=
              tmpl.Sidecars.foldl
                (fun ctrs sidecar => ctrs ++ [addSidecars_step mainCtr sidecar])
                pod.Spec.Containers }

/-! ## `createWorkflowPod` -/

/-- The choice of the main container in `createWorkflowPod`: the container of the
template, else one built from its script, else an internal error. -/
def mainContainerOf (c : Common) (tmpl : Template) : Outcome Container :=
  match tmpl.Container with
  | some ctr => .ok ctr
  | none =>
    match tmpl.Script with
    | some script =>
      .ok { Container.zero with
            Image := script.Image,
            Command := script.Command,
            Args := [c.ScriptTemplateSourcePath] }
    | none => .error (errors.InternalError "Cannot create container from non-container/script template")

/-- The pod literal of `createWorkflowPod`. -/
def initialPod (im : Imports) (woc : wfOperationCtx) (nodeName : String)
    (waitCtr mainCtr : Container) : Pod :=
  { ObjectMeta :=
      { Name := im.wfv1.NodeID woc.wf nodeName,
        UID := "",
        Labels :=
          GoMap.set (GoMap.set [] im.common.LabelKeyWorkflow woc.wf.ObjectMeta.Name)
            im.common.LabelKeyArgoWorkflow "true",
        Annotations := GoMap.set [] im.common.AnnotationKeyNodeName nodeName,
        OwnerReferences :=
          [{ APIVersion := im.wfv1.CRDFullName,
             Kind := im.wfv1.CRDKind,
             Name := woc.wf.ObjectMeta.Name,
             UID := woc.wf.ObjectMeta.UID,
             BlockOwnerDeletion := some true }] },
    Spec :=
      { RestartPolicy := "Never",
        InitContainers := [],
        Containers := [waitCtr, mainCtr],
        Volumes := [volumePodMetadata im.common, volumeDockerLib im.common] } }

/-- The pod of `createWorkflowPod` at the call of `addVolumeReferences`: the pod literal,
with the init container when the template has input artifacts or is a script. -/
def startPod (im : Imports) (woc : wfOperationCtx) (nodeName : String) (tmpl : Template)
    (waitCtr mainCtr : Container) : Pod :=
  let pod := initialPod im woc nodeName waitCtr mainCtr
  if tmpl.Inputs.Artifacts.length > 0 ∨ tmpl.Script ≠ none then
    { pod with Spec.InitContainers := [newInitContainer im woc tmpl] }
  else pod

/-- The call `json.Marshal(tmpl)` with its error check. -/
def marshalTemplate (im : Imports) (tmpl : Template) : Outcome String :=
  match im.jsonMarshal tmpl with
  | .error err => .error (.foreign err)
  | .ok tmplBytes => .ok tmplBytes

/-- The assembly part of `createWorkflowPod`: everything up to and including the
template annotation, before `podCl.Create` is called. Returns the assembled pod together
with the copy of the template as the assembly leaves it. -/
def assembleWorkflowPod (im : Imports) (woc : wfOperationCtx) (nodeName : String)
    (tmpl : Template) : Outcome (Pod × Template) := do
  let tmpl := tmpl.DeepCopy
  let waitCtr ← newWaitContainer im woc tmpl
  let mainCtr ← mainContainerOf im.common tmpl
  let mainCtr := { mainCtr with Name := im.common.MainContainerName }
  let pod := startPod im woc nodeName tmpl waitCtr mainCtr
  let pod ← addVolumeReferences woc pod tmpl
  let pod ← addInputArtifactsVolumes im.common pod tmpl
  let tmpl := addOutputArtifactsRepoMetaData im woc pod tmpl
  let pod ← (if tmpl.Script ≠ none then addScriptVolume im.common pod else Outcome.ok pod)
  let pod ← addSidecars im.common pod tmpl
  let tmplBytes ← marshalTemplate im tmpl
  let pod :=
    { pod with
      ObjectMeta.Annotations :=
        GoMap.set pod.ObjectMeta.Annotations im.common.AnnotationKeyTemplate tmplBytes }
  Outcome.ok (pod, tmpl)

/-- Go `woc.createWorkflowPod(nodeName, tmpl)`: the returned `error` (`ok ()` for `nil`) and
the pod client after the call. `Create` is called once the pod is assembled; an
already-exists answer counts as success, any other error is wrapped as internal. -/
def createWorkflowPod (im : Imports) (woc : wfOperationCtx) (nodeName : String)
    (tmpl : Template) : Outcome Unit × PodClient :=
  match assembleWorkflowPod im woc nodeName tmpl with
  | .error e => (.error e, woc.controller.podCl)
  | .panic m => (.panic m, woc.controller.podCl)
  | .ok (pod, _) =>
    let podCl := woc.controller.podCl
    let podCl' := { podCl with submitted := podCl.submitted ++ [pod] }
    match podCl.Create pod with
    | .error err =>
      if apierr.IsAlreadyExists err then (.ok (), podCl')
      else (.error (errors.InternalWrapError err), podCl')
    | .ok _created => (.ok (), podCl')

/-! ## The template behind the pointer -/

/-- The objects of type `wfv1.Template` in memory: the object at address `p` is
`heap[p]`. An object is a value with all it owns (its slices and the objects behind its
pointer fields), which is what `DeepCopy` copies. -/
abbrev TemplateHeap := List Template

/-- A pointer `*wfv1.Template`: the address of an object; an address at which the heap
has no object stands for `nil`. -/
abbrev TemplatePtr := Nat

/-- Go `tmpl.DeepCopy()` on pointers: allocates a new object with the value of the one
behind `tmpl` and returns its address; a nil pointer is returned as it is. -/
def TemplateHeap.DeepCopy (heap : TemplateHeap) (tmpl : TemplatePtr) :
    TemplateHeap × TemplatePtr :=
  match heap[tmpl]? with
  | none => (heap, tmpl)
  | some t => (heap ++ [t.DeepCopy], heap.length)

/-- Lines 85 to 153 of `createWorkflowPod`, which read the template and do not write it:
the pod at the call of `addOutputArtifactsRepoMetaData`. -/
def podBeforeOutputArtifacts (im : Imports) (woc : wfOperationCtx) (nodeName : String)
    (tmpl : Template) : Outcome Pod := do
  let waitCtr ← newWaitContainer im woc tmpl
  let mainCtr ← mainContainerOf im.common tmpl
  let mainCtr := { mainCtr with Name := im.common.MainContainerName }
  let pod := startPod im woc nodeName tmpl waitCtr mainCtr
  let pod ← addVolumeReferences woc pod tmpl
  addInputArtifactsVolumes im.common pod tmpl

/-- Lines 156 to 170 of `createWorkflowPod`, which read the template as
`addOutputArtifactsRepoMetaData` left it: the assembled pod. -/
def podAfterOutputArtifacts (im : Imports) (pod : Pod) (tmpl : Template) : Outcome Pod := do
  let pod ← (if tmpl.Script ≠ none then addScriptVolume im.common pod else Outcome.ok pod)
  let pod ← addSidecars im.common pod tmpl
  let tmplBytes ← marshalTemplate im tmpl
  Outcome.ok
    { pod with
      ObjectMeta.Annotations :=
        GoMap.set pod.ObjectMeta.Annotations im.common.AnnotationKeyTemplate tmplBytes }

/-- Lines 85 to 170 of `createWorkflowPod` on the object behind the pointer `tmpl`: the
outcome with the assembled pod, and the heap as these lines leave it. The one write is
that of `addOutputArtifactsRepoMetaData` (line 154), which stores the output artifacts
into the object behind `tmpl`; a nil pointer is dereferenced at line 90. -/
def assembleWorkflowPodBody (im : Imports) (woc : wfOperationCtx) (nodeName : String)
    (heap : TemplateHeap) (tmpl : TemplatePtr) : Outcome Pod × TemplateHeap :=
  match heap[tmpl]? with
  | none => (.panic nilDereference, heap)
  | some t =>
    match podBeforeOutputArtifacts im woc nodeName t with
    | .error e => (.error e, heap)
    | .panic m => (.panic m, heap)
    | .ok pod =>
      let written := addOutputArtifactsRepoMetaData im woc pod t
      (podAfterOutputArtifacts im pod written, heap.set tmpl written)

/-- The assembly part of `createWorkflowPod` on pointers: line 84 rebinds `tmpl` to a copy
of the caller's object, and lines 85 to 170 run on that pointer. Returns the outcome with
the assembled pod, and the heap after the call. -/
def assembleWorkflowPodAt (im : Imports) (woc : wfOperationCtx) (nodeName : String)
    (heap : TemplateHeap) (tmpl : TemplatePtr) : Outcome Pod × TemplateHeap :=
  let copied := heap.DeepCopy tmpl
  assembleWorkflowPodBody im woc nodeName copied.1 copied.2

/-! ## The overlap relation of package `common` -/

/-- Modelled from the spec: the pieces of a path between its slashes, as character lists;
the path `/a//b` has the pieces "", "a", "" and "b". -/
def splitSlash : List Char → List (List Char)
  | [] => [[]]
  | c :: cs =>
    if c = '/' then [] :: splitSlash cs
    else
      match splitSlash cs with
      | [] => [[c]]
      | s :: rest => (c :: s) :: rest

/-- Modelled from the spec: the segments of a path. The first one is its root, `/` for an
absolute path and `.` for a relative one; the others are the non-empty pieces between
slashes, so that a doubled or trailing slash makes no segment. -/
def pathSegments (path : String) : List String :=
  (if path.toList.head? = some '/' then "/" else ".") ::
    ((splitSlash path.toList).filter (fun s => !s.isEmpty)).map String.mk

/-- Modelled from the spec: `common.FindOverlappingVolume`, whose source is in package
`common`. An artifact path overlaps an explicit mount of the template's container when
it equals the mount path or is nested under it on a path-segment boundary, that is when
the segments of the mount path are the first segments of the artifact path; the first
overlapping mount in declaration order is returned; a template without a container has
no explicit mounts. -/
def FindOverlappingVolume (tmpl : Template) (path : String) : Option VolumeMount :=
  match tmpl.Container with
  | none => none
  | some ctr =>
    ctr.VolumeMounts.find? (fun mnt =>
      path == mnt.MountPath || (pathSegments mnt.MountPath).isPrefixOf (pathSegments path))

/-! ## Sample inputs -/

/-- Sample values for the constants of package `common`, with the overlap relation above. -/
def sampleCommon : Common :=
  { MainContainerName := "main",
    InitContainerName := "init",
    WaitContainerName := "wait",
    PodMetadataVolumeName := "podmetadata",
    PodMetadataAnnotationsVolumePath := "annotations",
    PodMetadataMountPath := "/argo/podmetadata",
    PodMetadataAnnotationsPath := "/argo/podmetadata/annotations",
    DockerLibVolumeName := "docker-lib",
    DockerLibHostPath := "/var/lib/docker",
    EnvVarHostIP := "ARGO_HOST_IP",
    EnvVarPodIP := "ARGO_POD_IP",
    EnvVarPodName := "ARGO_POD_NAME",
    EnvVarNamespace := "ARGO_NAMESPACE",
    LabelKeyWorkflow := "workflows.argoproj.io/workflow",
    LabelKeyArgoWorkflow := "workflows.argoproj.io/argo-workflow",
    AnnotationKeyNodeName := "workflows.argoproj.io/node-name",
    AnnotationKeyTemplate := "workflows.argoproj.io/template",
    ExecutorArtifactBaseDir := "/argo/inputs/artifacts",
    ScriptTemplateEmptyDir := "/argo/script",
    ScriptTemplateSourcePath := "/argo/script/source",
    FindOverlappingVolume := FindOverlappingVolume }

/-- Sample imports: a node id made of the workflow and node names, a location test that
looks at the three location fields, and a serializer that always succeeds. -/
def sampleImports : Imports :=
  { common := sampleCommon,
    wfv1 :=
      { CRDFullName := "workflows.argoproj.io",
        CRDKind := "Workflow",
        NodeID := fun wf name => wf.ObjectMeta.Name ++ "-" ++ name,
        HasLocation := fun a => a.S3.isSome || a.Git.isSome || a.HTTP.isSome },
    jsonMarshal := fun tmpl => .ok tmpl.Name }

/-- A serializer that always fails. -/
def failingMarshal : Template → Except ForeignError String :=
  fun _ => .error (.other "json: unsupported type")

/-- A workflow named `wf` that declares the volume `data-vol`. -/
def sampleWorkflow : Workflow :=
  { ObjectMeta := { Name := "wf", UID := "uid-1", Labels := [], Annotations := [], OwnerReferences := [] },
    Spec := { Volumes := [{ Name := "data-vol", VolumeSource := VolumeSource.zero }] },
    Status := { PersistentVolumeClaims := [] } }

/-- A pod client whose `Create` answers with `answer` and that has seen no pod yet. -/
def sampleClient (answer : Option ForeignError) : PodClient :=
  { Create := fun pod => match answer with
      | none => .ok pod
      | some err => .error err,
    submitted := [] }

/-- An operation context on `sampleWorkflow` with the given default repository. -/
def sampleCtx (repo : Option S3ArtifactRepository) (answer : Option ForeignError) : wfOperationCtx :=
  { wf := sampleWorkflow,
    controller :=
      { Config := { ExecutorImage := "argoexec:latest", ArtifactRepository := { S3 := repo } },
        podCl := sampleClient answer } }

/-- An artifact with a name and a path and no location. -/
def mkArtifact (name path : String) : Artifact :=
  { Name := name, Path := path, S3 := none, Git := none, HTTP := none }

/-- A mount of volume `name` at `path`. -/
def mkMount (name path : String) : VolumeMount :=
  { Name := name, ReadOnly := false, MountPath := path, SubPath := "" }

/-- The user container `busybox` with the given mounts. -/
def busybox (mounts : List VolumeMount) : Container :=
  { Container.zero with Name := "user", Image := "busybox", VolumeMounts := mounts }

/-- A container template. -/
def containerTemplate (mounts : List VolumeMount) (inputs outputs : List Artifact)
    (sidecars : List Sidecar) : Template :=
  { Name := "step", Inputs := { Artifacts := inputs }, Outputs := { Artifacts := outputs },
    Container := some (busybox mounts), Script := none, Sidecars := sidecars }

/-- A script template running `python:3`. -/
def scriptTemplate (inputs outputs : List Artifact) (sidecars : List Sidecar) : Template :=
  { Name := "step", Inputs := { Artifacts := inputs }, Outputs := { Artifacts := outputs },
    Container := none,
    Script := some { Image := "python:3", Command := ["python"], Source := "print(1)" },
    Sidecars := sidecars }

/-- A template with neither container nor script. -/
def emptyTemplate : Template :=
  { Name := "step", Inputs := { Artifacts := [] }, Outputs := { Artifacts := [] },
    Container := none, Script := none, Sidecars := [] }

/-! ## Auxiliary definitions for the statements -/

/-- What the second loop of `addInputArtifactsVolumes` leaves of a container: the
command of a container named `WaitContainerName` is replaced. -/
def sleepFix (c : Common) (ctr : Container) : Container :=
  if ctr.Name = c.WaitContainerName then
    { ctr with Command := ["sh", "-c"], Args := ["sleep 999999; echo done"] }
  else ctr

/-- The mount that `addInputArtifactsVolumes` gives the main container for an artifact. -/
def artifactMount (art : Artifact) : VolumeMount :=
  { Name := "input-artifacts", ReadOnly := false, MountPath := art.Path, SubPath := art.Name }

/-- The mounts that `addInputArtifactsVolumes` gives the main container: one per input
artifact, in declaration order, for which no overlapping mount is reported. -/
def artifactMounts (c : Common) (tmpl : Template) : List VolumeMount :=
  (tmpl.Inputs.Artifacts.filter
    (fun art => (c.FindOverlappingVolume tmpl art.Path).isNone)).map artifactMount

/-- What the first loop of `addInputArtifactsVolumes` leaves of the init container of a
template whose container is `tmplCtr`: the artifact mount, then every mount of
`tmplCtr` under `/mainctrfs`, and the debug command. -/
def stagedInit (c : Common) (tmplCtr : Container) (initCtr : Container) : Container :=
  { initCtr with
    VolumeMounts :=
      initCtr.VolumeMounts ++
        [{ Name := "input-artifacts", ReadOnly := false,
           MountPath := c.ExecutorArtifactBaseDir, SubPath := "" }] ++
        tmplCtr.VolumeMounts.map (fun mnt => { mnt with MountPath := "/mainctrfs" ++ mnt.MountPath }),
    Command := ["sh", "-c"],
    Args := ["sleep 999999; echo done"] }

/-- What the first loop of `addScriptVolume` leaves of the init container. -/
def scriptInit (c : Common) (initCtr : Container) : Container :=
  { initCtr with
    VolumeMounts := initCtr.VolumeMounts ++ [scriptVolMount c],
    Command := ["sh", "-c"],
    Args := ["grep template /argo/podmetadata/annotations | cut -d = -f 2- | jq -rM '.' | jq -rM '.script.source' > /argo/script/source"] }

/-- What the second loop of `addScriptVolume` leaves of a container met before the main
container. -/
def scriptWait (c : Common) (ctr : Container) : Container :=
  if ctr.Name = c.WaitContainerName then
    { ctr with Command := ["sh", "-c"], Args := [scriptWaitArgs] }
  else ctr

/-- A repository `bucket` with key prefix `store`. -/
def storeRepo : S3ArtifactRepository :=
  { S3Bucket := { Endpoint := "s3.example.com", Bucket := "bucket" }, KeyPrefix := "store" }

/-- An artifact `name` at `path` with an explicit git location. -/
def gitArtifact (name path : String) : Artifact :=
  { Name := name, Path := path, S3 := none, Git := some { Repo := "https://example.com/repo.git" },
    HTTP := none }

/-- The main container that `createWorkflowPod` builds for a script, once named. -/
def scriptMainContainer (c : Common) (script : Script) : Container :=
  { Container.zero with
    Name := c.MainContainerName,
    Image := script.Image,
    Command := script.Command,
    Args := [c.ScriptTemplateSourcePath] }

/-- A workflow that declares `data-vol` twice (host paths `/first`, `/second`) and
records the claims `data-vol` and `scratch`. -/
def shadowWorkflow : Workflow :=
  { ObjectMeta := { Name := "wf", UID := "uid-1", Labels := [], Annotations := [], OwnerReferences := [] },
    Spec :=
      { Volumes :=
          [{ Name := "other", VolumeSource := VolumeSource.zero },
           { Name := "data-vol",
             VolumeSource :=
               { VolumeSource.zero with HostPath := some { Path := "/first", HostPathType := none } } },
           { Name := "data-vol",
             VolumeSource :=
               { VolumeSource.zero with HostPath := some { Path := "/second", HostPathType := none } } }] },
    Status :=
      { PersistentVolumeClaims :=
          [{ Name := "data-vol",
             VolumeSource :=
               { VolumeSource.zero with
                 PersistentVolumeClaim := some { ClaimName := "data-claim", ReadOnly := false } } },
           { Name := "scratch",
             VolumeSource :=
               { VolumeSource.zero with
                 PersistentVolumeClaim := some { ClaimName := "scratch-claim", ReadOnly := false } } }] } }

/-- The explicit mounts of a template: the mounts of its container, none without one. -/
def explicitMounts (tmpl : Template) : List VolumeMount :=
  match tmpl.Container with
  | some ctr => ctr.VolumeMounts
  | none => []

/-- The mount that `addScriptVolume` gives the main container, for a template with a
script; nothing for a template without one. -/
def scriptMounts (c : Common) (tmpl : Template) : List VolumeMount :=
  if tmpl.Script ≠ none then [scriptVolMount c] else []

/-- Segments joined by slashes. -/
def joinSlash : List String → String
  | [] => ""
  | [s] => s
  | s :: t :: rest => s ++ "/" ++ joinSlash (t :: rest)

/-- The absolute path with the given segments: `/` alone for none, `/src/sub` for
`src` and `sub`. -/
def absolutePath (segs : List String) : String := "/" ++ joinSlash segs

/-! ## Basic lemmas -/

theorem Outcome.ok_bind {α β : Type} (a : α) (f : α → Outcome β) :
    (Outcome.ok a >>= f) = f a := rfl

theorem Outcome.error_bind {α β : Type} (e : GoError) (f : α → Outcome β) :
    (Outcome.error e >>= f) = Outcome.error e := rfl

theorem Outcome.panic_bind {α β : Type} (m : String) (f : α → Outcome β) :
    (Outcome.panic m >>= f) = Outcome.panic m := rfl

theorem Outcome.bind_eq_ok {α β : Type} (x : Outcome α) (f : α → Outcome β) (b : β) :
    (x >>= f) = Outcome.ok b ↔ ∃ a, x = Outcome.ok a ∧ f a = Outcome.ok b := by
  cases x with
  | ok a => simp [Outcome.ok_bind]
  | error e => simp [Outcome.error_bind]
  | panic m => simp [Outcome.panic_bind]

/-- Appending the images one at a time is appending the mapped list. -/
theorem foldl_snoc_map {α β : Type} (f : α → β) (l : List α) (init : List β) :
    l.foldl (fun acc x => acc ++ [f x]) init = init ++ l.map f := by
  induction l generalizing init with
  | nil => simp
  | cons x l ih => simp [ih]

theorem GoMap.get_set_self (m : GoMap) (k v : String) : GoMap.get (GoMap.set m k v) k = v := by
  induction m with
  | nil => simp [GoMap.set, GoMap.get]
  | cons p m ih =>
    by_cases h : p.1 = k
    · simp [GoMap.set, GoMap.get, h]
    · simp only [GoMap.set, h, if_false]
      have hb : (p.1 == k) = false := by simpa using h
      simp only [GoMap.get] at ih ⊢
      simpa [List.find?, hb] using ih

/-! ## The steps of the assembly -/

theorem addOutputArtifactsRepoMetaData_Script (im : Imports) (woc : wfOperationCtx) (pod : Pod)
    (tmpl : Template) : (addOutputArtifactsRepoMetaData im woc pod tmpl).Script = tmpl.Script := rfl

theorem addOutputArtifactsRepoMetaData_Sidecars (im : Imports) (woc : wfOperationCtx) (pod : Pod)
    (tmpl : Template) :
    (addOutputArtifactsRepoMetaData im woc pod tmpl).Sidecars = tmpl.Sidecars := rfl

/-- A successful assembly is a successful run of each step in turn. -/
theorem assembleWorkflowPod_ok_iff (im : Imports) (woc : wfOperationCtx) (nodeName : String)
    (tmpl : Template) (pod : Pod) (t' : Template) :
    assembleWorkflowPod im woc nodeName tmpl = .ok (pod, t') ↔
      ∃ waitCtr mainCtr pod1 pod2 pod3 pod4 s,
        newWaitContainer im woc tmpl = .ok waitCtr ∧
        mainContainerOf im.common tmpl = .ok mainCtr ∧
        addVolumeReferences woc (startPod im woc nodeName tmpl waitCtr
           { mainCtr with Name := im.common.MainContainerName }) tmpl = .ok pod1 ∧
        addInputArtifactsVolumes im.common pod1 tmpl = .ok pod2 ∧
        (if tmpl.Script ≠ none then addScriptVolume im.common pod2 else .ok pod2) = .ok pod3 ∧
        addSidecars im.common pod3 (addOutputArtifactsRepoMetaData im woc pod2 tmpl) = .ok pod4 ∧
        marshalTemplate im (addOutputArtifactsRepoMetaData im woc pod2 tmpl) = .ok s ∧
        pod = { pod4 with
                ObjectMeta.Annotations :=
                  GoMap.set pod4.ObjectMeta.Annotations im.common.AnnotationKeyTemplate s } ∧
        t' = addOutputArtifactsRepoMetaData im woc pod2 tmpl := by
  unfold assembleWorkflowPod
  simp only [Template.DeepCopy, Outcome.bind_eq_ok, addOutputArtifactsRepoMetaData_Script,
    Outcome.ok.injEq, Prod.mk.injEq]
  constructor
  · rintro ⟨w, hw, m, hm, p1, h1, p2, h2, p3, h3, p4, h4, s, h5, rfl, rfl⟩
    exact ⟨w, m, p1, p2, p3, p4, s, hw, hm, h1, h2, h3, h4, h5, rfl, rfl⟩
  · rintro ⟨w, m, p1, p2, p3, p4, s, hw, hm, h1, h2, h3, h4, h5, rfl, rfl⟩
    exact ⟨w, hw, m, hm, p1, h1, p2, h2, p3, h3, p4, h4, s, h5, rfl, rfl⟩

theorem scan_two (c : Common) (w m : Container) (hm : m.Name = c.MainContainerName) :
    addInputArtifactsVolumes_scan c [w, m] 0
        { Containers := [w, m], mainCtrIndex := 0, mainCtrSet := false, ctr := Container.zero } =
      { Containers := [sleepFix c w, sleepFix c m], mainCtrIndex := 1, mainCtrSet := true,
        ctr := sleepFix c m } := by
  simp only [addInputArtifactsVolumes_scan, sleepFix, hm]
  split_ifs <;> simp

theorem artLoop_ok (c : Common) (tmpl : Template) (arts : List Artifact) (mainCtr : Container)
    (h : ∀ a ∈ arts, a.Path ≠ "") :
    addInputArtifactsVolumes_artLoop c tmpl arts mainCtr =
      .ok { mainCtr with
            VolumeMounts := mainCtr.VolumeMounts ++
              (arts.filter (fun art => (c.FindOverlappingVolume tmpl art.Path).isNone)).map
                artifactMount } := by
  induction arts generalizing mainCtr with
  | nil => simp [addInputArtifactsVolumes_artLoop]
  | cons a arts ih =>
    have ha : a.Path ≠ "" := h a (by simp)
    have ht : ∀ x ∈ arts, x.Path ≠ "" := fun x hx => h x (by simp [hx])
    simp only [addInputArtifactsVolumes_artLoop, ha, if_false]
    cases hov : c.FindOverlappingVolume tmpl a.Path with
    | none => simp [ih _ ht, hov, List.filter, artVol, artifactMount]
    | some v => simp [ih _ ht, hov, List.filter]

theorem artLoop_error (c : Common) (tmpl : Template) (arts : List Artifact) (mainCtr : Container)
    (h : ∃ a ∈ arts, a.Path = "") :
    ∃ msg, addInputArtifactsVolumes_artLoop c tmpl arts mainCtr =
      .error (errors.Errorf .CodeBadRequest msg) := by
  induction arts generalizing mainCtr with
  | nil => simp at h
  | cons a arts ih =>
    by_cases ha : a.Path = ""
    · refine ⟨"inputs.artifacts." ++ a.Name ++ " did not specify a path", ?_⟩
      simp only [addInputArtifactsVolumes_artLoop, ha, if_true]
    · have ht : ∃ x ∈ arts, x.Path = "" := by
        obtain ⟨x, hx, hp⟩ := h
        rcases List.mem_cons.1 hx with rfl | hx
        · exact absurd hp ha
        · exact ⟨x, hx, hp⟩
      simp only [addInputArtifactsVolumes_artLoop, ha, if_false]
      cases c.FindOverlappingVolume tmpl a.Path with
      | none => exact ih _ ht
      | some v => exact ih _ ht

/-- The loop of `addVolumeReferences` when every mount resolves. -/
theorem addVolumeReferences_loop_ok (woc : wfOperationCtx) (mounts : List VolumeMount) (pod : Pod)
    (h : ∀ m ∈ mounts, getVolByName m.Name woc.wf ≠ none) :
    addVolumeReferences_loop woc mounts pod =
      .ok { pod with
            Spec.Volumes := pod.Spec.Volumes ++
              mounts.filterMap (fun m => getVolByName m.Name woc.wf) } := by
  induction mounts generalizing pod with
  | nil => simp [addVolumeReferences_loop]
  | cons m mounts ih =>
    have hm := h m (by simp)
    have ht : ∀ x ∈ mounts, getVolByName x.Name woc.wf ≠ none := fun x hx => h x (by simp [hx])
    cases hv : getVolByName m.Name woc.wf with
    | none => exact absurd hv hm
    | some v => simp [addVolumeReferences_loop, hv, ih _ ht, List.filterMap]

/-- The loop of `addVolumeReferences` when some mount does not resolve. -/
theorem addVolumeReferences_loop_error (woc : wfOperationCtx) (mounts : List VolumeMount)
    (pod : Pod) (h : ∃ m ∈ mounts, getVolByName m.Name woc.wf = none) :
    ∃ msg, addVolumeReferences_loop woc mounts pod =
      .error (errors.Errorf .CodeBadRequest msg) := by
  induction mounts generalizing pod with
  | nil => simp at h
  | cons m mounts ih =>
    cases hv : getVolByName m.Name woc.wf with
    | none =>
      refine ⟨"volume '" ++ m.Name ++ "' not found in workflow spec", ?_⟩
      simp only [addVolumeReferences_loop, hv]
    | some v =>
      have ht : ∃ x ∈ mounts, getVolByName x.Name woc.wf = none := by
        obtain ⟨x, hx, hp⟩ := h
        rcases List.mem_cons.1 hx with rfl | hx
        · rw [hv] at hp; cases hp
        · exact ⟨x, hx, hp⟩
      simp only [addVolumeReferences_loop, hv]
      exact ih _ ht

/-! ## Submission -/

/-- C1: when the assembly succeeds with pod `r.1`, `createWorkflowPod` returns nil if
`Create` succeeds, nil if `Create` fails with an already-exists error, and the internal
wrap of the error for any other `Create` error; so it succeeds exactly when `Create`
succeeded or reported already-exists. -/
theorem createWorkflowPod_result (im : Imports) (woc : wfOperationCtx) (nodeName : String)
    (tmpl : Template) (r : Pod × Template)
    (h : assembleWorkflowPod im woc nodeName tmpl = .ok r) :
    (∀ created, woc.controller.podCl.Create r.1 = .ok created →
        (createWorkflowPod im woc nodeName tmpl).1 = .ok ()) ∧
    (∀ err, woc.controller.podCl.Create r.1 = .error err → apierr.IsAlreadyExists err = true →
        (createWorkflowPod im woc nodeName tmpl).1 = .ok ()) ∧
    (∀ err, woc.controller.podCl.Create r.1 = .error err → apierr.IsAlreadyExists err = false →
        (createWorkflowPod im woc nodeName tmpl).1 = .error (errors.InternalWrapError err) ∧
        (errors.InternalWrapError err).code? = some Code.CodeInternal) ∧
    ((createWorkflowPod im woc nodeName tmpl).1 = .ok () ↔
        (∃ created, woc.controller.podCl.Create r.1 = .ok created) ∨
        (∃ err, woc.controller.podCl.Create r.1 = .error err ∧
          apierr.IsAlreadyExists err = true)) := by
  obtain ⟨pod, t'⟩ := r
  simp only [createWorkflowPod, h]
  cases hc : woc.controller.podCl.Create pod with
  | ok created => simp
  | error err =>
    cases ha : apierr.IsAlreadyExists err with
    | true => simp [ha]
    | false => simp [ha, errors.InternalWrapError, GoError.code?]

theorem createWorkflowPod_result_witness :
    assembleWorkflowPod sampleImports (sampleCtx none (some (.status "AlreadyExists" "pod exists")))
        "n1" (scriptTemplate [] [] []) =
      .ok (assembleWorkflowPod sampleImports
        (sampleCtx none (some (.status "AlreadyExists" "pod exists"))) "n1"
        (scriptTemplate [] [] [])).value ∧
    (createWorkflowPod sampleImports (sampleCtx none (some (.status "AlreadyExists" "pod exists")))
        "n1" (scriptTemplate [] [] [])).1 = .ok () :=
  ⟨rfl,
   (createWorkflowPod_result sampleImports
      (sampleCtx none (some (.status "AlreadyExists" "pod exists"))) "n1"
      (scriptTemplate [] [] []) _ rfl).2.1 (.status "AlreadyExists" "pod exists") rfl rfl⟩

/-- C2: a template with neither container nor script makes `createWorkflowPod` return the
internal error, and `Create` is not invoked: the pod client is as before the call. -/
theorem createWorkflowPod_neither (im : Imports) (woc : wfOperationCtx) (nodeName : String)
    (tmpl : Template) (hc : tmpl.Container = none) (hs : tmpl.Script = none) :
    (createWorkflowPod im woc nodeName tmpl).1 =
        .error (errors.InternalError "Cannot create container from non-container/script template") ∧
    (errors.InternalError "Cannot create container from non-container/script template").code? =
        some Code.CodeInternal ∧
    (createWorkflowPod im woc nodeName tmpl).2 = woc.controller.podCl ∧
    (createWorkflowPod im woc nodeName tmpl).2.submitted = woc.controller.podCl.submitted := by
  have h : assembleWorkflowPod im woc nodeName tmpl =
      .error (errors.InternalError "Cannot create container from non-container/script template") := by
    simp [assembleWorkflowPod, Template.DeepCopy, newWaitContainer, mainContainerOf, hc, hs,
      Outcome.ok_bind, Outcome.error_bind]
  simp [createWorkflowPod, h, errors.InternalError, GoError.code?]

theorem createWorkflowPod_neither_witness :
    emptyTemplate.Container = none ∧ emptyTemplate.Script = none ∧
    (createWorkflowPod sampleImports (sampleCtx none none) "n1" emptyTemplate).1 =
        .error (errors.InternalError "Cannot create container from non-container/script template") ∧
    (createWorkflowPod sampleImports (sampleCtx none none) "n1" emptyTemplate).2.submitted = [] :=
  ⟨rfl, rfl,
   (createWorkflowPod_neither sampleImports (sampleCtx none none) "n1" emptyTemplate rfl rfl).1,
   (createWorkflowPod_neither sampleImports (sampleCtx none none) "n1" emptyTemplate rfl rfl).2.2.2⟩

/-- A name that occurs in neither list of the workflow does not resolve. -/
theorem getVolByName_eq_none (name : String) (wf : Workflow)
    (hv : ∀ v ∈ wf.Spec.Volumes, v.Name ≠ name)
    (hp : ∀ v ∈ wf.Status.PersistentVolumeClaims, v.Name ≠ name) :
    getVolByName name wf = none := by
  have h1 : wf.Spec.Volumes.find? (fun vol => vol.Name == name) = none := by
    simpa [List.find?_eq_none] using hv
  have h2 : wf.Status.PersistentVolumeClaims.find? (fun pvc => pvc.Name == name) = none := by
    simpa [List.find?_eq_none] using hp
  simp [getVolByName, h1, h2]

/-- C3: a container template with a mount whose name is the name of no declared volume
and of no recorded claim makes `createWorkflowPod` return a bad-request error, whatever
its artifacts and sidecars; `Create` is not invoked. -/
theorem createWorkflowPod_unresolved_mount (im : Imports) (woc : wfOperationCtx)
    (nodeName : String) (tmpl : Template) (ctr : Container) (m : VolumeMount)
    (hc : tmpl.Container = some ctr) (hm : m ∈ ctr.VolumeMounts)
    (hv : ∀ v ∈ woc.wf.Spec.Volumes, v.Name ≠ m.Name)
    (hp : ∀ v ∈ woc.wf.Status.PersistentVolumeClaims, v.Name ≠ m.Name) :
    ∃ e, (createWorkflowPod im woc nodeName tmpl).1 = .error e ∧
      e.code? = some Code.CodeBadRequest ∧
      (createWorkflowPod im woc nodeName tmpl).2.submitted = woc.controller.podCl.submitted := by
  have hn : getVolByName m.Name woc.wf = none := getVolByName_eq_none _ _ hv hp
  obtain ⟨w, hw⟩ : ∃ w, newWaitContainer im woc tmpl = .ok w := ⟨_, rfl⟩
  obtain ⟨msg, hl⟩ := addVolumeReferences_loop_error woc ctr.VolumeMounts
    (startPod im woc nodeName tmpl w { ctr with Name := im.common.MainContainerName })
    ⟨m, hm, hn⟩
  have h : assembleWorkflowPod im woc nodeName tmpl =
      .error (errors.Errorf .CodeBadRequest msg) := by
    simp only [assembleWorkflowPod, Template.DeepCopy, hw, mainContainerOf, hc,
      Outcome.ok_bind, addVolumeReferences]
    rw [hl]
    rfl
  exact ⟨errors.Errorf .CodeBadRequest msg, by simp [createWorkflowPod, h],
    by simp [errors.Errorf, GoError.code?], by simp [createWorkflowPod, h]⟩

theorem createWorkflowPod_unresolved_mount_witness :
    (containerTemplate [mkMount "missing" "/a"] [mkArtifact "CODE" ""] [] []).Container =
        some (busybox [mkMount "missing" "/a"]) ∧
    mkMount "missing" "/a" ∈ (busybox [mkMount "missing" "/a"]).VolumeMounts ∧
    (∀ v ∈ (sampleCtx none none).wf.Spec.Volumes, v.Name ≠ (mkMount "missing" "/a").Name) ∧
    (∀ v ∈ (sampleCtx none none).wf.Status.PersistentVolumeClaims,
        v.Name ≠ (mkMount "missing" "/a").Name) ∧
    ∃ e, (createWorkflowPod sampleImports (sampleCtx none none) "n1"
          (containerTemplate [mkMount "missing" "/a"] [mkArtifact "CODE" ""] [] [])).1 = .error e ∧
      e.code? = some Code.CodeBadRequest ∧
      (createWorkflowPod sampleImports (sampleCtx none none) "n1"
          (containerTemplate [mkMount "missing" "/a"] [mkArtifact "CODE" ""] [] [])).2.submitted =
        (sampleCtx none none).controller.podCl.submitted :=
  ⟨rfl, by decide, by decide, by decide,
   createWorkflowPod_unresolved_mount sampleImports (sampleCtx none none) "n1"
     (containerTemplate [mkMount "missing" "/a"] [mkArtifact "CODE" ""] [] [])
     (busybox [mkMount "missing" "/a"]) (mkMount "missing" "/a") rfl (by decide) (by decide)
     (by decide)⟩

theorem sleepFix_Name (c : Common) (ctr : Container) : (sleepFix c ctr).Name = ctr.Name := by
  unfold sleepFix; split_ifs <;> rfl

theorem sleepFix_VolumeMounts (c : Common) (ctr : Container) :
    (sleepFix c ctr).VolumeMounts = ctr.VolumeMounts := by
  unfold sleepFix; split_ifs <;> rfl

theorem sleepFix_of_ne (c : Common) (ctr : Container) (h : ctr.Name ≠ c.WaitContainerName) :
    sleepFix c ctr = ctr := by
  simp [sleepFix, h]

theorem scriptWait_Name (c : Common) (ctr : Container) : (scriptWait c ctr).Name = ctr.Name := by
  unfold scriptWait; split_ifs <;> rfl

theorem scriptWait_VolumeMounts (c : Common) (ctr : Container) :
    (scriptWait c ctr).VolumeMounts = ctr.VolumeMounts := by
  unfold scriptWait; split_ifs <;> rfl

/-- Result of `addVolumeReferences` on a template without container. -/
theorem addVolumeReferences_none (woc : wfOperationCtx) (pod : Pod) (tmpl : Template)
    (hc : tmpl.Container = none) : addVolumeReferences woc pod tmpl = .ok pod := by
  simp [addVolumeReferences, hc]

/-- A successful `addVolumeReferences` on a container template: every mount resolves, and
only the volumes of the pod grow, by one resolved volume per mount. -/
theorem addVolumeReferences_some_ok (woc : wfOperationCtx) (pod pod1 : Pod) (tmpl : Template)
    (ctr : Container) (hc : tmpl.Container = some ctr)
    (h : addVolumeReferences woc pod tmpl = .ok pod1) :
    (∀ m ∈ ctr.VolumeMounts, getVolByName m.Name woc.wf ≠ none) ∧
    pod1 = { pod with
             Spec.Volumes := pod.Spec.Volumes ++
               ctr.VolumeMounts.filterMap (fun m => getVolByName m.Name woc.wf) } := by
  simp only [addVolumeReferences, hc] at h
  by_cases hall : ∀ m ∈ ctr.VolumeMounts, getVolByName m.Name woc.wf ≠ none
  · rw [addVolumeReferences_loop_ok woc _ _ hall] at h
    exact ⟨hall, (Outcome.ok.inj h).symm⟩
  · have hex : ∃ m ∈ ctr.VolumeMounts, getVolByName m.Name woc.wf = none := by
      by_contra hno
      exact hall (fun m hm hn => hno ⟨m, hm, hn⟩)
    obtain ⟨msg, hl⟩ := addVolumeReferences_loop_error woc ctr.VolumeMounts pod hex
    rw [hl] at h
    cases h

/-- A successful `addVolumeReferences` changes nothing but the volumes of the pod. -/
theorem addVolumeReferences_frame (woc : wfOperationCtx) (pod pod1 : Pod) (tmpl : Template)
    (h : addVolumeReferences woc pod tmpl = .ok pod1) :
    pod1.ObjectMeta = pod.ObjectMeta ∧ pod1.Spec.InitContainers = pod.Spec.InitContainers ∧
    pod1.Spec.Containers = pod.Spec.Containers ∧
    pod1.Spec.RestartPolicy = pod.Spec.RestartPolicy := by
  cases hc : tmpl.Container with
  | none =>
    rw [addVolumeReferences_none woc pod tmpl hc] at h
    cases h
    exact ⟨rfl, rfl, rfl, rfl⟩
  | some ctr =>
    obtain ⟨_, rfl⟩ := addVolumeReferences_some_ok woc pod pod1 tmpl ctr hc h
    exact ⟨rfl, rfl, rfl, rfl⟩

/-- Result of `addInputArtifactsVolumes` on a template without input artifacts. -/
theorem addInputArtifactsVolumes_nil (c : Common) (pod : Pod) (tmpl : Template)
    (h : tmpl.Inputs.Artifacts = []) : addInputArtifactsVolumes c pod tmpl = .ok pod := by
  simp [addInputArtifactsVolumes, h]

/-- Result of `addInputArtifactsVolumes` on a template with input artifacts and no container, when
the first init container is the one named `InitContainerName`: the nil dereference. -/
theorem addInputArtifactsVolumes_nil_container (c : Common) (pod : Pod) (tmpl : Template)
    (i : Container) (rest : List Container)
    (ha : tmpl.Inputs.Artifacts ≠ []) (hc : tmpl.Container = none)
    (hi : pod.Spec.InitContainers = i :: rest) (hn : i.Name = c.InitContainerName) :
    addInputArtifactsVolumes c pod tmpl = .panic nilDereference := by
  have hl : tmpl.Inputs.Artifacts.length ≠ 0 := by
    simpa [List.length_eq_zero] using ha
  simp [addInputArtifactsVolumes, hl, hi, addInputArtifactsVolumes_initLoop, hn, hc]

/-- Result of `addInputArtifactsVolumes` on a container template with input artifacts, for a pod
with the init container and the two containers `createWorkflowPod` gives it. -/
theorem addInputArtifactsVolumes_container (c : Common) (pod : Pod) (tmpl : Template)
    (tmplCtr i w m : Container)
    (ha : tmpl.Inputs.Artifacts ≠ []) (hc : tmpl.Container = some tmplCtr)
    (hi : pod.Spec.InitContainers = [i]) (hn : i.Name = c.InitContainerName)
    (hw : pod.Spec.Containers = [w, m]) (hm : m.Name = c.MainContainerName) :
    addInputArtifactsVolumes c pod tmpl =
      match addInputArtifactsVolumes_artLoop c tmpl tmpl.Inputs.Artifacts (sleepFix c m) with
      | .ok mainCtr =>
        .ok { ObjectMeta := pod.ObjectMeta,
              Spec :=
                { Volumes := pod.Spec.Volumes ++ [artVol],
                  InitContainers := [stagedInit c tmplCtr i],
                  Containers := [sleepFix c w, mainCtr],
                  RestartPolicy := pod.Spec.RestartPolicy } }
      | .error e => .error e
      | .panic msg => .panic msg := by
  have hl : tmpl.Inputs.Artifacts.length ≠ 0 := by
    simpa [List.length_eq_zero] using ha
  simp only [addInputArtifactsVolumes, hl, if_false, hi, addInputArtifactsVolumes_initLoop, hn,
    if_true, hc, hw, scan_two c w m hm, foldl_snoc_map]
  cases addInputArtifactsVolumes_artLoop c tmpl tmpl.Inputs.Artifacts (sleepFix c m) with
  | ok mainCtr => simp [stagedInit, artVol, hn]
  | error e => simp
  | panic msg => simp

theorem addScriptVolume_initLoop_names (c : Common) (l : List Container) :
    (addScriptVolume_initLoop c l).map (fun x => x.Name) = l.map (fun x => x.Name) := by
  induction l with
  | nil => rfl
  | cons i l ih =>
    by_cases h : i.Name = c.InitContainerName
    · simp [addScriptVolume_initLoop, h]
    · simp [addScriptVolume_initLoop, h, ih]

theorem addScriptVolume_mainLoop_names (c : Common) (l : List Container) :
    (addScriptVolume_mainLoop c l).1.map (fun x => x.Name) = l.map (fun x => x.Name) := by
  induction l with
  | nil => rfl
  | cons x l ih =>
    by_cases h : x.Name = c.MainContainerName
    · simp [addScriptVolume_mainLoop, h]
    · simp only [addScriptVolume_mainLoop, h, if_false, List.map_cons, ih]
      split_ifs <;> rfl

/-- A successful `addScriptVolume` adds the script volume and keeps the metadata, the
restart policy and the names of the init containers and of the containers. -/
theorem addScriptVolume_frame (c : Common) (pod pod3 : Pod)
    (h : addScriptVolume c pod = .ok pod3) :
    pod3.ObjectMeta = pod.ObjectMeta ∧
    pod3.Spec.Volumes = pod.Spec.Volumes ++ [scriptVol] ∧
    pod3.Spec.InitContainers.map (fun x => x.Name) =
      pod.Spec.InitContainers.map (fun x => x.Name) ∧
    pod3.Spec.Containers.map (fun x => x.Name) = pod.Spec.Containers.map (fun x => x.Name) := by
  simp only [addScriptVolume] at h
  split_ifs at h with hf
  cases h
  exact ⟨rfl, rfl, addScriptVolume_initLoop_names c _, addScriptVolume_mainLoop_names c _⟩

/-- Result of `addScriptVolume` for a pod with the init container and the two containers
`createWorkflowPod` gives it, when the wait container is not named `MainContainerName`. -/
theorem addScriptVolume_two (c : Common) (pod : Pod) (i w m : Container)
    (hi : pod.Spec.InitContainers = [i]) (hn : i.Name = c.InitContainerName)
    (hc : pod.Spec.Containers = [w, m]) (hw : w.Name ≠ c.MainContainerName)
    (hm : m.Name = c.MainContainerName) :
    addScriptVolume c pod =
      .ok { ObjectMeta := pod.ObjectMeta,
            Spec :=
              { Volumes := pod.Spec.Volumes ++ [scriptVol],
                InitContainers := [scriptInit c i],
                Containers :=
                  [scriptWait c w, { m with VolumeMounts := m.VolumeMounts ++ [scriptVolMount c] }],
                RestartPolicy := pod.Spec.RestartPolicy } } := by
  simp only [addScriptVolume, hi, hc, addScriptVolume_initLoop, addScriptVolume_mainLoop, hn, hw,
    hm, if_true, if_false]
  simp [scriptInit, scriptWait, hn, hm]

theorem addSidecars_step_eq (mainCtr : Container) (sidecar : Sidecar) :
    addSidecars_step mainCtr sidecar =
      if sidecar.Options.VolumeMirroring = some true then
        { sidecar.Container with
          VolumeMounts := sidecar.Container.VolumeMounts ++ mainCtr.VolumeMounts }
      else sidecar.Container := by
  unfold addSidecars_step
  split_ifs
  · have := foldl_snoc_map (fun x : VolumeMount => x) mainCtr.VolumeMounts
      sidecar.Container.VolumeMounts
    simp only [List.map_id'] at this
    rw [this]
  · rfl

/-- A sidecar container in the pod is the sidecar's container up to its mounts. -/
theorem addSidecars_step_frame (mainCtr : Container) (sidecar : Sidecar) :
    { addSidecars_step mainCtr sidecar with VolumeMounts := [] } =
      { sidecar.Container with VolumeMounts := [] } := by
  rw [addSidecars_step_eq]
  split_ifs <;> rfl

/-- Result of `addSidecars` when `mainCtr` is the first container named `MainContainerName`. -/
theorem addSidecars_of_find (c : Common) (pod : Pod) (tmpl : Template) (mainCtr : Container)
    (h : pod.Spec.Containers.find? (fun ctr => ctr.Name == c.MainContainerName) = some mainCtr) :
    addSidecars c pod tmpl =
      .ok { pod with
            Spec.Containers :=
              pod.Spec.Containers ++ tmpl.Sidecars.map (addSidecars_step mainCtr) } := by
  unfold addSidecars
  by_cases hl : tmpl.Sidecars.length = 0
  · have : tmpl.Sidecars = [] := List.length_eq_zero.1 hl
    simp [this]
  · simp only [hl, if_false, h, foldl_snoc_map]

theorem startPod_Containers (im : Imports) (woc : wfOperationCtx) (nodeName : String)
    (tmpl : Template) (w m : Container) :
    (startPod im woc nodeName tmpl w m).Spec.Containers = [w, m] := by
  unfold startPod; simp only []; split_ifs <;> rfl

theorem startPod_InitContainers (im : Imports) (woc : wfOperationCtx) (nodeName : String)
    (tmpl : Template) (w m : Container) :
    (startPod im woc nodeName tmpl w m).Spec.InitContainers =
      if tmpl.Inputs.Artifacts.length > 0 ∨ tmpl.Script ≠ none then
        [newInitContainer im woc tmpl]
      else [] := by
  unfold startPod; simp only []; split_ifs <;> rfl

theorem startPod_Volumes (im : Imports) (woc : wfOperationCtx) (nodeName : String)
    (tmpl : Template) (w m : Container) :
    (startPod im woc nodeName tmpl w m).Spec.Volumes =
      [volumePodMetadata im.common, volumeDockerLib im.common] := by
  unfold startPod; simp only []; split_ifs <;> rfl

theorem startPod_ObjectMeta (im : Imports) (woc : wfOperationCtx) (nodeName : String)
    (tmpl : Template) (w m : Container) :
    (startPod im woc nodeName tmpl w m).ObjectMeta = (initialPod im woc nodeName w m).ObjectMeta := by
  unfold startPod; simp only []; split_ifs <;> rfl

theorem newInitContainer_Name (im : Imports) (woc : wfOperationCtx) (tmpl : Template) :
    (newInitContainer im woc tmpl).Name = im.common.InitContainerName := rfl

/-- A script template (no container) with input artifacts: the assembly panics with the
nil dereference of `tmpl.Container` in `addInputArtifactsVolumes`. -/
theorem assembleWorkflowPod_script_artifacts_panic (im : Imports) (woc : wfOperationCtx)
    (nodeName : String) (tmpl : Template) (script : Script)
    (hc : tmpl.Container = none) (hs : tmpl.Script = some script)
    (ha : tmpl.Inputs.Artifacts ≠ []) :
    assembleWorkflowPod im woc nodeName tmpl = .panic nilDereference := by
  obtain ⟨w, hw⟩ : ∃ w, newWaitContainer im woc tmpl = .ok w := ⟨_, rfl⟩
  have hcond : tmpl.Inputs.Artifacts.length > 0 ∨ tmpl.Script ≠ none := Or.inr (by simp [hs])
  simp only [assembleWorkflowPod, Template.DeepCopy, hw, mainContainerOf, hc, hs,
    Outcome.ok_bind, addVolumeReferences_none woc _ tmpl hc]
  rw [addInputArtifactsVolumes_nil_container im.common _ tmpl (newInitContainer im woc tmpl) []
    ha hc (by rw [startPod_InitContainers, if_pos hcond]) rfl]
  rfl

/-- A container template with an input artifact without a path: the assembly returns a
bad-request error (from the artifact loop, or earlier from an unresolved mount). -/
theorem assembleWorkflowPod_container_empty_path (im : Imports) (woc : wfOperationCtx)
    (nodeName : String) (tmpl : Template) (ctr : Container)
    (hc : tmpl.Container = some ctr) (ha : ∃ a ∈ tmpl.Inputs.Artifacts, a.Path = "") :
    ∃ msg, assembleWorkflowPod im woc nodeName tmpl =
      .error (errors.Errorf .CodeBadRequest msg) := by
  obtain ⟨w, hw⟩ : ∃ w, newWaitContainer im woc tmpl = .ok w := ⟨_, rfl⟩
  have hne : tmpl.Inputs.Artifacts ≠ [] := by
    obtain ⟨a, hmem, -⟩ := ha
    exact List.ne_nil_of_mem hmem
  have hcond : tmpl.Inputs.Artifacts.length > 0 ∨ tmpl.Script ≠ none :=
    Or.inl (List.length_pos.2 hne)
  by_cases hres : ∀ m ∈ ctr.VolumeMounts, getVolByName m.Name woc.wf ≠ none
  · obtain ⟨pod1, hvol, hi1, hc1⟩ : ∃ pod1, addVolumeReferences_loop woc ctr.VolumeMounts
        (startPod im woc nodeName tmpl w { ctr with Name := im.common.MainContainerName }) =
        .ok pod1 ∧ pod1.Spec.InitContainers = [newInitContainer im woc tmpl] ∧
        pod1.Spec.Containers = [w, { ctr with Name := im.common.MainContainerName }] :=
      ⟨_, addVolumeReferences_loop_ok woc ctr.VolumeMounts _ hres,
        by simp only [startPod_InitContainers, if_pos hcond],
        by simp only [startPod_Containers]⟩
    obtain ⟨msg, hl⟩ := artLoop_error im.common tmpl tmpl.Inputs.Artifacts
      (sleepFix im.common { ctr with Name := im.common.MainContainerName }) ha
    refine ⟨msg, ?_⟩
    simp only [assembleWorkflowPod, Template.DeepCopy, hw, mainContainerOf, hc,
      Outcome.ok_bind, addVolumeReferences, hvol]
    rw [addInputArtifactsVolumes_container im.common pod1 tmpl ctr (newInitContainer im woc tmpl) w
      { ctr with Name := im.common.MainContainerName } hne hc hi1 rfl hc1 rfl, hl]
    rfl
  · have hex : ∃ m ∈ ctr.VolumeMounts, getVolByName m.Name woc.wf = none := by
      by_contra hno
      exact hres (fun m hm hn => hno ⟨m, hm, hn⟩)
    obtain ⟨msg, hl⟩ := addVolumeReferences_loop_error woc ctr.VolumeMounts
      (startPod im woc nodeName tmpl w { ctr with Name := im.common.MainContainerName }) hex
    refine ⟨msg, ?_⟩
    simp only [assembleWorkflowPod, Template.DeepCopy, hw, mainContainerOf, hc,
      Outcome.ok_bind, addVolumeReferences]
    rw [hl]
    rfl

/-- C4 (failing input): for the script template with the one input artifact `CODE`
without a path, `createWorkflowPod` does not return the bad-request error: it panics
on the nil `tmpl.Container`, before the paths are looked at. The container template
with the same artifact does return the bad-request error. -/
theorem createWorkflowPod_script_artifact_panics :
    (scriptTemplate [mkArtifact "CODE" ""] [] []).Container = none ∧
    (scriptTemplate [mkArtifact "CODE" ""] [] []).Script ≠ none ∧
    (createWorkflowPod sampleImports (sampleCtx none none) "n1"
        (scriptTemplate [mkArtifact "CODE" ""] [] [])).1 = .panic nilDereference ∧
    (createWorkflowPod sampleImports (sampleCtx none none) "n1"
        (containerTemplate [] [mkArtifact "CODE" ""] [] [])).1 =
      .error (errors.Errorf .CodeBadRequest "inputs.artifacts.CODE did not specify a path") := by
  refine ⟨rfl, by decide, ?_, ?_⟩
  · have h := assembleWorkflowPod_script_artifacts_panic sampleImports (sampleCtx none none) "n1"
      (scriptTemplate [mkArtifact "CODE" ""] [] [])
      { Image := "python:3", Command := ["python"], Source := "print(1)" } rfl rfl (by decide)
    simp [createWorkflowPod, h]
  · rfl

/-- C5: `Create` receives nothing when the assembly fails or panics (the pod client is
as before the call), and receives exactly the assembled pod, once, when the assembly
succeeds; that pod carries the serialized template under `AnnotationKeyTemplate`. A
serializer that fails on every template gives the first case. -/
theorem createWorkflowPod_submits_whole_pod (im : Imports) (woc : wfOperationCtx)
    (nodeName : String) (tmpl : Template) :
    (∀ e, assembleWorkflowPod im woc nodeName tmpl = .error e →
      createWorkflowPod im woc nodeName tmpl = (.error e, woc.controller.podCl)) ∧
    (∀ msg, assembleWorkflowPod im woc nodeName tmpl = .panic msg →
      createWorkflowPod im woc nodeName tmpl = (.panic msg, woc.controller.podCl)) ∧
    (∀ r, assembleWorkflowPod im woc nodeName tmpl = .ok r →
      (createWorkflowPod im woc nodeName tmpl).2.submitted =
        woc.controller.podCl.submitted ++ [r.1] ∧
      im.jsonMarshal r.2 =
        .ok (GoMap.get r.1.ObjectMeta.Annotations im.common.AnnotationKeyTemplate)) ∧
    ((∀ t, ∃ err, im.jsonMarshal t = .error err) →
      (createWorkflowPod im woc nodeName tmpl).2 = woc.controller.podCl ∧
      (createWorkflowPod im woc nodeName tmpl).1 ≠ .ok ()) := by
  refine ⟨?_, ?_, ?_, ?_⟩
  · intro e h
    simp [createWorkflowPod, h]
  · intro msg h
    simp [createWorkflowPod, h]
  · rintro ⟨pod, t'⟩ h
    constructor
    · simp only [createWorkflowPod, h]
      cases woc.controller.podCl.Create pod with
      | ok created => rfl
      | error err => dsimp only; split_ifs <;> rfl
    · obtain ⟨w, m, p1, p2, p3, p4, s, -, -, -, -, -, -, hs, rfl, rfl⟩ :=
        (assembleWorkflowPod_ok_iff im woc nodeName tmpl pod t').1 h
      simp only [GoMap.get_set_self]
      unfold marshalTemplate at hs
      cases hj : im.jsonMarshal (addOutputArtifactsRepoMetaData im woc p2 tmpl) with
      | error err => rw [hj] at hs; cases hs
      | ok b => rw [hj] at hs; cases hs; rfl
  · intro hfail
    cases h : assembleWorkflowPod im woc nodeName tmpl with
    | error e => simp [createWorkflowPod, h]
    | panic msg => simp [createWorkflowPod, h]
    | ok r =>
      obtain ⟨pod, t'⟩ := r
      obtain ⟨w, m, p1, p2, p3, p4, s, -, -, -, -, -, -, hs, -, -⟩ :=
        (assembleWorkflowPod_ok_iff im woc nodeName tmpl pod t').1 h
      obtain ⟨err, he⟩ := hfail (addOutputArtifactsRepoMetaData im woc p2 tmpl)
      simp [marshalTemplate, he] at hs

theorem createWorkflowPod_submits_whole_pod_witness :
    assembleWorkflowPod sampleImports (sampleCtx none none) "n1"
        (containerTemplate [mkMount "data-vol" "/src"] [mkArtifact "CODE" "/src"] [] []) =
      .ok (assembleWorkflowPod sampleImports (sampleCtx none none) "n1"
        (containerTemplate [mkMount "data-vol" "/src"] [mkArtifact "CODE" "/src"] [] [])).value ∧
    (createWorkflowPod sampleImports (sampleCtx none none) "n1"
        (containerTemplate [mkMount "data-vol" "/src"] [mkArtifact "CODE" "/src"] [] [])).2.submitted =
      (sampleCtx none none).controller.podCl.submitted ++
        [(assembleWorkflowPod sampleImports (sampleCtx none none) "n1"
          (containerTemplate [mkMount "data-vol" "/src"] [mkArtifact "CODE" "/src"] [] [])).value.1] ∧
    assembleWorkflowPod sampleImports (sampleCtx none none) "n1"
        (containerTemplate [] [mkArtifact "CODE" ""] [] []) =
      .error (errors.Errorf .CodeBadRequest "inputs.artifacts.CODE did not specify a path") ∧
    createWorkflowPod sampleImports (sampleCtx none none) "n1"
        (containerTemplate [] [mkArtifact "CODE" ""] [] []) =
      (.error (errors.Errorf .CodeBadRequest "inputs.artifacts.CODE did not specify a path"),
        (sampleCtx none none).controller.podCl) :=
  ⟨rfl,
   ((createWorkflowPod_submits_whole_pod sampleImports (sampleCtx none none) "n1"
      (containerTemplate [mkMount "data-vol" "/src"] [mkArtifact "CODE" "/src"] [] [])).2.2.1
      _ rfl).1,
   rfl,
   (createWorkflowPod_submits_whole_pod sampleImports (sampleCtx none none) "n1"
      (containerTemplate [] [mkArtifact "CODE" ""] [] [])).1 _ rfl⟩

/-- A list with a container named `MainContainerName` has a first such container. -/
theorem find_main_of_mem (c : Common) (l : List Container) (m : Container) (hm : m ∈ l)
    (hn : m.Name = c.MainContainerName) :
    ∃ mc, l.find? (fun ctr => ctr.Name == c.MainContainerName) = some mc ∧
      mc.Name = c.MainContainerName := by
  cases h : l.find? (fun ctr => ctr.Name == c.MainContainerName) with
  | none =>
    rw [List.find?_eq_none] at h
    exact absurd (by simpa using hn) (h m hm)
  | some mc =>
    exact ⟨mc, rfl, by simpa using List.find?_some h⟩

/-- Result of `addInputArtifactsVolumes` on a container template whose artifacts all have a path,
for a pod as `createWorkflowPod` builds it: the pod it returns has the containers
`[w', m']`, where `w'` has the name and mounts of the wait container and `m'` is the
main container with the artifact mounts appended. -/
theorem addInputArtifactsVolumes_container_ok (im : Imports) (woc : wfOperationCtx)
    (nodeName : String) (tmpl : Template) (tmplCtr w m : Container) (pod : Pod)
    (hc : tmpl.Container = some tmplCtr)
    (hpath : ∀ a ∈ tmpl.Inputs.Artifacts, a.Path ≠ "")
    (hinit : pod.Spec.InitContainers = (startPod im woc nodeName tmpl w m).Spec.InitContainers)
    (hctrs : pod.Spec.Containers = [w, m]) (hm : m.Name = im.common.MainContainerName) :
    ∃ pod2 w' m', addInputArtifactsVolumes im.common pod tmpl = .ok pod2 ∧
      pod2.ObjectMeta = pod.ObjectMeta ∧
      pod2.Spec.Containers = [w', m'] ∧
      w'.Name = w.Name ∧ w'.VolumeMounts = w.VolumeMounts ∧
      m'.Name = im.common.MainContainerName ∧
      m'.VolumeMounts = m.VolumeMounts ++ artifactMounts im.common tmpl ∧
      pod2.Spec.InitContainers.map (fun x => x.Name) =
        pod.Spec.InitContainers.map (fun x => x.Name) := by
  by_cases ha : tmpl.Inputs.Artifacts = []
  · refine ⟨pod, w, m, addInputArtifactsVolumes_nil _ _ _ ha, rfl, hctrs, rfl, rfl, hm, ?_, rfl⟩
    simp [artifactMounts, ha]
  · have hcond : tmpl.Inputs.Artifacts.length > 0 ∨ tmpl.Script ≠ none :=
      Or.inl (List.length_pos.2 ha)
    have hi : pod.Spec.InitContainers = [newInitContainer im woc tmpl] := by
      rw [hinit, startPod_InitContainers, if_pos hcond]
    have h := addInputArtifactsVolumes_container im.common pod tmpl tmplCtr
      (newInitContainer im woc tmpl) w m ha hc hi rfl hctrs hm
    rw [artLoop_ok im.common tmpl _ _ hpath] at h
    refine ⟨_, sleepFix im.common w, _, h, rfl, rfl, sleepFix_Name _ _, sleepFix_VolumeMounts _ _,
      ?_, ?_, ?_⟩
    · simp [sleepFix_Name, hm]
    · simp [sleepFix_VolumeMounts, artifactMounts]
    · simp [hi, stagedInit]

/-- C6: for a container template (no script) whose mounts all resolve and whose input
artifacts all have a path, and a serializer that succeeds, the assembly succeeds and the
second container of the pod, named `MainContainerName`, has as mounts the explicit
mounts of the template's container followed by one `input-artifacts` mount (path of the
artifact, sub-path its name) per input artifact for which `FindOverlappingVolume`
reports nothing. With the overlap relation of the spec: artifact `CODE` at `/src` and no
explicit mount gives exactly the mount (`input-artifacts`, `/src`, `CODE`); with the
explicit mount of `data-vol` at `/src` the payload has only that mount. -/
theorem payload_mounts :
    (∀ (im : Imports) (woc : wfOperationCtx) (nodeName : String) (tmpl : Template)
        (ctr : Container),
      tmpl.Container = some ctr → tmpl.Script = none →
      (∀ m ∈ ctr.VolumeMounts, getVolByName m.Name woc.wf ≠ none) →
      (∀ a ∈ tmpl.Inputs.Artifacts, a.Path ≠ "") →
      (∀ t, ∃ s, im.jsonMarshal t = .ok s) →
      ∃ r waitC mainC rest, assembleWorkflowPod im woc nodeName tmpl = .ok r ∧
        r.1.Spec.Containers = waitC :: mainC :: rest ∧
        mainC.Name = im.common.MainContainerName ∧
        mainC.VolumeMounts =
          ctr.VolumeMounts ++
            (tmpl.Inputs.Artifacts.filter
              (fun art => (im.common.FindOverlappingVolume tmpl art.Path).isNone)).map
              (fun art =>
                { Name := "input-artifacts", ReadOnly := false, MountPath := art.Path,
                  SubPath := art.Name })) ∧
    (((assembleWorkflowPod sampleImports (sampleCtx none none) "n1"
        (containerTemplate [] [mkArtifact "CODE" "/src"] [] [])).value.1.Spec.Containers.map
          (fun x => (x.Name, x.VolumeMounts)))[1]? =
      some ("main",
        [{ Name := "input-artifacts", ReadOnly := false, MountPath := "/src", SubPath := "CODE" }])) ∧
    (((assembleWorkflowPod sampleImports (sampleCtx none none) "n1"
        (containerTemplate [mkMount "data-vol" "/src"] [mkArtifact "CODE" "/src"] [] [])).value.1.Spec.Containers.map
          (fun x => (x.Name, x.VolumeMounts)))[1]? =
      some ("main",
        [{ Name := "data-vol", ReadOnly := false, MountPath := "/src", SubPath := "" }])) := by
  refine ⟨?_, rfl, rfl⟩
  intro im woc nodeName tmpl ctr hc hs hres hpath hj
  obtain ⟨w, hw⟩ : ∃ w, newWaitContainer im woc tmpl = .ok w := ⟨_, rfl⟩
  have hmain : mainContainerOf im.common tmpl = .ok ctr := by simp [mainContainerOf, hc]
  obtain ⟨pod1, hvol, hpod1⟩ : ∃ pod1, addVolumeReferences woc
      (startPod im woc nodeName tmpl w { ctr with Name := im.common.MainContainerName }) tmpl =
      .ok pod1 ∧
      pod1 = { startPod im woc nodeName tmpl w { ctr with Name := im.common.MainContainerName } with
               Spec.Volumes :=
                 (startPod im woc nodeName tmpl w
                   { ctr with Name := im.common.MainContainerName }).Spec.Volumes ++
                 ctr.VolumeMounts.filterMap (fun m => getVolByName m.Name woc.wf) } := by
    refine ⟨_, ?_, rfl⟩
    simp only [addVolumeReferences, hc]
    exact addVolumeReferences_loop_ok woc ctr.VolumeMounts _ hres
  obtain ⟨pod2, w', m', h2, -, hctrs2, -, -, hm'n, hm'v, -⟩ :=
    addInputArtifactsVolumes_container_ok im woc nodeName tmpl ctr w
      { ctr with Name := im.common.MainContainerName } pod1 hc hpath (by rw [hpod1])
      (by rw [hpod1]; exact startPod_Containers im woc nodeName tmpl w _) rfl
  obtain ⟨mc, hfind, -⟩ := find_main_of_mem im.common pod2.Spec.Containers m'
    (by simp [hctrs2]) hm'n
  obtain ⟨s, hs'⟩ := hj (addOutputArtifactsRepoMetaData im woc pod2 tmpl)
  refine ⟨_, w', m', tmpl.Sidecars.map (addSidecars_step mc),
    (assembleWorkflowPod_ok_iff im woc nodeName tmpl _ _).2
    ⟨w, ctr, pod1, pod2, pod2, _, s, hw, hmain, hvol, h2, by simp [hs],
      addSidecars_of_find im.common pod2 _ mc hfind, by simp [marshalTemplate, hs'], rfl, rfl⟩,
    ?_, hm'n, ?_⟩
  · simp only [hctrs2, List.cons_append, List.nil_append, addOutputArtifactsRepoMetaData_Sidecars]
  · simpa [artifactMounts, artifactMount] using hm'v

theorem payload_mounts_witness :
    (containerTemplate [mkMount "data-vol" "/src"] [mkArtifact "CODE" "/src", mkArtifact "LIB" "/lib"]
        [] []).Container = some (busybox [mkMount "data-vol" "/src"]) ∧
    (containerTemplate [mkMount "data-vol" "/src"] [mkArtifact "CODE" "/src", mkArtifact "LIB" "/lib"]
        [] []).Script = none ∧
    ∃ r waitC mainC rest,
      assembleWorkflowPod sampleImports (sampleCtx none none) "n1"
        (containerTemplate [mkMount "data-vol" "/src"]
          [mkArtifact "CODE" "/src", mkArtifact "LIB" "/lib"] [] []) = .ok r ∧
      r.1.Spec.Containers = waitC :: mainC :: rest ∧
      mainC.Name = sampleImports.common.MainContainerName ∧
      mainC.VolumeMounts =
        (busybox [mkMount "data-vol" "/src"]).VolumeMounts ++
          ((containerTemplate [mkMount "data-vol" "/src"]
              [mkArtifact "CODE" "/src", mkArtifact "LIB" "/lib"] [] []).Inputs.Artifacts.filter
            (fun art => (sampleImports.common.FindOverlappingVolume
              (containerTemplate [mkMount "data-vol" "/src"]
                [mkArtifact "CODE" "/src", mkArtifact "LIB" "/lib"] [] []) art.Path).isNone)).map
            (fun art =>
              { Name := "input-artifacts", ReadOnly := false, MountPath := art.Path,
                SubPath := art.Name }) :=
  ⟨rfl, rfl,
   payload_mounts.1 sampleImports (sampleCtx none none) "n1"
     (containerTemplate [mkMount "data-vol" "/src"]
       [mkArtifact "CODE" "/src", mkArtifact "LIB" "/lib"] [] [])
     (busybox [mkMount "data-vol" "/src"]) rfl rfl (by decide) (by decide)
     (fun t => ⟨t.Name, rfl⟩)⟩

/-! ## Output artifact locations -/

/-- A successful `addInputArtifactsVolumes` keeps the metadata of the pod. -/
theorem addInputArtifactsVolumes_ObjectMeta (c : Common) (pod pod2 : Pod) (tmpl : Template)
    (h : addInputArtifactsVolumes c pod tmpl = .ok pod2) : pod2.ObjectMeta = pod.ObjectMeta := by
  unfold addInputArtifactsVolumes at h
  split_ifs at h with h0
  · cases h; rfl
  · simp only [] at h
    split at h
    · cases h
    · cases h
    · split_ifs at h
      split at h
      · cases h
      · cases h
      · cases h; rfl

/-- The workflow label of the pod literal is the name of the workflow. -/
theorem initialPod_workflow_label (im : Imports) (woc : wfOperationCtx) (nodeName : String)
    (w m : Container) (hk : im.common.LabelKeyWorkflow ≠ im.common.LabelKeyArgoWorkflow) :
    GoMap.get (initialPod im woc nodeName w m).ObjectMeta.Labels im.common.LabelKeyWorkflow =
      woc.wf.ObjectMeta.Name := by
  simp [initialPod, GoMap.set, GoMap.get, hk, List.find?]

/-- The step of `addOutputArtifactsRepoMetaData` on an artifact without location, with a
default repository. -/
theorem addOutputArtifactsRepoMetaData_step_eq (im : Imports) (woc : wfOperationCtx) (pod : Pod)
    (a : Artifact) (s3 : S3ArtifactRepository)
    (hr : woc.controller.Config.ArtifactRepository.S3 = some s3)
    (hl : im.wfv1.HasLocation a = false) :
    addOutputArtifactsRepoMetaData_step im woc pod a =
      { a with
        S3 := some
          { S3Bucket := s3.S3Bucket,
            Key := (if s3.KeyPrefix ≠ "" then s3.KeyPrefix ++ "/" else "") ++
              GoMap.get pod.ObjectMeta.Labels im.common.LabelKeyWorkflow ++ "/" ++
              pod.ObjectMeta.Name ++ "/" ++ a.Name } } := by
  simp [addOutputArtifactsRepoMetaData_step, hl, hr]

/-- C7: with a default S3 repository, `addOutputArtifactsRepoMetaData` gives every output
artifact without location the configured bucket and the key
`P ++ workflow label ++ "/" ++ pod name ++ "/" ++ artifact name`, `P` being
`KeyPrefix ++ "/"` for a non-empty `KeyPrefix` and empty otherwise. In
`createWorkflowPod` the label is the name of the workflow and the pod name is
`NodeID(nodeName)`. For the prefix `store` and the artifact `result` of the sample
workflow `wf` at node `n1` the key is `store/wf/wf-n1/result`. -/
theorem addOutputArtifactsRepoMetaData_key :
    (∀ (im : Imports) (woc : wfOperationCtx) (pod : Pod) (tmpl : Template)
        (s3 : S3ArtifactRepository) (i : Nat) (a : Artifact),
      woc.controller.Config.ArtifactRepository.S3 = some s3 →
      tmpl.Outputs.Artifacts[i]? = some a → im.wfv1.HasLocation a = false →
      (addOutputArtifactsRepoMetaData im woc pod tmpl).Outputs.Artifacts[i]? =
        some { a with
               S3 := some
                 { S3Bucket := s3.S3Bucket,
                   Key := (if s3.KeyPrefix ≠ "" then s3.KeyPrefix ++ "/" else "") ++
                     GoMap.get pod.ObjectMeta.Labels im.common.LabelKeyWorkflow ++ "/" ++
                     pod.ObjectMeta.Name ++ "/" ++ a.Name } }) ∧
    (∀ (im : Imports) (woc : wfOperationCtx) (nodeName : String) (tmpl : Template)
        (r : Pod × Template) (s3 : S3ArtifactRepository) (i : Nat) (a : Artifact),
      im.common.LabelKeyWorkflow ≠ im.common.LabelKeyArgoWorkflow →
      assembleWorkflowPod im woc nodeName tmpl = .ok r →
      woc.controller.Config.ArtifactRepository.S3 = some s3 →
      tmpl.Outputs.Artifacts[i]? = some a → im.wfv1.HasLocation a = false →
      r.2.Outputs.Artifacts[i]? =
        some { a with
               S3 := some
                 { S3Bucket := s3.S3Bucket,
                   Key := (if s3.KeyPrefix ≠ "" then s3.KeyPrefix ++ "/" else "") ++
                     woc.wf.ObjectMeta.Name ++ "/" ++ im.wfv1.NodeID woc.wf nodeName ++ "/" ++
                     a.Name } }) ∧
    ((assembleWorkflowPod sampleImports (sampleCtx (some storeRepo) none) "n1"
        (scriptTemplate [] [mkArtifact "result" "/out"] [])).value.2.Outputs.Artifacts =
      [{ Name := "result", Path := "/out",
         S3 := some { S3Bucket := storeRepo.S3Bucket, Key := "store/wf/wf-n1/result" },
         Git := none, HTTP := none }]) := by
  refine ⟨?_, ?_, rfl⟩
  · intro im woc pod tmpl s3 i a hr hi hl
    simp only [addOutputArtifactsRepoMetaData, List.getElem?_map, hi, Option.map_some']
    rw [addOutputArtifactsRepoMetaData_step_eq im woc pod a s3 hr hl]
  · rintro im woc nodeName tmpl ⟨pod, t'⟩ s3 i a hk h hr hi hl
    obtain ⟨w, m, p1, p2, p3, p4, s, -, -, h1, h2, -, -, -, -, rfl⟩ :=
      (assembleWorkflowPod_ok_iff im woc nodeName tmpl pod t').1 h
    have hmeta : p2.ObjectMeta = (initialPod im woc nodeName w
        { m with Name := im.common.MainContainerName }).ObjectMeta := by
      rw [addInputArtifactsVolumes_ObjectMeta _ _ _ _ h2,
        (addVolumeReferences_frame woc _ _ tmpl h1).1, startPod_ObjectMeta]
    simp only [addOutputArtifactsRepoMetaData, List.getElem?_map, hi, Option.map_some']
    rw [addOutputArtifactsRepoMetaData_step_eq im woc p2 a s3 hr hl, hmeta,
      initialPod_workflow_label im woc nodeName _ _ hk]
    rfl

theorem addOutputArtifactsRepoMetaData_key_witness :
    sampleImports.common.LabelKeyWorkflow ≠ sampleImports.common.LabelKeyArgoWorkflow ∧
    (sampleCtx (some storeRepo) none).controller.Config.ArtifactRepository.S3 = some storeRepo ∧
    (containerTemplate [] [] [gitArtifact "src" "/src", mkArtifact "result" "/out"] []).Outputs.Artifacts[1]? =
      some (mkArtifact "result" "/out") ∧
    sampleImports.wfv1.HasLocation (mkArtifact "result" "/out") = false ∧
    (assembleWorkflowPod sampleImports (sampleCtx (some storeRepo) none) "n1"
        (containerTemplate [] [] [gitArtifact "src" "/src", mkArtifact "result" "/out"] [])).value.2.Outputs.Artifacts[1]? =
      some { mkArtifact "result" "/out" with
             S3 := some
               { S3Bucket := storeRepo.S3Bucket,
                 Key := (if storeRepo.KeyPrefix ≠ "" then storeRepo.KeyPrefix ++ "/" else "") ++
                   (sampleCtx (some storeRepo) none).wf.ObjectMeta.Name ++ "/" ++
                   sampleImports.wfv1.NodeID (sampleCtx (some storeRepo) none).wf "n1" ++ "/" ++
                   (mkArtifact "result" "/out").Name } } :=
  ⟨by decide, rfl, rfl, rfl,
   addOutputArtifactsRepoMetaData_key.2.1 sampleImports (sampleCtx (some storeRepo) none) "n1"
     (containerTemplate [] [] [gitArtifact "src" "/src", mkArtifact "result" "/out"] [])
     _ storeRepo 1 (mkArtifact "result" "/out") (by decide) rfl rfl rfl rfl⟩

/-- C8: `addOutputArtifactsRepoMetaData` is a total function on templates (it has no
error result); it keeps the number, order and names of the output artifacts; the
artifact at an index differs from the original at most in its S3 location, and is the
original when the original has a location; without a default S3 repository the template
is unchanged; every other field of the template is unchanged. -/
theorem addOutputArtifactsRepoMetaData_frame (im : Imports) (woc : wfOperationCtx) (pod : Pod)
    (tmpl : Template) :
    (addOutputArtifactsRepoMetaData im woc pod tmpl).Outputs.Artifacts.length =
      tmpl.Outputs.Artifacts.length ∧
    (addOutputArtifactsRepoMetaData im woc pod tmpl).Outputs.Artifacts.map (fun a => a.Name) =
      tmpl.Outputs.Artifacts.map (fun a => a.Name) ∧
    (∀ (i : Nat) (a : Artifact), tmpl.Outputs.Artifacts[i]? = some a →
      ∃ a', (addOutputArtifactsRepoMetaData im woc pod tmpl).Outputs.Artifacts[i]? = some a' ∧
        { a' with S3 := none } = { a with S3 := none } ∧
        (im.wfv1.HasLocation a = true → a' = a)) ∧
    (woc.controller.Config.ArtifactRepository.S3 = none →
      addOutputArtifactsRepoMetaData im woc pod tmpl = tmpl) ∧
    { addOutputArtifactsRepoMetaData im woc pod tmpl with Outputs := tmpl.Outputs } = tmpl := by
  have hstep : ∀ a, { addOutputArtifactsRepoMetaData_step im woc pod a with S3 := none } =
      { a with S3 := none } := by
    intro a
    unfold addOutputArtifactsRepoMetaData_step
    split_ifs
    · rfl
    · cases woc.controller.Config.ArtifactRepository.S3 <;> rfl
  have hname : ∀ a, (addOutputArtifactsRepoMetaData_step im woc pod a).Name = a.Name := by
    intro a
    have := congrArg Artifact.Name (hstep a)
    exact this
  refine ⟨by simp [addOutputArtifactsRepoMetaData], ?_, ?_, ?_, rfl⟩
  · simp [addOutputArtifactsRepoMetaData, Function.comp_def, hname]
  · intro i a hi
    refine ⟨addOutputArtifactsRepoMetaData_step im woc pod a, ?_, hstep a, ?_⟩
    · simp [addOutputArtifactsRepoMetaData, List.getElem?_map, hi]
    · intro hl
      simp [addOutputArtifactsRepoMetaData_step, hl]
  · intro hr
    have : ∀ a, addOutputArtifactsRepoMetaData_step im woc pod a = a := by
      intro a
      unfold addOutputArtifactsRepoMetaData_step
      split_ifs
      · rfl
      · rw [hr]
    simp only [addOutputArtifactsRepoMetaData]
    rw [show tmpl.Outputs.Artifacts.map (addOutputArtifactsRepoMetaData_step im woc pod) =
      tmpl.Outputs.Artifacts from by simp [List.map_congr_left (fun a _ => this a)]]

theorem addOutputArtifactsRepoMetaData_frame_witness :
    (containerTemplate [] [] [gitArtifact "src" "/src", mkArtifact "result" "/out"] []).Outputs.Artifacts[0]? =
      some (gitArtifact "src" "/src") ∧
    sampleImports.wfv1.HasLocation (gitArtifact "src" "/src") = true ∧
    (sampleCtx none none).controller.Config.ArtifactRepository.S3 = none ∧
    (∃ a', (addOutputArtifactsRepoMetaData sampleImports (sampleCtx (some storeRepo) none)
          (initialPod sampleImports (sampleCtx (some storeRepo) none) "n1" Container.zero Container.zero)
          (containerTemplate [] [] [gitArtifact "src" "/src", mkArtifact "result" "/out"] [])).Outputs.Artifacts[0]? =
        some a' ∧
      { a' with S3 := none } = { gitArtifact "src" "/src" with S3 := none } ∧
      (sampleImports.wfv1.HasLocation (gitArtifact "src" "/src") = true →
        a' = gitArtifact "src" "/src")) ∧
    addOutputArtifactsRepoMetaData sampleImports (sampleCtx none none)
        (initialPod sampleImports (sampleCtx none none) "n1" Container.zero Container.zero)
        (containerTemplate [] [] [gitArtifact "src" "/src", mkArtifact "result" "/out"] []) =
      containerTemplate [] [] [gitArtifact "src" "/src", mkArtifact "result" "/out"] [] :=
  ⟨rfl, rfl, rfl,
   (addOutputArtifactsRepoMetaData_frame sampleImports (sampleCtx (some storeRepo) none)
      (initialPod sampleImports (sampleCtx (some storeRepo) none) "n1" Container.zero Container.zero)
      (containerTemplate [] [] [gitArtifact "src" "/src", mkArtifact "result" "/out"] [])).2.2.1
      0 (gitArtifact "src" "/src") rfl,
   (addOutputArtifactsRepoMetaData_frame sampleImports (sampleCtx none none)
      (initialPod sampleImports (sampleCtx none none) "n1" Container.zero Container.zero)
      (containerTemplate [] [] [gitArtifact "src" "/src", mkArtifact "result" "/out"] [])).2.2.2.1
      rfl⟩

/-! ## Roles of the pod -/

theorem newWaitContainer_ok (im : Imports) (woc : wfOperationCtx) (tmpl : Template) :
    ∃ w, newWaitContainer im woc tmpl = .ok w ∧ w.Name = im.common.WaitContainerName ∧
      w.VolumeMounts = [volumeMountPodMetadata im.common, volumeMountDockerLib im.common] :=
  ⟨_, rfl, rfl, rfl⟩

theorem newWaitContainer_Name (im : Imports) (woc : wfOperationCtx) (tmpl : Template)
    (w : Container) (h : newWaitContainer im woc tmpl = .ok w) :
    w.Name = im.common.WaitContainerName := by
  obtain ⟨w', hw', hn, -⟩ := newWaitContainer_ok im woc tmpl
  rw [h] at hw'
  cases hw'
  exact hn

/-- A successful run of the artifact loop keeps the name of the main container. -/
theorem artLoop_Name (c : Common) (tmpl : Template) (arts : List Artifact)
    (mainCtr r : Container) (h : addInputArtifactsVolumes_artLoop c tmpl arts mainCtr = .ok r) :
    r.Name = mainCtr.Name := by
  induction arts generalizing mainCtr with
  | nil =>
    simp only [addInputArtifactsVolumes_artLoop] at h
    cases h; rfl
  | cons a arts ih =>
    simp only [addInputArtifactsVolumes_artLoop] at h
    split_ifs at h
    split at h
    · exact ih _ h
    · have h' := ih _ h
      exact h'

/-- A successful `addInputArtifactsVolumes`, for a pod as `createWorkflowPod` builds it,
keeps the names of the init containers and of the two containers. -/
theorem addInputArtifactsVolumes_names (im : Imports) (woc : wfOperationCtx)
    (nodeName : String) (tmpl : Template) (w m : Container) (pod pod2 : Pod)
    (hinit : pod.Spec.InitContainers = (startPod im woc nodeName tmpl w m).Spec.InitContainers)
    (hctrs : pod.Spec.Containers = [w, m]) (hm : m.Name = im.common.MainContainerName)
    (h : addInputArtifactsVolumes im.common pod tmpl = .ok pod2) :
    pod2.Spec.InitContainers.map (fun x => x.Name) =
      pod.Spec.InitContainers.map (fun x => x.Name) ∧
    pod2.Spec.Containers.map (fun x => x.Name) = [w.Name, im.common.MainContainerName] := by
  by_cases ha : tmpl.Inputs.Artifacts = []
  · rw [addInputArtifactsVolumes_nil _ _ _ ha] at h
    cases h
    exact ⟨rfl, by simp [hctrs, hm]⟩
  · have hcond : tmpl.Inputs.Artifacts.length > 0 ∨ tmpl.Script ≠ none :=
      Or.inl (List.length_pos.2 ha)
    have hi : pod.Spec.InitContainers = [newInitContainer im woc tmpl] := by
      rw [hinit, startPod_InitContainers, if_pos hcond]
    cases hc : tmpl.Container with
    | none =>
      rw [addInputArtifactsVolumes_nil_container im.common pod tmpl _ [] ha hc hi rfl] at h
      cases h
    | some tmplCtr =>
      rw [addInputArtifactsVolumes_container im.common pod tmpl tmplCtr _ w m ha hc hi rfl
        hctrs hm] at h
      cases hl : addInputArtifactsVolumes_artLoop im.common tmpl tmpl.Inputs.Artifacts
          (sleepFix im.common m) with
      | error e => rw [hl] at h; cases h
      | panic msg => rw [hl] at h; cases h
      | ok mainCtr =>
        rw [hl] at h
        cases h
        have hn := artLoop_Name _ _ _ _ _ hl
        simp [hi, stagedInit, sleepFix_Name, hn, hm]

/-- A successful `addSidecars` appends one container per sidecar of the template: the
step of its loop applied to the first container named `MainContainerName`. -/
theorem addSidecars_ok_inv (c : Common) (pod pod4 : Pod) (tmpl : Template)
    (h : addSidecars c pod tmpl = .ok pod4) :
    ∃ mainCtr, pod4 = { pod with
      Spec.Containers := pod.Spec.Containers ++ tmpl.Sidecars.map (addSidecars_step mainCtr) } := by
  cases hf : pod.Spec.Containers.find? (fun ctr => ctr.Name == c.MainContainerName) with
  | some mainCtr =>
    rw [addSidecars_of_find c pod tmpl mainCtr hf] at h
    exact ⟨mainCtr, (Outcome.ok.inj h).symm⟩
  | none =>
    unfold addSidecars at h
    split_ifs at h with hl
    · have : tmpl.Sidecars = [] := List.length_eq_zero.1 hl
      cases h
      exact ⟨Container.zero, by simp [this]⟩
    · simp only [hf] at h
      cases h

/-- A list of containers with two names is a list of two containers. -/
theorem two_of_names (l : List Container) (x y : String)
    (h : l.map (fun ctr => ctr.Name) = [x, y]) :
    ∃ a b, l = [a, b] ∧ a.Name = x ∧ b.Name = y := by
  match l, h with
  | [a, b], h =>
    simp only [List.map_cons, List.map_nil, List.cons.injEq, and_true] at h
    exact ⟨a, b, rfl, h.1, h.2⟩

/-- A list of containers with one name is a list of one container. -/
theorem one_of_names (l : List Container) (x : String)
    (h : l.map (fun ctr => ctr.Name) = [x]) : ∃ a, l = [a] ∧ a.Name = x := by
  cases l with
  | nil => simp at h
  | cons a t =>
    cases t with
    | nil => exact ⟨a, rfl, by simpa using h⟩
    | cons b t => simp at h

/-- C9: in a successfully assembled pod the init containers are exactly one container
named `InitContainerName` when the template has an input artifact or a script, and none
otherwise; the containers are the wait container (named `WaitContainerName`), the main
container (named `MainContainerName`) and then one container per sidecar of the
template, in declaration order, each equal to the sidecar's container up to its mounts;
so there are `2 + len(tmpl.Sidecars)` containers. -/
theorem pod_roles (im : Imports) (woc : wfOperationCtx) (nodeName : String) (tmpl : Template)
    (r : Pod × Template) (h : assembleWorkflowPod im woc nodeName tmpl = .ok r) :
    (if tmpl.Inputs.Artifacts.length > 0 ∨ tmpl.Script ≠ none then
        ∃ initC, r.1.Spec.InitContainers = [initC] ∧ initC.Name = im.common.InitContainerName
      else r.1.Spec.InitContainers = []) ∧
    (∃ waitC mainC sidecarCtrs, r.1.Spec.Containers = waitC :: mainC :: sidecarCtrs ∧
      waitC.Name = im.common.WaitContainerName ∧
      mainC.Name = im.common.MainContainerName ∧
      sidecarCtrs.map (fun x => { x with VolumeMounts := [] }) =
        tmpl.Sidecars.map (fun s => { s.Container with VolumeMounts := [] })) ∧
    r.1.Spec.Containers.length = 2 + tmpl.Sidecars.length := by
  obtain ⟨pod, t'⟩ := r
  obtain ⟨w, m, p1, p2, p3, p4, s, hw, -, h1, h2, h3, h4, -, rfl, rfl⟩ :=
    (assembleWorkflowPod_ok_iff im woc nodeName tmpl pod t').1 h
  have hwn := newWaitContainer_Name im woc tmpl w hw
  obtain ⟨-, hi1, hc1, -⟩ := addVolumeReferences_frame woc _ _ tmpl h1
  rw [startPod_Containers] at hc1
  obtain ⟨hi2, hc2⟩ := addInputArtifactsVolumes_names im woc nodeName tmpl w
    { m with Name := im.common.MainContainerName } p1 p2 hi1 hc1 rfl h2
  rw [hi1, startPod_InitContainers] at hi2
  have h3' : p3.Spec.InitContainers.map (fun x => x.Name) =
        p2.Spec.InitContainers.map (fun x => x.Name) ∧
      p3.Spec.Containers.map (fun x => x.Name) = p2.Spec.Containers.map (fun x => x.Name) := by
    split_ifs at h3 with hs
    · obtain ⟨-, -, hi, hc⟩ := addScriptVolume_frame im.common p2 p3 h3
      exact ⟨hi, hc⟩
    · cases h3; exact ⟨rfl, rfl⟩
  obtain ⟨hi3, hc3⟩ := h3'
  rw [hi2] at hi3
  rw [hc2, hwn] at hc3
  obtain ⟨a, b, hab, han, hbn⟩ := two_of_names _ _ _ hc3
  obtain ⟨mc, rfl⟩ := addSidecars_ok_inv im.common p3 p4 _ h4
  have hside : (tmpl.Sidecars.map (addSidecars_step mc)).map
      (fun x => { x with VolumeMounts := [] }) =
      tmpl.Sidecars.map (fun s => { s.Container with VolumeMounts := [] }) := by
    simp only [List.map_map]
    exact List.map_congr_left (fun s _ => addSidecars_step_frame mc s)
  refine ⟨?_, ⟨a, b, tmpl.Sidecars.map (addSidecars_step mc), ?_, han, hbn, hside⟩, ?_⟩
  · split_ifs with hcond
    · rw [if_pos hcond] at hi3
      exact one_of_names _ _ hi3
    · rw [if_neg hcond] at hi3
      simpa using hi3
  · simp only [hab, addOutputArtifactsRepoMetaData_Sidecars, List.cons_append, List.nil_append]
  · simp only [hab, addOutputArtifactsRepoMetaData_Sidecars, List.length_append, List.length_cons,
      List.length_nil, List.length_map]

theorem pod_roles_witness :
    assembleWorkflowPod sampleImports (sampleCtx none none) "n1"
        (containerTemplate [] [mkArtifact "CODE" "/src"] []
          [{ Container := busybox [], Options := { VolumeMirroring := some true } }]) =
      .ok (assembleWorkflowPod sampleImports (sampleCtx none none) "n1"
        (containerTemplate [] [mkArtifact "CODE" "/src"] []
          [{ Container := busybox [], Options := { VolumeMirroring := some true } }])).value ∧
    (assembleWorkflowPod sampleImports (sampleCtx none none) "n1"
        (containerTemplate [] [mkArtifact "CODE" "/src"] []
          [{ Container := busybox [], Options := { VolumeMirroring := some true } }])).value.1.Spec.Containers.length =
      2 + (containerTemplate [] [mkArtifact "CODE" "/src"] []
          [{ Container := busybox [], Options := { VolumeMirroring := some true } }]).Sidecars.length :=
  ⟨rfl,
   (pod_roles sampleImports (sampleCtx none none) "n1"
      (containerTemplate [] [mkArtifact "CODE" "/src"] []
        [{ Container := busybox [], Options := { VolumeMirroring := some true } }]) _ rfl).2.2⟩

/-! ## Script templates -/

/-- C10: for a script template (no container) without input artifacts, when the wait and
main containers have different names and the serializer succeeds, the assembly succeeds
and the pod has: one init container, with the pod-metadata mount and then the script
mount; as second container the payload, named `MainContainerName`, with the image and
command of the script, the single argument `ScriptTemplateSourcePath` and the single
mount of volume `script` at `ScriptTemplateEmptyDir`; and the volumes pod-metadata,
docker-lib and the empty-dir volume `script`, which is the only volume named `script`
when the two platform volumes have other names. -/
theorem script_pod (im : Imports) (woc : wfOperationCtx) (nodeName : String) (tmpl : Template)
    (script : Script)
    (hs : tmpl.Script = some script) (hc : tmpl.Container = none)
    (ha : tmpl.Inputs.Artifacts = [])
    (hwm : im.common.WaitContainerName ≠ im.common.MainContainerName)
    (hj : ∀ t, ∃ s, im.jsonMarshal t = .ok s) :
    ∃ r initC waitC mainC sidecarCtrs,
      assembleWorkflowPod im woc nodeName tmpl = .ok r ∧
      r.1.Spec.InitContainers = [initC] ∧
      initC.VolumeMounts =
        [volumeMountPodMetadata im.common,
         { Name := "script", ReadOnly := false, MountPath := im.common.ScriptTemplateEmptyDir,
           SubPath := "" }] ∧
      r.1.Spec.Containers = waitC :: mainC :: sidecarCtrs ∧
      mainC.Name = im.common.MainContainerName ∧
      mainC.Image = script.Image ∧
      mainC.Command = script.Command ∧
      mainC.Args = [im.common.ScriptTemplateSourcePath] ∧
      mainC.VolumeMounts =
        [{ Name := "script", ReadOnly := false, MountPath := im.common.ScriptTemplateEmptyDir,
           SubPath := "" }] ∧
      r.1.Spec.Volumes =
        [volumePodMetadata im.common, volumeDockerLib im.common,
         { Name := "script",
           VolumeSource := { VolumeSource.zero with EmptyDir := some { Medium := "" } } }] ∧
      (im.common.PodMetadataVolumeName ≠ "script" → im.common.DockerLibVolumeName ≠ "script" →
        r.1.Spec.Volumes.filter (fun v => v.Name = "script") =
          [{ Name := "script",
             VolumeSource := { VolumeSource.zero with EmptyDir := some { Medium := "" } } }]) := by
  obtain ⟨w, hw, hwn, -⟩ := newWaitContainer_ok im woc tmpl
  have hmain : mainContainerOf im.common tmpl =
      .ok { Container.zero with
            Image := script.Image, Command := script.Command,
            Args := [im.common.ScriptTemplateSourcePath] } := by
    simp [mainContainerOf, hc, hs]
  have hcond : tmpl.Inputs.Artifacts.length > 0 ∨ tmpl.Script ≠ none := Or.inr (by simp [hs])
  have hscript := addScriptVolume_two im.common
    (startPod im woc nodeName tmpl w (scriptMainContainer im.common script))
    (newInitContainer im woc tmpl) w (scriptMainContainer im.common script)
    (by rw [startPod_InitContainers, if_pos hcond]) rfl (startPod_Containers _ _ _ _ _ _)
    (by rw [hwn]; exact hwm) rfl
  have hfind : ∀ (x y : Container), x.Name ≠ im.common.MainContainerName →
      y.Name = im.common.MainContainerName →
      [x, y].find? (fun ctr => ctr.Name == im.common.MainContainerName) = some y := by
    intro x y hx hy
    have hb : (x.Name == im.common.MainContainerName) = false := by simpa using hx
    simp [List.find?, hb, hy]
  obtain ⟨s, hs'⟩ := hj (addOutputArtifactsRepoMetaData im woc
    (startPod im woc nodeName tmpl w (scriptMainContainer im.common script)) tmpl)
  have hmar : marshalTemplate im (addOutputArtifactsRepoMetaData im woc
      (startPod im woc nodeName tmpl w (scriptMainContainer im.common script)) tmpl) = .ok s := by
    unfold marshalTemplate
    rw [hs']
  have hside := addSidecars_of_find im.common
    { ObjectMeta := (startPod im woc nodeName tmpl w
        (scriptMainContainer im.common script)).ObjectMeta,
      Spec :=
        { Volumes := (startPod im woc nodeName tmpl w
            (scriptMainContainer im.common script)).Spec.Volumes ++ [scriptVol],
          InitContainers := [scriptInit im.common (newInitContainer im woc tmpl)],
          Containers :=
            [scriptWait im.common w,
             { scriptMainContainer im.common script with
               VolumeMounts :=
                 (scriptMainContainer im.common script).VolumeMounts ++
                   [scriptVolMount im.common] }],
          RestartPolicy := (startPod im woc nodeName tmpl w
            (scriptMainContainer im.common script)).Spec.RestartPolicy } }
    (addOutputArtifactsRepoMetaData im woc
      (startPod im woc nodeName tmpl w (scriptMainContainer im.common script)) tmpl)
    { scriptMainContainer im.common script with
      VolumeMounts :=
        (scriptMainContainer im.common script).VolumeMounts ++ [scriptVolMount im.common] }
    (hfind (scriptWait im.common w) _ (by rw [scriptWait_Name, hwn]; exact hwm) rfl)
  refine ⟨_, scriptInit im.common (newInitContainer im woc tmpl), scriptWait im.common w,
    { scriptMainContainer im.common script with
      VolumeMounts :=
        (scriptMainContainer im.common script).VolumeMounts ++ [scriptVolMount im.common] },
    tmpl.Sidecars.map (addSidecars_step
      { scriptMainContainer im.common script with
        VolumeMounts :=
          (scriptMainContainer im.common script).VolumeMounts ++ [scriptVolMount im.common] }),
    (assembleWorkflowPod_ok_iff im woc nodeName tmpl _ _).2
      ⟨w, _, _, _, _, _, s, hw, hmain, addVolumeReferences_none woc _ tmpl hc,
        addInputArtifactsVolumes_nil _ _ _ ha,
        by rw [if_pos (by simp [hs])]; exact hscript,
        hside, hmar, rfl, rfl⟩,
    rfl, rfl, rfl, rfl, rfl, rfl, rfl, rfl, ?_, ?_⟩
  · simp [startPod_Volumes, scriptVol]
  · intro h1 h2
    simp [startPod_Volumes, scriptVol, List.filter, volumePodMetadata, volumeDockerLib, h1, h2]

theorem script_pod_witness :
    (scriptTemplate [] [] []).Script =
        some { Image := "python:3", Command := ["python"], Source := "print(1)" } ∧
    (scriptTemplate [] [] []).Container = none ∧
    (scriptTemplate [] [] []).Inputs.Artifacts = [] ∧
    sampleImports.common.WaitContainerName ≠ sampleImports.common.MainContainerName ∧
    (assembleWorkflowPod sampleImports (sampleCtx none none) "n1"
        (scriptTemplate [] [] [])).value.1.Spec.Containers.map
          (fun x => (x.Name, x.Image, x.Command, x.Args, x.VolumeMounts)) =
      [("wait", "argoexec:latest", ["sh", "-c"], [scriptWaitArgs],
          [volumeMountPodMetadata sampleCommon, volumeMountDockerLib sampleCommon]),
       ("main", "python:3", ["python"], ["/argo/script/source"],
          [{ Name := "script", ReadOnly := false, MountPath := "/argo/script", SubPath := "" }])] ∧
    ∃ r initC waitC mainC sidecarCtrs,
      assembleWorkflowPod sampleImports (sampleCtx none none) "n1" (scriptTemplate [] [] []) =
        .ok r ∧
      r.1.Spec.InitContainers = [initC] ∧
      initC.VolumeMounts =
        [volumeMountPodMetadata sampleImports.common,
         { Name := "script", ReadOnly := false,
           MountPath := sampleImports.common.ScriptTemplateEmptyDir, SubPath := "" }] ∧
      r.1.Spec.Containers = waitC :: mainC :: sidecarCtrs ∧
      mainC.Name = sampleImports.common.MainContainerName ∧
      mainC.Image = "python:3" ∧
      mainC.Command = ["python"] ∧
      mainC.Args = [sampleImports.common.ScriptTemplateSourcePath] ∧
      mainC.VolumeMounts =
        [{ Name := "script", ReadOnly := false,
           MountPath := sampleImports.common.ScriptTemplateEmptyDir, SubPath := "" }] ∧
      r.1.Spec.Volumes =
        [volumePodMetadata sampleImports.common, volumeDockerLib sampleImports.common,
         { Name := "script",
           VolumeSource := { VolumeSource.zero with EmptyDir := some { Medium := "" } } }] ∧
      (sampleImports.common.PodMetadataVolumeName ≠ "script" →
        sampleImports.common.DockerLibVolumeName ≠ "script" →
        r.1.Spec.Volumes.filter (fun v => v.Name = "script") =
          [{ Name := "script",
             VolumeSource := { VolumeSource.zero with EmptyDir := some { Medium := "" } } }]) :=
  ⟨rfl, rfl, rfl, by decide, rfl,
   script_pod sampleImports (sampleCtx none none) "n1" (scriptTemplate [] [] [])
     { Image := "python:3", Command := ["python"], Source := "print(1)" } rfl rfl rfl (by decide)
     (fun t => ⟨t.Name, rfl⟩)⟩

/-! ## Volume lookup -/

/-- The first element of a list that satisfies a test is what `find?` returns. -/
theorem find?_first {α : Type} (p : α → Bool) (pre : List α) (v : α) (post : List α)
    (hv : p v = true) (hpre : ∀ u ∈ pre, p u = false) :
    (pre ++ v :: post).find? p = some v := by
  induction pre with
  | nil => simp [List.find?, hv]
  | cons a pre ih =>
    have ha : p a = false := hpre a (by simp)
    have ht : ∀ u ∈ pre, p u = false := fun u hu => hpre u (by simp [hu])
    simp [List.find?, ha, ih ht]

/-- C13: `getVolByName(name, wf)` returns the first volume of `wf.Spec.Volumes` named
`name` when there is one; otherwise the first entry of
`wf.Status.PersistentVolumeClaims` named `name` when there is one; it returns nil
exactly when the name occurs in neither list; and a volume it returns is named
`name`. -/
theorem getVolByName_spec (name : String) (wf : Workflow) :
    (∀ pre v post, wf.Spec.Volumes = pre ++ v :: post → v.Name = name →
      (∀ u ∈ pre, u.Name ≠ name) → getVolByName name wf = some v) ∧
    (∀ pre v post, (∀ u ∈ wf.Spec.Volumes, u.Name ≠ name) →
      wf.Status.PersistentVolumeClaims = pre ++ v :: post → v.Name = name →
      (∀ u ∈ pre, u.Name ≠ name) → getVolByName name wf = some v) ∧
    (getVolByName name wf = none ↔
      (∀ u ∈ wf.Spec.Volumes, u.Name ≠ name) ∧
      (∀ u ∈ wf.Status.PersistentVolumeClaims, u.Name ≠ name)) ∧
    (∀ v, getVolByName name wf = some v → v.Name = name) := by
  refine ⟨?_, ?_, ?_, ?_⟩
  · intro pre v post hl hv hpre
    have := find?_first (fun vol : Volume => vol.Name == name) pre v post (by simpa using hv)
      (fun u hu => by simpa using hpre u hu)
    simp [getVolByName, hl, this]
  · intro pre v post hno hl hv hpre
    have h1 : wf.Spec.Volumes.find? (fun vol => vol.Name == name) = none := by
      simpa [List.find?_eq_none] using hno
    have := find?_first (fun vol : Volume => vol.Name == name) pre v post (by simpa using hv)
      (fun u hu => by simpa using hpre u hu)
    simp [getVolByName, h1, hl, this]
  · constructor
    · intro h
      unfold getVolByName at h
      cases h1 : wf.Spec.Volumes.find? (fun vol => vol.Name == name) with
      | some v => rw [h1] at h; cases h
      | none =>
        rw [h1] at h
        exact ⟨by simpa [List.find?_eq_none] using h1, by simpa [List.find?_eq_none] using h⟩
    · rintro ⟨h1, h2⟩
      exact getVolByName_eq_none name wf h1 h2
  · intro v h
    unfold getVolByName at h
    cases h1 : wf.Spec.Volumes.find? (fun vol => vol.Name == name) with
    | some u =>
      rw [h1] at h
      cases h
      simpa using List.find?_some h1
    | none =>
      rw [h1] at h
      simpa using List.find?_some h

theorem getVolByName_spec_witness :
    shadowWorkflow.Spec.Volumes =
      [{ Name := "other", VolumeSource := VolumeSource.zero }] ++
        { Name := "data-vol",
          VolumeSource :=
            { VolumeSource.zero with HostPath := some { Path := "/first", HostPathType := none } } } ::
        [{ Name := "data-vol",
           VolumeSource :=
             { VolumeSource.zero with
               HostPath := some { Path := "/second", HostPathType := none } } }] ∧
    getVolByName "data-vol" shadowWorkflow =
      some { Name := "data-vol",
             VolumeSource :=
               { VolumeSource.zero with HostPath := some { Path := "/first", HostPathType := none } } } ∧
    getVolByName "scratch" shadowWorkflow =
      some { Name := "scratch",
             VolumeSource :=
               { VolumeSource.zero with
                 PersistentVolumeClaim := some { ClaimName := "scratch-claim", ReadOnly := false } } } ∧
    getVolByName "missing" shadowWorkflow = none :=
  ⟨rfl,
   (getVolByName_spec "data-vol" shadowWorkflow).1
     [{ Name := "other", VolumeSource := VolumeSource.zero }] _ _ rfl rfl (by decide),
   (getVolByName_spec "scratch" shadowWorkflow).2.1
     [{ Name := "data-vol",
        VolumeSource :=
          { VolumeSource.zero with
            PersistentVolumeClaim := some { ClaimName := "data-claim", ReadOnly := false } } }]
     _ [] (by decide) rfl rfl (by decide),
   (getVolByName_spec "missing" shadowWorkflow).2.2.1.2 ⟨by decide, by decide⟩⟩

/-! ## Overlap of artifact paths and explicit mounts -/

/-- What `find?` returns is the first element that satisfies the test. -/
theorem find?_some_first {α : Type} (p : α → Bool) (l : List α) (v : α)
    (h : l.find? p = some v) :
    ∃ pre post, l = pre ++ v :: post ∧ p v = true ∧ ∀ u ∈ pre, p u = false := by
  induction l with
  | nil => simp at h
  | cons a l ih =>
    cases ha : p a with
    | true =>
      simp only [List.find?, ha] at h
      cases h
      exact ⟨[], l, rfl, ha, by simp⟩
    | false =>
      simp only [List.find?, ha] at h
      obtain ⟨pre, post, hl, hv, hpre⟩ := ih h
      refine ⟨a :: pre, post, by simp [hl], hv, ?_⟩
      intro u hu
      rcases List.mem_cons.1 hu with rfl | hu
      · exact ha
      · exact hpre u hu

/-- A path always has pieces. -/
theorem splitSlash_ne_nil (l : List Char) : splitSlash l ≠ [] := by
  cases l with
  | nil => simp [splitSlash]
  | cons c cs =>
    simp only [splitSlash]
    split_ifs
    · simp
    · split <;> simp

/-- The pieces of two paths joined by a slash are the pieces of the one, then those of
the other. -/
theorem splitSlash_append_slash (a b : List Char) :
    splitSlash (a ++ '/' :: b) = splitSlash a ++ splitSlash b := by
  induction a with
  | nil => simp [splitSlash]
  | cons c a ih =>
    rw [List.cons_append, splitSlash, splitSlash, ih]
    split_ifs
    · simp
    · cases h : splitSlash a with
      | nil => exact absurd h (splitSlash_ne_nil a)
      | cons s rest => simp

/-- A path without a slash is one piece. -/
theorem splitSlash_of_no_slash (l : List Char) (h : '/' ∉ l) : splitSlash l = [l] := by
  induction l with
  | nil => rfl
  | cons c l ih =>
    simp only [List.mem_cons, not_or] at h
    have hc : c ≠ '/' := fun e => h.1 e.symm
    simp [splitSlash, hc, ih h.2]

/-- A string other than the empty one has a character. -/
theorem data_isEmpty_false (s : String) (h : s ≠ "") : s.data.isEmpty = false := by
  cases hd : s.data with
  | nil => exact absurd (String.ext (by simpa using hd)) h
  | cons c cs => rfl

/-- The non-empty pieces of segments joined by slashes are these segments. -/
theorem pieces_joinSlash (segs : List String) (h : ∀ s ∈ segs, s ≠ "" ∧ '/' ∉ s.toList) :
    ((splitSlash (joinSlash segs).data).filter (fun s => !s.isEmpty)).map String.mk = segs := by
  induction segs with
  | nil => rfl
  | cons s rest ih =>
    have hs := h s (List.mem_cons_self _ _)
    have hsl : splitSlash s.data = [s.data] := splitSlash_of_no_slash _ hs.2
    have hne := data_isEmpty_false s hs.1
    have hrest := ih (fun u hu => h u (List.mem_cons_of_mem _ hu))
    cases rest with
    | nil =>
      simp only [joinSlash]
      rw [hsl]
      simp [List.filter, hne]
    | cons t rest =>
      have hd : (joinSlash (s :: t :: rest)).data =
          s.data ++ '/' :: (joinSlash (t :: rest)).data := by
        simp [joinSlash, String.data_append]
      rw [hd, splitSlash_append_slash, hsl, List.filter_append, List.map_append, hrest]
      simp [List.filter, hne]

/-- The segments of an absolute path built from segments are its root and these
segments. -/
theorem pathSegments_absolutePath (segs : List String)
    (h : ∀ s ∈ segs, s ≠ "" ∧ '/' ∉ s.toList) :
    pathSegments (absolutePath segs) = "/" :: segs := by
  have h1 : (absolutePath segs).toList = '/' :: (joinSlash segs).data := by
    simp [absolutePath, String.toList, String.data_append]
  simp only [pathSegments, h1, List.head?_cons, if_true, splitSlash]
  have := pieces_joinSlash segs h
  simpa [List.filter] using this

/-- The segments of a path followed by a slash and more start with the segments of that
path. -/
theorem pathSegments_nested (mountPath rest : String) (h : mountPath ≠ "") :
    pathSegments (mountPath ++ "/" ++ rest) =
      pathSegments mountPath ++
        ((splitSlash rest.toList).filter (fun s => !s.isEmpty)).map String.mk := by
  have hne := data_isEmpty_false mountPath h
  have h1 : (mountPath ++ "/" ++ rest).toList = mountPath.toList ++ '/' :: rest.toList := by
    simp [String.toList, String.data_append]
  have h2 : (mountPath.toList ++ '/' :: rest.toList).head? = mountPath.toList.head? := by
    cases hm : mountPath.toList with
    | nil => rw [String.toList] at hm; rw [hm] at hne; cases hne
    | cons c cs => rfl
  simp only [pathSegments, h1, h2, splitSlash_append_slash, List.filter_append, List.map_append,
    List.cons_append]

/-- The test of `FindOverlappingVolume` on one mount, as a proposition. -/
theorem overlap_test_iff (path : String) (mnt : VolumeMount) :
    (path == mnt.MountPath ||
        (pathSegments mnt.MountPath).isPrefixOf (pathSegments path)) = true ↔
      (path = mnt.MountPath ∨ pathSegments mnt.MountPath <+: pathSegments path) := by
  rw [Bool.or_eq_true, List.isPrefixOf_iff_prefix]
  simp

/-- C17: `FindOverlappingVolume(tmpl, path)` returns a mount `m` exactly when `m` is the
first explicit mount of the template's container, in declaration order, whose path
equals `path` or has `path` nested under it on a path-segment boundary, that is whose
segments are the first segments of `path`; so it reports an overlap exactly when some
explicit mount is such, and nothing when there is no explicit mount. Segments are what
stands between slashes: an absolute path built from segments has exactly these after its
root, and for two such paths the relation holds exactly when the segments of the mount
path are a prefix of those of the artifact path; a path followed by a slash and anything
is nested under it, a trailing slash of the mount path changes nothing, and every
absolute path is nested under the root. For a mount at `/src` the paths `/src` and
`/src/sub` overlap and `/srcx`, `/src2` do not; `/src` overlaps a mount at `/` and
`/src/sub` one at `/src/`; a relative path `src` does not overlap a mount at `/src`; of
the overlapping mounts `/src` and `/src/sub` of the path `/src/sub/x`, the one declared
first is returned. -/
theorem FindOverlappingVolume_spec :
    (∀ (tmpl : Template) (ctr : Container) (path : String) (m : VolumeMount),
      tmpl.Container = some ctr →
      (FindOverlappingVolume tmpl path = some m ↔
        ∃ pre post, ctr.VolumeMounts = pre ++ m :: post ∧
          (path = m.MountPath ∨ pathSegments m.MountPath <+: pathSegments path) ∧
          ∀ u ∈ pre,
            ¬ (path = u.MountPath ∨ pathSegments u.MountPath <+: pathSegments path))) ∧
    (∀ (tmpl : Template) (ctr : Container) (path : String), tmpl.Container = some ctr →
      (FindOverlappingVolume tmpl path ≠ none ↔
        ∃ m ∈ ctr.VolumeMounts,
          path = m.MountPath ∨ pathSegments m.MountPath <+: pathSegments path)) ∧
    (∀ (tmpl : Template) (path : String),
      (tmpl.Container = none ∨ ∃ ctr, tmpl.Container = some ctr ∧ ctr.VolumeMounts = []) →
      FindOverlappingVolume tmpl path = none) ∧
    (∀ segs : List String, (∀ s ∈ segs, s ≠ "" ∧ '/' ∉ s.toList) →
      pathSegments (absolutePath segs) = "/" :: segs) ∧
    (∀ msegs psegs : List String,
      (∀ s ∈ msegs, s ≠ "" ∧ '/' ∉ s.toList) → (∀ s ∈ psegs, s ≠ "" ∧ '/' ∉ s.toList) →
      ((absolutePath psegs = absolutePath msegs ∨
          pathSegments (absolutePath msegs) <+: pathSegments (absolutePath psegs)) ↔
        msegs <+: psegs)) ∧
    (∀ mountPath rest : String, mountPath ≠ "" →
      pathSegments mountPath <+: pathSegments (mountPath ++ "/" ++ rest)) ∧
    (∀ mountPath : String, mountPath ≠ "" →
      pathSegments (mountPath ++ "/") = pathSegments mountPath) ∧
    (∀ path : String, path.toList.head? = some '/' →
      pathSegments "/" <+: pathSegments path) ∧
    FindOverlappingVolume (containerTemplate [mkMount "data-vol" "/src"] [] [] []) "/src" =
      some (mkMount "data-vol" "/src") ∧
    FindOverlappingVolume (containerTemplate [mkMount "data-vol" "/src"] [] [] []) "/src/sub" =
      some (mkMount "data-vol" "/src") ∧
    FindOverlappingVolume (containerTemplate [mkMount "data-vol" "/src"] [] [] []) "/srcx" = none ∧
    FindOverlappingVolume (containerTemplate [mkMount "data-vol" "/src"] [] [] []) "/src2" = none ∧
    FindOverlappingVolume (containerTemplate [mkMount "data-vol" "/"] [] [] []) "/src" =
      some (mkMount "data-vol" "/") ∧
    FindOverlappingVolume (containerTemplate [mkMount "data-vol" "/src/"] [] [] []) "/src/sub" =
      some (mkMount "data-vol" "/src/") ∧
    FindOverlappingVolume (containerTemplate [mkMount "data-vol" "/src/sub"] [] [] []) "/src" =
      none ∧
    FindOverlappingVolume (containerTemplate [mkMount "data-vol" "/src"] [] [] []) "src" = none ∧
    FindOverlappingVolume
        (containerTemplate
          [mkMount "other" "/opt", mkMount "data-vol" "/src", mkMount "deep" "/src/sub"] [] [] [])
        "/src/sub/x" = some (mkMount "data-vol" "/src") ∧
    FindOverlappingVolume
        (containerTemplate
          [mkMount "other" "/opt", mkMount "deep" "/src/sub", mkMount "data-vol" "/src"] [] [] [])
        "/src/sub/x" = some (mkMount "deep" "/src/sub") := by
  refine ⟨?_, ?_, ?_, pathSegments_absolutePath, ?_, ?_, ?_, ?_, by decide, by decide,
    by decide, by decide, by decide, by decide, by decide, by decide, by decide, by decide⟩
  · intro tmpl ctr path m hc
    simp only [FindOverlappingVolume, hc]
    constructor
    · intro h
      obtain ⟨pre, post, hl, hv, hpre⟩ := find?_some_first _ _ _ h
      refine ⟨pre, post, hl, (overlap_test_iff path m).1 hv, ?_⟩
      intro u hu hov
      have := (overlap_test_iff path u).2 hov
      rw [hpre u hu] at this
      cases this
    · rintro ⟨pre, post, hl, hv, hpre⟩
      rw [hl]
      refine find?_first _ pre m post ((overlap_test_iff path m).2 hv) ?_
      intro u hu
      cases hb : (path == u.MountPath ||
          (pathSegments u.MountPath).isPrefixOf (pathSegments path)) with
      | false => rfl
      | true => exact absurd ((overlap_test_iff path u).1 hb) (hpre u hu)
  · intro tmpl ctr path hc
    simp only [FindOverlappingVolume, hc, ne_eq, ← Option.isSome_iff_ne_none, List.find?_isSome]
    constructor
    · rintro ⟨m, hm, hv⟩
      exact ⟨m, hm, (overlap_test_iff path m).1 hv⟩
    · rintro ⟨m, hm, hv⟩
      exact ⟨m, hm, (overlap_test_iff path m).2 hv⟩
  · rintro tmpl path (hc | ⟨ctr, hc, hm⟩)
    · simp [FindOverlappingVolume, hc]
    · simp [FindOverlappingVolume, hc, hm]
  · intro msegs psegs hm hp
    rw [pathSegments_absolutePath msegs hm, pathSegments_absolutePath psegs hp]
    constructor
    · rintro (he | hpre)
      · have h1 := congrArg pathSegments he
        rw [pathSegments_absolutePath msegs hm, pathSegments_absolutePath psegs hp] at h1
        have h2 : psegs = msegs := (List.cons.inj h1).2
        rw [h2]
      · exact (List.cons_prefix_cons.1 hpre).2
    · intro h
      exact Or.inr (List.cons_prefix_cons.2 ⟨rfl, h⟩)
  · intro mountPath rest h
    rw [pathSegments_nested mountPath rest h]
    exact List.prefix_append _ _
  · intro mountPath h
    have h1 := pathSegments_nested mountPath "" h
    have h2 : mountPath ++ "/" ++ "" = mountPath ++ "/" := by simp
    rw [h2] at h1
    rw [h1]
    have h3 : ((splitSlash ("" : String).toList).filter (fun s => !s.isEmpty)).map String.mk =
        [] := rfl
    rw [h3, List.append_nil]
  · intro path h
    have h1 : pathSegments "/" = ["/"] := by decide
    rw [h1]
    simp only [pathSegments, h, if_true]
    exact List.cons_prefix_cons.2 ⟨rfl, List.nil_prefix⟩

theorem FindOverlappingVolume_spec_witness :
    (containerTemplate [mkMount "other" "/opt", mkMount "data-vol" "/src/"] [] [] []).Container =
      some (busybox [mkMount "other" "/opt", mkMount "data-vol" "/src/"]) ∧
    (busybox [mkMount "other" "/opt", mkMount "data-vol" "/src/"]).VolumeMounts =
      [mkMount "other" "/opt"] ++ mkMount "data-vol" "/src/" :: [] ∧
    pathSegments (mkMount "data-vol" "/src/").MountPath <+: pathSegments "/src/sub" ∧
    FindOverlappingVolume
        (containerTemplate [mkMount "other" "/opt", mkMount "data-vol" "/src/"] [] [] [])
        "/src/sub" = some (mkMount "data-vol" "/src/") :=
  ⟨rfl, rfl, ⟨["sub"], by decide⟩,
   (FindOverlappingVolume_spec.1
      (containerTemplate [mkMount "other" "/opt", mkMount "data-vol" "/src/"] [] [] [])
      (busybox [mkMount "other" "/opt", mkMount "data-vol" "/src/"]) "/src/sub"
      (mkMount "data-vol" "/src/") rfl).2
     ⟨[mkMount "other" "/opt"], [], rfl, Or.inr ⟨["sub"], by decide⟩,
      fun u hu => by
        have hu' : u = mkMount "other" "/opt" := by simpa using hu
        subst hu'
        rw [← overlap_test_iff]
        decide⟩⟩

/-! ## Volumes of the pod -/

/-- A successful `addInputArtifactsVolumes` adds the artifact volume when the template
has input artifacts and no volume otherwise; it keeps the restart policy. -/
theorem addInputArtifactsVolumes_Volumes (c : Common) (pod pod2 : Pod) (tmpl : Template)
    (h : addInputArtifactsVolumes c pod tmpl = .ok pod2) :
    pod2.Spec.Volumes =
      pod.Spec.Volumes ++ (if tmpl.Inputs.Artifacts.length > 0 then [artVol] else []) := by
  unfold addInputArtifactsVolumes at h
  split_ifs at h with h0
  · cases h
    simp [h0]
  · have hpos : tmpl.Inputs.Artifacts.length > 0 := Nat.pos_of_ne_zero h0
    simp only [] at h
    split at h
    · cases h
    · cases h
    · split_ifs at h
      split at h
      · cases h
      · cases h
      · cases h
        simp [hpos]

/-- When every element has an image, `filterMap` keeps one image per element. -/
theorem filterMap_map_some {α β : Type} (f : α → Option β) (l : List α)
    (h : ∀ x ∈ l, f x ≠ none) : (l.filterMap f).map some = l.map f := by
  induction l with
  | nil => rfl
  | cons a l ih =>
    have ht : ∀ x ∈ l, f x ≠ none := fun x hx => h x (by simp [hx])
    cases ha : f a with
    | none => exact absurd ha (h a (by simp))
    | some b => simp [List.filterMap, ha, ih ht]

/-- The volumes of a successfully assembled pod: the two platform volumes, then the
volumes `explicitVols` added by `addVolumeReferences`, then the artifact volume when the
template has input artifacts, then the script volume when it has a script. -/
theorem assembleWorkflowPod_Volumes (im : Imports) (woc : wfOperationCtx) (nodeName : String)
    (tmpl : Template) (r : Pod × Template)
    (h : assembleWorkflowPod im woc nodeName tmpl = .ok r) :
    ∃ explicitVols : List Volume,
      (match tmpl.Container with
        | none => []
        | some ctr => ctr.VolumeMounts.map (fun m => getVolByName m.Name woc.wf)) =
        explicitVols.map some ∧
      r.1.Spec.Volumes =
        [volumePodMetadata im.common, volumeDockerLib im.common] ++ explicitVols ++
          (if tmpl.Inputs.Artifacts.length > 0 then [artVol] else []) ++
          (if tmpl.Script ≠ none then [scriptVol] else []) := by
  obtain ⟨pod, t'⟩ := r
  obtain ⟨w, m, p1, p2, p3, p4, s, -, -, h1, h2, h3, h4, -, rfl, rfl⟩ :=
    (assembleWorkflowPod_ok_iff im woc nodeName tmpl pod t').1 h
  have hv2 := addInputArtifactsVolumes_Volumes _ _ _ _ h2
  have hv3 : p3.Spec.Volumes = p2.Spec.Volumes ++ (if tmpl.Script ≠ none then [scriptVol] else []) := by
    split_ifs at h3 with hs
    · rw [(addScriptVolume_frame im.common p2 p3 h3).2.1, if_pos hs]
    · cases h3
      rw [if_neg hs, List.append_nil]
  obtain ⟨mc, rfl⟩ := addSidecars_ok_inv im.common p3 p4 _ h4
  have hv1 : ∃ explicitVols : List Volume,
      (match tmpl.Container with
        | none => []
        | some ctr => ctr.VolumeMounts.map (fun m => getVolByName m.Name woc.wf)) =
        explicitVols.map some ∧
      p1.Spec.Volumes =
        [volumePodMetadata im.common, volumeDockerLib im.common] ++ explicitVols := by
    cases hc : tmpl.Container with
    | none =>
      rw [addVolumeReferences_none woc _ tmpl hc] at h1
      cases h1
      exact ⟨[], rfl, by rw [startPod_Volumes, List.append_nil]⟩
    | some ctr =>
      obtain ⟨hres, rfl⟩ := addVolumeReferences_some_ok woc _ p1 tmpl ctr hc h1
      exact ⟨_, (filterMap_map_some _ _ hres).symm, by simp only [startPod_Volumes]⟩
  obtain ⟨explicitVols, he, hp1⟩ := hv1
  exact ⟨explicitVols, he, by simp only [hv3, hv2, hp1]⟩

/-- C12: the volumes of a successfully assembled pod are exactly: the pod-metadata and
docker-lib volumes; then, for a template with a container, one volume per mount of the
container, in declaration order, the one `getVolByName` resolves the mount's name to
(none for a template without container); then the empty-dir volume `input-artifacts`
if and only if the template has an input artifact; then the empty-dir volume `script`
if and only if the template has a script. -/
theorem pod_volumes (im : Imports) (woc : wfOperationCtx) (nodeName : String) (tmpl : Template)
    (r : Pod × Template) (h : assembleWorkflowPod im woc nodeName tmpl = .ok r) :
    ∃ explicitVols : List Volume,
      (match tmpl.Container with
        | none => []
        | some ctr => ctr.VolumeMounts.map (fun m => getVolByName m.Name woc.wf)) =
        explicitVols.map some ∧
      r.1.Spec.Volumes =
        [volumePodMetadata im.common, volumeDockerLib im.common] ++ explicitVols ++
          (if tmpl.Inputs.Artifacts.length > 0 then
            [{ Name := "input-artifacts",
               VolumeSource := { VolumeSource.zero with EmptyDir := some { Medium := "" } } }]
           else []) ++
          (if tmpl.Script ≠ none then
            [{ Name := "script",
               VolumeSource := { VolumeSource.zero with EmptyDir := some { Medium := "" } } }]
           else []) := by
  obtain ⟨explicitVols, hresolved, hvolumes⟩ := assembleWorkflowPod_Volumes im woc nodeName tmpl r h
  refine ⟨explicitVols, hresolved, ?_⟩
  rw [hvolumes]
  rfl

theorem pod_volumes_witness :
    assembleWorkflowPod sampleImports (sampleCtx none none) "n1"
        (containerTemplate [mkMount "data-vol" "/a", mkMount "data-vol" "/b"]
          [mkArtifact "CODE" "/src"] [] []) =
      .ok (assembleWorkflowPod sampleImports (sampleCtx none none) "n1"
        (containerTemplate [mkMount "data-vol" "/a", mkMount "data-vol" "/b"]
          [mkArtifact "CODE" "/src"] [] [])).value ∧
    (assembleWorkflowPod sampleImports (sampleCtx none none) "n1"
        (containerTemplate [mkMount "data-vol" "/a", mkMount "data-vol" "/b"]
          [mkArtifact "CODE" "/src"] [] [])).value.1.Spec.Volumes.map (fun v => v.Name) =
      ["podmetadata", "docker-lib", "data-vol", "data-vol", "input-artifacts"] ∧
    ∃ explicitVols : List Volume,
      (match (containerTemplate [mkMount "data-vol" "/a", mkMount "data-vol" "/b"]
          [mkArtifact "CODE" "/src"] [] []).Container with
        | none => []
        | some ctr => ctr.VolumeMounts.map (fun m => getVolByName m.Name (sampleCtx none none).wf)) =
        explicitVols.map some ∧
      (assembleWorkflowPod sampleImports (sampleCtx none none) "n1"
        (containerTemplate [mkMount "data-vol" "/a", mkMount "data-vol" "/b"]
          [mkArtifact "CODE" "/src"] [] [])).value.1.Spec.Volumes =
        [volumePodMetadata sampleImports.common, volumeDockerLib sampleImports.common] ++
          explicitVols ++
          (if (containerTemplate [mkMount "data-vol" "/a", mkMount "data-vol" "/b"]
              [mkArtifact "CODE" "/src"] [] []).Inputs.Artifacts.length > 0 then
            [{ Name := "input-artifacts",
               VolumeSource := { VolumeSource.zero with EmptyDir := some { Medium := "" } } }]
           else []) ++
          (if (containerTemplate [mkMount "data-vol" "/a", mkMount "data-vol" "/b"]
              [mkArtifact "CODE" "/src"] [] []).Script ≠ none then
            [{ Name := "script",
               VolumeSource := { VolumeSource.zero with EmptyDir := some { Medium := "" } } }]
           else []) :=
  ⟨rfl, rfl,
   pod_volumes sampleImports (sampleCtx none none) "n1"
     (containerTemplate [mkMount "data-vol" "/a", mkMount "data-vol" "/b"]
       [mkArtifact "CODE" "/src"] [] []) _ rfl⟩

/-! ## Mounts of the roles -/

/-- A successful run of the artifact loop: every artifact has a path. -/
theorem artLoop_ok_paths (c : Common) (tmpl : Template) (arts : List Artifact)
    (mainCtr r : Container) (h : addInputArtifactsVolumes_artLoop c tmpl arts mainCtr = .ok r) :
    ∀ a ∈ arts, a.Path ≠ "" := by
  intro a ha hp
  obtain ⟨msg, he⟩ := artLoop_error c tmpl arts mainCtr ⟨a, ha, hp⟩
  rw [he] at h
  cases h

/-- A successful `addInputArtifactsVolumes`, for a pod as `createWorkflowPod` builds it:
the containers are `[w', m']`, `w'` with the name and mounts of `w` and `m'` named
`MainContainerName` with the mounts of `m` followed by the artifact mounts; without
input artifacts the init containers are unchanged, with input artifacts the template
has a container and the init container is the staged one. -/
theorem addInputArtifactsVolumes_shape (im : Imports) (woc : wfOperationCtx)
    (nodeName : String) (tmpl : Template) (w m : Container) (pod pod2 : Pod)
    (hinit : pod.Spec.InitContainers = (startPod im woc nodeName tmpl w m).Spec.InitContainers)
    (hctrs : pod.Spec.Containers = [w, m]) (hm : m.Name = im.common.MainContainerName)
    (h : addInputArtifactsVolumes im.common pod tmpl = .ok pod2) :
    (∃ w' m', pod2.Spec.Containers = [w', m'] ∧
      w'.Name = w.Name ∧ w'.VolumeMounts = w.VolumeMounts ∧
      m'.Name = im.common.MainContainerName ∧
      m'.VolumeMounts = m.VolumeMounts ++ artifactMounts im.common tmpl) ∧
    (tmpl.Inputs.Artifacts = [] → pod2.Spec.InitContainers = pod.Spec.InitContainers) ∧
    (tmpl.Inputs.Artifacts ≠ [] → ∃ tmplCtr, tmpl.Container = some tmplCtr ∧
      pod2.Spec.InitContainers =
        [stagedInit im.common tmplCtr (newInitContainer im woc tmpl)]) := by
  by_cases ha : tmpl.Inputs.Artifacts = []
  · rw [addInputArtifactsVolumes_nil _ _ _ ha] at h
    cases h
    exact ⟨⟨w, m, hctrs, rfl, rfl, hm, by simp [artifactMounts, ha]⟩, fun _ => rfl,
      fun hne => absurd ha hne⟩
  · have hcond : tmpl.Inputs.Artifacts.length > 0 ∨ tmpl.Script ≠ none :=
      Or.inl (List.length_pos.2 ha)
    have hi : pod.Spec.InitContainers = [newInitContainer im woc tmpl] := by
      rw [hinit, startPod_InitContainers, if_pos hcond]
    cases hc : tmpl.Container with
    | none =>
      rw [addInputArtifactsVolumes_nil_container im.common pod tmpl _ [] ha hc hi rfl] at h
      cases h
    | some tmplCtr =>
      rw [addInputArtifactsVolumes_container im.common pod tmpl tmplCtr _ w m ha hc hi rfl
        hctrs hm] at h
      cases hl : addInputArtifactsVolumes_artLoop im.common tmpl tmpl.Inputs.Artifacts
          (sleepFix im.common m) with
      | error e => rw [hl] at h; cases h
      | panic msg => rw [hl] at h; cases h
      | ok mainCtr =>
        have hpaths := artLoop_ok_paths _ _ _ _ _ hl
        rw [artLoop_ok im.common tmpl _ _ hpaths] at hl
        cases hl
        rw [artLoop_ok im.common tmpl _ _ hpaths] at h
        cases h
        refine ⟨⟨sleepFix im.common w, _, rfl, sleepFix_Name _ _, sleepFix_VolumeMounts _ _, ?_, ?_⟩,
          fun he => absurd he ha, fun _ => ⟨tmplCtr, rfl, rfl⟩⟩
        · simp [sleepFix_Name, hm]
        · simp [sleepFix_VolumeMounts, artifactMounts]

/-- C14: in a successfully assembled pod of a container template (container set, no
script): the wait container has exactly the pod-metadata mount and the read-only
docker-lib mount; there is no init container without input artifacts, and with input
artifacts the init container has the pod-metadata mount, then the mount of
`input-artifacts` at `ExecutorArtifactBaseDir`, then each explicit mount of the
container, in order, with `/mainctrfs` put before its path; the main container has the
explicit mounts followed by the artifact mounts, each of which is a mount of
`input-artifacts` and none of which is the docker-lib mount or (for a pod-metadata
volume not named `input-artifacts`) the pod-metadata mount. -/
theorem platform_mounts (im : Imports) (woc : wfOperationCtx) (nodeName : String)
    (tmpl : Template) (ctr : Container) (r : Pod × Template)
    (hc : tmpl.Container = some ctr) (hs : tmpl.Script = none)
    (h : assembleWorkflowPod im woc nodeName tmpl = .ok r) :
    ∃ waitC mainC sidecarCtrs, r.1.Spec.Containers = waitC :: mainC :: sidecarCtrs ∧
      waitC.Name = im.common.WaitContainerName ∧
      waitC.VolumeMounts =
        [{ Name := im.common.PodMetadataVolumeName, ReadOnly := false,
           MountPath := im.common.PodMetadataMountPath, SubPath := "" },
         { Name := im.common.DockerLibVolumeName, ReadOnly := true,
           MountPath := im.common.DockerLibHostPath, SubPath := "" }] ∧
      (tmpl.Inputs.Artifacts = [] → r.1.Spec.InitContainers = []) ∧
      (tmpl.Inputs.Artifacts ≠ [] → ∃ initC, r.1.Spec.InitContainers = [initC] ∧
        initC.Name = im.common.InitContainerName ∧
        initC.VolumeMounts =
          [{ Name := im.common.PodMetadataVolumeName, ReadOnly := false,
             MountPath := im.common.PodMetadataMountPath, SubPath := "" },
           { Name := "input-artifacts", ReadOnly := false,
             MountPath := im.common.ExecutorArtifactBaseDir, SubPath := "" }] ++
          ctr.VolumeMounts.map
            (fun mnt => { mnt with MountPath := "/mainctrfs" ++ mnt.MountPath })) ∧
      mainC.Name = im.common.MainContainerName ∧
      mainC.VolumeMounts = ctr.VolumeMounts ++ artifactMounts im.common tmpl ∧
      (∀ mnt ∈ artifactMounts im.common tmpl,
        mnt.Name = "input-artifacts" ∧ mnt ≠ volumeMountDockerLib im.common ∧
        (im.common.PodMetadataVolumeName ≠ "input-artifacts" →
          mnt ≠ volumeMountPodMetadata im.common)) := by
  obtain ⟨pod, t'⟩ := r
  obtain ⟨w, m, p1, p2, p3, p4, s, hw, hmain, h1, h2, h3, h4, -, rfl, rfl⟩ :=
    (assembleWorkflowPod_ok_iff im woc nodeName tmpl pod t').1 h
  obtain ⟨w0, hw0, hwn, hwv⟩ := newWaitContainer_ok im woc tmpl
  rw [hw] at hw0
  cases hw0
  have hm : m = ctr := by
    simp only [mainContainerOf, hc] at hmain
    cases hmain
    rfl
  subst hm
  obtain ⟨-, hi1, hc1, -⟩ := addVolumeReferences_frame woc _ _ tmpl h1
  rw [startPod_Containers] at hc1
  obtain ⟨⟨w', m', hc2, hw'n, hw'v, hm'n, hm'v⟩, hinil, hicons⟩ :=
    addInputArtifactsVolumes_shape im woc nodeName tmpl w
      { m with Name := im.common.MainContainerName } p1 p2 hi1 hc1 rfl h2
  have h32 : p3 = p2 := by
    rw [if_neg (by simp [hs])] at h3
    cases h3
    rfl
  subst h32
  obtain ⟨mc, rfl⟩ := addSidecars_ok_inv im.common p3 p4 _ h4
  refine ⟨w', m', tmpl.Sidecars.map (addSidecars_step mc), ?_, by rw [hw'n, hwn], ?_, ?_, ?_,
    hm'n, hm'v, ?_⟩
  · simp only [hc2, addOutputArtifactsRepoMetaData_Sidecars, List.cons_append, List.nil_append]
  · rw [hw'v, hwv]
    rfl
  · intro ha
    have hcond : ¬ (tmpl.Inputs.Artifacts.length > 0 ∨ tmpl.Script ≠ none) := by
      simp [ha, hs]
    show p3.Spec.InitContainers = []
    rw [hinil ha, hi1, startPod_InitContainers, if_neg hcond]
  · intro ha
    obtain ⟨tmplCtr, htc, hi⟩ := hicons ha
    rw [hc] at htc
    cases htc
    exact ⟨_, hi, rfl, rfl⟩
  · intro mnt hmnt
    simp only [artifactMounts, List.mem_map, List.mem_filter] at hmnt
    obtain ⟨art, -, rfl⟩ := hmnt
    refine ⟨rfl, ?_, ?_⟩
    · intro heq
      have := congrArg VolumeMount.ReadOnly heq
      simp [artifactMount, volumeMountDockerLib] at this
    · intro hne heq
      have := congrArg VolumeMount.Name heq
      simp only [artifactMount, volumeMountPodMetadata, volumePodMetadata] at this
      exact hne this.symm

theorem platform_mounts_witness :
    (containerTemplate [mkMount "data-vol" "/src"] [mkArtifact "CODE" "/src/code"] [] []).Container =
      some (busybox [mkMount "data-vol" "/src"]) ∧
    (containerTemplate [mkMount "data-vol" "/src"] [mkArtifact "CODE" "/src/code"] [] []).Script =
      none ∧
    assembleWorkflowPod sampleImports (sampleCtx none none) "n1"
        (containerTemplate [mkMount "data-vol" "/src"] [mkArtifact "CODE" "/src/code"] [] []) =
      .ok (assembleWorkflowPod sampleImports (sampleCtx none none) "n1"
        (containerTemplate [mkMount "data-vol" "/src"] [mkArtifact "CODE" "/src/code"] [] [])).value ∧
    (assembleWorkflowPod sampleImports (sampleCtx none none) "n1"
        (containerTemplate [mkMount "data-vol" "/src"]
          [mkArtifact "CODE" "/src/code"] [] [])).value.1.Spec.InitContainers.map
          (fun x => x.VolumeMounts) =
      [[{ Name := "podmetadata", ReadOnly := false, MountPath := "/argo/podmetadata", SubPath := "" },
        { Name := "input-artifacts", ReadOnly := false, MountPath := "/argo/inputs/artifacts",
          SubPath := "" },
        { Name := "data-vol", ReadOnly := false, MountPath := "/mainctrfs/src", SubPath := "" }]] ∧
    (assembleWorkflowPod sampleImports (sampleCtx none none) "n1"
        (containerTemplate [mkMount "data-vol" "/src"]
          [mkArtifact "CODE" "/src/code"] [] [])).value.1.Spec.Containers.map
          (fun x => x.VolumeMounts) =
      [[{ Name := "podmetadata", ReadOnly := false, MountPath := "/argo/podmetadata", SubPath := "" },
        { Name := "docker-lib", ReadOnly := true, MountPath := "/var/lib/docker", SubPath := "" }],
       [{ Name := "data-vol", ReadOnly := false, MountPath := "/src", SubPath := "" }]] ∧
    ∃ waitC mainC sidecarCtrs,
      (assembleWorkflowPod sampleImports (sampleCtx none none) "n1"
        (containerTemplate [mkMount "data-vol" "/src"]
          [mkArtifact "CODE" "/src/code"] [] [])).value.1.Spec.Containers =
        waitC :: mainC :: sidecarCtrs ∧
      waitC.Name = sampleImports.common.WaitContainerName ∧
      waitC.VolumeMounts =
        [{ Name := sampleImports.common.PodMetadataVolumeName, ReadOnly := false,
           MountPath := sampleImports.common.PodMetadataMountPath, SubPath := "" },
         { Name := sampleImports.common.DockerLibVolumeName, ReadOnly := true,
           MountPath := sampleImports.common.DockerLibHostPath, SubPath := "" }] :=
  ⟨rfl, rfl, rfl, rfl, rfl,
   (platform_mounts sampleImports (sampleCtx none none) "n1"
      (containerTemplate [mkMount "data-vol" "/src"] [mkArtifact "CODE" "/src/code"] [] [])
      (busybox [mkMount "data-vol" "/src"]) _ rfl rfl rfl).imp
     (fun _ hw => hw.imp (fun _ hm => hm.imp (fun _ hr => ⟨hr.1, hr.2.1, hr.2.2.1⟩)))⟩

/-- The main container chosen by `createWorkflowPod` has the explicit mounts of the
template. -/
theorem mainContainerOf_VolumeMounts (c : Common) (tmpl : Template) (m : Container)
    (h : mainContainerOf c tmpl = .ok m) : m.VolumeMounts = explicitMounts tmpl := by
  unfold mainContainerOf at h
  unfold explicitMounts
  cases hc : tmpl.Container with
  | some ctr =>
    rw [hc] at h
    cases h
    rfl
  | none =>
    rw [hc] at h
    cases hs : tmpl.Script with
    | none => rw [hs] at h; cases h
    | some script => rw [hs] at h; cases h; rfl

/-- The two containers of a successfully assembled pod before the sidecars are added,
when the wait and main containers have different names: the wait container and the
main container, the latter with the explicit mounts, then the artifact mounts, then the
script mount. -/
theorem assembleWorkflowPod_two (im : Imports) (woc : wfOperationCtx) (nodeName : String)
    (tmpl : Template) (w m : Container) (p1 p2 p3 : Pod)
    (hwm : im.common.WaitContainerName ≠ im.common.MainContainerName)
    (hw : newWaitContainer im woc tmpl = .ok w)
    (hmain : mainContainerOf im.common tmpl = .ok m)
    (h1 : addVolumeReferences woc (startPod im woc nodeName tmpl w
      { m with Name := im.common.MainContainerName }) tmpl = .ok p1)
    (h2 : addInputArtifactsVolumes im.common p1 tmpl = .ok p2)
    (h3 : (if tmpl.Script ≠ none then addScriptVolume im.common p2 else .ok p2) = .ok p3) :
    ∃ w3 m3, p3.Spec.Containers = [w3, m3] ∧
      w3.Name = im.common.WaitContainerName ∧
      w3.VolumeMounts = [volumeMountPodMetadata im.common, volumeMountDockerLib im.common] ∧
      m3.Name = im.common.MainContainerName ∧
      m3.VolumeMounts =
        explicitMounts tmpl ++ artifactMounts im.common tmpl ++ scriptMounts im.common tmpl := by
  obtain ⟨w0, hw0, hwn, hwv⟩ := newWaitContainer_ok im woc tmpl
  rw [hw] at hw0
  cases hw0
  have hmv := mainContainerOf_VolumeMounts _ _ _ hmain
  obtain ⟨-, hi1, hc1, -⟩ := addVolumeReferences_frame woc _ _ tmpl h1
  rw [startPod_Containers] at hc1
  obtain ⟨⟨w', m', hc2, hw'n, hw'v, hm'n, hm'v⟩, hinil, hicons⟩ :=
    addInputArtifactsVolumes_shape im woc nodeName tmpl w
      { m with Name := im.common.MainContainerName } p1 p2 hi1 hc1 rfl h2
  have hmexp : m'.VolumeMounts = explicitMounts tmpl ++ artifactMounts im.common tmpl := by
    rw [hm'v]
    exact congrArg (fun l => l ++ artifactMounts im.common tmpl) hmv
  by_cases hs : tmpl.Script ≠ none
  · rw [if_pos hs] at h3
    have hcond : tmpl.Inputs.Artifacts.length > 0 ∨ tmpl.Script ≠ none := Or.inr hs
    obtain ⟨i, hi2, hin⟩ : ∃ i, p2.Spec.InitContainers = [i] ∧
        i.Name = im.common.InitContainerName := by
      by_cases ha : tmpl.Inputs.Artifacts = []
      · exact ⟨_, by rw [hinil ha, hi1, startPod_InitContainers, if_pos hcond], rfl⟩
      · obtain ⟨tmplCtr, -, hi⟩ := hicons ha
        exact ⟨_, hi, rfl⟩
    rw [addScriptVolume_two im.common p2 i w' m' hi2 hin hc2 (by rw [hw'n, hwn]; exact hwm)
      hm'n] at h3
    cases h3
    refine ⟨scriptWait im.common w', _, rfl, ?_, ?_, hm'n, ?_⟩
    · rw [scriptWait_Name, hw'n, hwn]
    · rw [scriptWait_VolumeMounts, hw'v, hwv]
    · simp only [hmexp, scriptMounts, if_pos hs]
  · rw [if_neg hs] at h3
    cases h3
    refine ⟨w', m', hc2, by rw [hw'n, hwn], by rw [hw'v, hwv], hm'n, ?_⟩
    simp only [hmexp, scriptMounts, if_neg hs, List.append_nil]

/-- C11: in a successfully assembled pod, when the wait and main containers have
different names, the container at position `2 + i` is the container of the `i`-th
sidecar of the template with, as mounts, the sidecar's own mounts followed by all the
mounts of the main container (explicit mounts, then artifact mounts, then the script
mount) when its `VolumeMirroring` option is set and true, and the sidecar's own mounts
otherwise. A mount named as the pod-metadata or docker-lib volume is among the
mirrored mounts only if it is one of the explicit mounts (the platform volumes not
being named `input-artifacts` or `script`). -/
theorem sidecar_mounts (im : Imports) (woc : wfOperationCtx) (nodeName : String)
    (tmpl : Template) (r : Pod × Template)
    (hwm : im.common.WaitContainerName ≠ im.common.MainContainerName)
    (h : assembleWorkflowPod im woc nodeName tmpl = .ok r) :
    ∃ waitC mainC sidecarCtrs, r.1.Spec.Containers = waitC :: mainC :: sidecarCtrs ∧
      mainC.Name = im.common.MainContainerName ∧
      mainC.VolumeMounts =
        explicitMounts tmpl ++ artifactMounts im.common tmpl ++ scriptMounts im.common tmpl ∧
      sidecarCtrs.length = tmpl.Sidecars.length ∧
      (∀ (i : Nat) (sidecar : Sidecar), tmpl.Sidecars[i]? = some sidecar →
        r.1.Spec.Containers[2 + i]? =
          some { sidecar.Container with
                 VolumeMounts :=
                   if sidecar.Options.VolumeMirroring = some true then
                     sidecar.Container.VolumeMounts ++ mainC.VolumeMounts
                   else sidecar.Container.VolumeMounts }) ∧
      (im.common.PodMetadataVolumeName ≠ "input-artifacts" →
        im.common.PodMetadataVolumeName ≠ "script" →
        im.common.DockerLibVolumeName ≠ "input-artifacts" →
        im.common.DockerLibVolumeName ≠ "script" →
        ∀ mnt ∈ mainC.VolumeMounts,
          (mnt.Name = im.common.PodMetadataVolumeName ∨
            mnt.Name = im.common.DockerLibVolumeName) →
          mnt ∈ explicitMounts tmpl) := by
  obtain ⟨pod, t'⟩ := r
  obtain ⟨w, m, p1, p2, p3, p4, s, hw, hmain, h1, h2, h3, h4, -, rfl, rfl⟩ :=
    (assembleWorkflowPod_ok_iff im woc nodeName tmpl pod t').1 h
  obtain ⟨w3, m3, hc3, hw3n, -, hm3n, hm3v⟩ :=
    assembleWorkflowPod_two im woc nodeName tmpl w m p1 p2 p3 hwm hw hmain h1 h2 h3
  have hfind : p3.Spec.Containers.find? (fun ctr => ctr.Name == im.common.MainContainerName) =
      some m3 := by
    have hb : (w3.Name == im.common.MainContainerName) = false := by
      rw [hw3n]
      simpa using hwm
    simp [hc3, List.find?, hb, hm3n]
  rw [addSidecars_of_find im.common p3 _ m3 hfind] at h4
  cases h4
  refine ⟨w3, m3, tmpl.Sidecars.map (addSidecars_step m3), ?_, hm3n, hm3v, by simp, ?_, ?_⟩
  · simp only [hc3, addOutputArtifactsRepoMetaData_Sidecars, List.cons_append, List.nil_append]
  · intro i sidecar hi
    simp only [hc3, addOutputArtifactsRepoMetaData_Sidecars, List.cons_append, List.nil_append]
    rw [Nat.add_comm 2 i, List.getElem?_cons_succ, List.getElem?_cons_succ, List.getElem?_map, hi,
      Option.map_some', addSidecars_step_eq]
    split_ifs <;> rfl
  · intro hp1 hp2 hd1 hd2 mnt hmnt hname
    rw [hm3v] at hmnt
    simp only [List.mem_append] at hmnt
    rcases hmnt with (hmnt | hmnt) | hmnt
    · exact hmnt
    · exfalso
      simp only [artifactMounts, List.mem_map, List.mem_filter] at hmnt
      obtain ⟨art, -, rfl⟩ := hmnt
      rcases hname with hn | hn
      · exact hp1 hn.symm
      · exact hd1 hn.symm
    · exfalso
      unfold scriptMounts at hmnt
      split_ifs at hmnt
      · have hmnt' : mnt = scriptVolMount im.common := by simpa using hmnt
        subst hmnt'
        rcases hname with hn | hn
        · exact hp2 hn.symm
        · exact hd2 hn.symm
      · simp at hmnt

theorem sidecar_mounts_witness :
    sampleImports.common.WaitContainerName ≠ sampleImports.common.MainContainerName ∧
    assembleWorkflowPod sampleImports (sampleCtx none none) "n1"
        (containerTemplate [mkMount "data-vol" "/data"] [mkArtifact "CODE" "/src"] []
          [{ Container := busybox [mkMount "own" "/own"], Options := { VolumeMirroring := some true } },
           { Container := busybox [mkMount "own" "/own"], Options := { VolumeMirroring := none } }]) =
      .ok (assembleWorkflowPod sampleImports (sampleCtx none none) "n1"
        (containerTemplate [mkMount "data-vol" "/data"] [mkArtifact "CODE" "/src"] []
          [{ Container := busybox [mkMount "own" "/own"], Options := { VolumeMirroring := some true } },
           { Container := busybox [mkMount "own" "/own"], Options := { VolumeMirroring := none } }])).value ∧
    (assembleWorkflowPod sampleImports (sampleCtx none none) "n1"
        (containerTemplate [mkMount "data-vol" "/data"] [mkArtifact "CODE" "/src"] []
          [{ Container := busybox [mkMount "own" "/own"], Options := { VolumeMirroring := some true } },
           { Container := busybox [mkMount "own" "/own"],
             Options := { VolumeMirroring := none } }])).value.1.Spec.Containers.map
          (fun x => x.VolumeMounts.map (fun mnt => (mnt.Name, mnt.MountPath))) =
      [[("podmetadata", "/argo/podmetadata"), ("docker-lib", "/var/lib/docker")],
       [("data-vol", "/data"), ("input-artifacts", "/src")],
       [("own", "/own"), ("data-vol", "/data"), ("input-artifacts", "/src")],
       [("own", "/own")]] ∧
    ∃ waitC mainC sidecarCtrs,
      (assembleWorkflowPod sampleImports (sampleCtx none none) "n1"
        (containerTemplate [mkMount "data-vol" "/data"] [mkArtifact "CODE" "/src"] []
          [{ Container := busybox [mkMount "own" "/own"], Options := { VolumeMirroring := some true } },
           { Container := busybox [mkMount "own" "/own"],
             Options := { VolumeMirroring := none } }])).value.1.Spec.Containers =
        waitC :: mainC :: sidecarCtrs ∧
      mainC.Name = sampleImports.common.MainContainerName ∧
      sidecarCtrs.length = 2 :=
  ⟨by decide, rfl, rfl,
   (sidecar_mounts sampleImports (sampleCtx none none) "n1"
      (containerTemplate [mkMount "data-vol" "/data"] [mkArtifact "CODE" "/src"] []
        [{ Container := busybox [mkMount "own" "/own"], Options := { VolumeMirroring := some true } },
         { Container := busybox [mkMount "own" "/own"], Options := { VolumeMirroring := none } }])
      _ (by decide) rfl).imp
     (fun _ hw => hw.imp (fun _ hm => hm.imp (fun _ hr => ⟨hr.1, hr.2.1, hr.2.2.2.1⟩)))⟩

/-! ## The serialized template -/

/-- The template that `addOutputArtifactsRepoMetaData` returns depends on the pod only
through its labels and its name. -/
theorem addOutputArtifactsRepoMetaData_congr (im : Imports) (woc : wfOperationCtx)
    (pod pod' : Pod) (tmpl : Template)
    (hl : pod.ObjectMeta.Labels = pod'.ObjectMeta.Labels)
    (hn : pod.ObjectMeta.Name = pod'.ObjectMeta.Name) :
    addOutputArtifactsRepoMetaData im woc pod tmpl =
      addOutputArtifactsRepoMetaData im woc pod' tmpl := by
  have hstep : addOutputArtifactsRepoMetaData_step im woc pod =
      addOutputArtifactsRepoMetaData_step im woc pod' := by
    funext art
    simp only [addOutputArtifactsRepoMetaData_step, hl, hn]
  simp only [addOutputArtifactsRepoMetaData, hstep]

/-- The metadata of a successfully assembled pod is that of the pod literal with the
template annotation set. -/
theorem assembleWorkflowPod_ObjectMeta (im : Imports) (woc : wfOperationCtx)
    (nodeName : String) (tmpl : Template) (r : Pod × Template)
    (h : assembleWorkflowPod im woc nodeName tmpl = .ok r) :
    ∃ s, im.jsonMarshal r.2 = .ok s ∧
      r.1.ObjectMeta =
        { (initialPod im woc nodeName Container.zero Container.zero).ObjectMeta with
          Annotations :=
            GoMap.set (initialPod im woc nodeName Container.zero Container.zero).ObjectMeta.Annotations
              im.common.AnnotationKeyTemplate s } ∧
      r.2 = addOutputArtifactsRepoMetaData im woc
        (initialPod im woc nodeName Container.zero Container.zero) tmpl := by
  obtain ⟨pod, t'⟩ := r
  obtain ⟨w, m, p1, p2, p3, p4, s, -, -, h1, h2, h3, h4, hs, rfl, rfl⟩ :=
    (assembleWorkflowPod_ok_iff im woc nodeName tmpl pod t').1 h
  have hm1 : p1.ObjectMeta = (initialPod im woc nodeName Container.zero Container.zero).ObjectMeta := by
    rw [(addVolumeReferences_frame woc _ _ tmpl h1).1, startPod_ObjectMeta]
    rfl
  have hm2 : p2.ObjectMeta = p1.ObjectMeta := addInputArtifactsVolumes_ObjectMeta _ _ _ _ h2
  have hm3 : p3.ObjectMeta = p2.ObjectMeta := by
    split_ifs at h3 with hsc
    · exact (addScriptVolume_frame im.common p2 p3 h3).1
    · cases h3; rfl
  obtain ⟨mc, rfl⟩ := addSidecars_ok_inv im.common p3 p4 _ h4
  have hj : im.jsonMarshal (addOutputArtifactsRepoMetaData im woc p2 tmpl) = .ok s := by
    unfold marshalTemplate at hs
    cases hjm : im.jsonMarshal (addOutputArtifactsRepoMetaData im woc p2 tmpl) with
    | error err => rw [hjm] at hs; cases hs
    | ok b => rw [hjm] at hs; cases hs; rfl
  refine ⟨s, hj, ?_, ?_⟩
  · show ({ p3.ObjectMeta with
            Annotations := GoMap.set p3.ObjectMeta.Annotations im.common.AnnotationKeyTemplate s } :
          ObjectMeta) = _
    rw [hm3, hm2, hm1]
  · exact addOutputArtifactsRepoMetaData_congr im woc _ _ tmpl (by rw [hm2, hm1])
      (by rw [hm2, hm1])

/-! ## What the assembly reads of the operation context -/

/-- The loop of `addVolumeReferences` reads the operation context only through the
workflow. -/
theorem addVolumeReferences_loop_congr (woc woc' : wfOperationCtx) (hwf : woc.wf = woc'.wf)
    (mounts : List VolumeMount) (pod : Pod) :
    addVolumeReferences_loop woc mounts pod = addVolumeReferences_loop woc' mounts pod := by
  induction mounts generalizing pod with
  | nil => rfl
  | cons m mounts ih =>
    simp only [addVolumeReferences_loop, hwf]
    cases getVolByName m.Name woc'.wf with
    | none => rfl
    | some v => exact ih _

/-- The assembly does not read the pod client: two operation contexts with the same
workflow and the same controller configuration give the same outcome. -/
theorem assembleWorkflowPod_congr_context (im : Imports) (woc woc' : wfOperationCtx)
    (nodeName : String) (tmpl : Template)
    (hwf : woc.wf = woc'.wf) (hcfg : woc.controller.Config = woc'.controller.Config) :
    assembleWorkflowPod im woc nodeName tmpl = assembleWorkflowPod im woc' nodeName tmpl := by
  obtain ⟨wf, ⟨cfg, cl⟩⟩ := woc
  obtain ⟨wf', ⟨cfg', cl'⟩⟩ := woc'
  simp only at hwf hcfg
  subst hwf hcfg
  have hvol : ∀ pod, addVolumeReferences ⟨wf, ⟨cfg, cl⟩⟩ pod tmpl =
      addVolumeReferences ⟨wf, ⟨cfg, cl'⟩⟩ pod tmpl := by
    intro pod
    unfold addVolumeReferences
    cases tmpl.Container with
    | none => rfl
    | some ctr =>
      exact addVolumeReferences_loop_congr ⟨wf, ⟨cfg, cl⟩⟩ ⟨wf, ⟨cfg, cl'⟩⟩ rfl ctr.VolumeMounts pod
  have hwait : newWaitContainer im ⟨wf, ⟨cfg, cl⟩⟩ tmpl =
      newWaitContainer im ⟨wf, ⟨cfg, cl'⟩⟩ tmpl := rfl
  have hstart : ∀ w m, startPod im ⟨wf, ⟨cfg, cl⟩⟩ nodeName tmpl w m =
      startPod im ⟨wf, ⟨cfg, cl'⟩⟩ nodeName tmpl w m := fun _ _ => rfl
  have hout : ∀ pod, addOutputArtifactsRepoMetaData im ⟨wf, ⟨cfg, cl⟩⟩ pod tmpl =
      addOutputArtifactsRepoMetaData im ⟨wf, ⟨cfg, cl'⟩⟩ pod tmpl := fun _ => rfl
  unfold assembleWorkflowPod
  simp only [Template.DeepCopy, hwait, hstart, hvol, hout]

/-! ## Panics -/

theorem Outcome.bind_eq_panic {α β : Type} (x : Outcome α) (f : α → Outcome β) (msg : String) :
    (x >>= f) = Outcome.panic msg ↔
      x = Outcome.panic msg ∨ ∃ a, x = Outcome.ok a ∧ f a = Outcome.panic msg := by
  cases x with
  | ok a => simp [Outcome.ok_bind]
  | error e => simp [Outcome.error_bind]
  | panic m => simp [Outcome.panic_bind]

theorem addVolumeReferences_loop_no_panic (woc : wfOperationCtx) (mounts : List VolumeMount)
    (pod : Pod) (msg : String) : addVolumeReferences_loop woc mounts pod ≠ .panic msg := by
  induction mounts generalizing pod with
  | nil => simp [addVolumeReferences_loop]
  | cons m mounts ih =>
    simp only [addVolumeReferences_loop]
    cases getVolByName m.Name woc.wf with
    | none => simp
    | some v => exact ih _

theorem addVolumeReferences_no_panic (woc : wfOperationCtx) (pod : Pod) (tmpl : Template)
    (msg : String) : addVolumeReferences woc pod tmpl ≠ .panic msg := by
  unfold addVolumeReferences
  cases tmpl.Container with
  | none => simp
  | some ctr => exact addVolumeReferences_loop_no_panic woc _ _ msg

theorem artLoop_no_panic (c : Common) (tmpl : Template) (arts : List Artifact)
    (mainCtr : Container) (msg : String) :
    addInputArtifactsVolumes_artLoop c tmpl arts mainCtr ≠ .panic msg := by
  induction arts generalizing mainCtr with
  | nil => simp [addInputArtifactsVolumes_artLoop]
  | cons a arts ih =>
    simp only [addInputArtifactsVolumes_artLoop]
    split_ifs
    · simp
    · cases c.FindOverlappingVolume tmpl a.Path with
      | none => exact ih _
      | some v => exact ih _

/-- The second loop of `addScriptVolume` finds a container named `MainContainerName`
when there is one. -/
theorem addScriptVolume_mainLoop_found (c : Common) (l : List Container) (m : Container)
    (hm : m ∈ l) (hn : m.Name = c.MainContainerName) : (addScriptVolume_mainLoop c l).2 = true := by
  induction l with
  | nil => simp at hm
  | cons x l ih =>
    by_cases hx : x.Name = c.MainContainerName
    · simp [addScriptVolume_mainLoop, hx]
    · rcases List.mem_cons.1 hm with rfl | hm'
      · exact absurd hn hx
      · simp only [addScriptVolume_mainLoop, hx, if_false]
        exact ih hm'

/-- Every panic of the assembly is the nil dereference of `tmpl.Container`, and it
occurs exactly for a template without container, with a script and with input
artifacts: the three explicit panic branches are not reached. -/
theorem assembleWorkflowPod_panic_iff (im : Imports) (woc : wfOperationCtx) (nodeName : String)
    (tmpl : Template) (msg : String) :
    assembleWorkflowPod im woc nodeName tmpl = .panic msg ↔
      tmpl.Container = none ∧ tmpl.Script ≠ none ∧ tmpl.Inputs.Artifacts ≠ [] ∧
        msg = nilDereference := by
  constructor
  · intro h
    unfold assembleWorkflowPod at h
    simp only [Template.DeepCopy, Outcome.bind_eq_panic, addOutputArtifactsRepoMetaData_Script] at h
    rcases h with h | ⟨w, hw, h⟩
    · cases h
    rcases h with h | ⟨m, hmain, h⟩
    · unfold mainContainerOf at h
      cases hc : tmpl.Container with
      | some ctr => rw [hc] at h; cases h
      | none =>
        rw [hc] at h
        cases hs : tmpl.Script with
        | none => rw [hs] at h; cases h
        | some script => rw [hs] at h; cases h
    rcases h with h | ⟨p1, h1, h⟩
    · exact absurd h (addVolumeReferences_no_panic woc _ tmpl msg)
    obtain ⟨-, hi1, hc1, -⟩ := addVolumeReferences_frame woc _ _ tmpl h1
    rw [startPod_Containers] at hc1
    rcases h with h | ⟨p2, h2, h⟩
    · by_cases ha : tmpl.Inputs.Artifacts = []
      · rw [addInputArtifactsVolumes_nil _ _ _ ha] at h
        cases h
      · have hcond : tmpl.Inputs.Artifacts.length > 0 ∨ tmpl.Script ≠ none :=
          Or.inl (List.length_pos.2 ha)
        have hi : p1.Spec.InitContainers = [newInitContainer im woc tmpl] := by
          rw [hi1, startPod_InitContainers, if_pos hcond]
        cases hc : tmpl.Container with
        | none =>
          rw [addInputArtifactsVolumes_nil_container im.common p1 tmpl _ [] ha hc hi rfl] at h
          cases h
          refine ⟨rfl, ?_, ha, rfl⟩
          intro hs
          simp [mainContainerOf, hc, hs] at hmain
        | some tmplCtr =>
          rw [addInputArtifactsVolumes_container im.common p1 tmpl tmplCtr _ w _ ha hc hi rfl
            hc1 rfl] at h
          cases hl : addInputArtifactsVolumes_artLoop im.common tmpl tmpl.Inputs.Artifacts
              (sleepFix im.common { m with Name := im.common.MainContainerName }) with
          | ok mainCtr => rw [hl] at h; cases h
          | error e => rw [hl] at h; cases h
          | panic msg' => exact absurd hl (artLoop_no_panic _ _ _ _ _)
    obtain ⟨-, hc2⟩ := addInputArtifactsVolumes_names im woc nodeName tmpl w
      { m with Name := im.common.MainContainerName } p1 p2 hi1 hc1 rfl h2
    obtain ⟨a2, b2, hab2, -, hb2n⟩ := two_of_names _ _ _ hc2
    rcases h with h | ⟨p3, h3, h⟩
    · split_ifs at h with hs
      · unfold addScriptVolume at h
        simp only [addScriptVolume_mainLoop_found im.common p2.Spec.Containers b2
          (by simp [hab2]) hb2n] at h
        cases h
    have hc3 : p3.Spec.Containers.map (fun x => x.Name) = p2.Spec.Containers.map (fun x => x.Name) := by
      split_ifs at h3 with hs
      · exact (addScriptVolume_frame im.common p2 p3 h3).2.2.2
      · cases h3; rfl
    rw [hc2] at hc3
    obtain ⟨a3, b3, hab3, -, hb3n⟩ := two_of_names _ _ _ hc3
    rcases h with h | ⟨p4, h4, h⟩
    · obtain ⟨mc, hfind, -⟩ := find_main_of_mem im.common p3.Spec.Containers b3
        (by simp [hab3]) hb3n
      rw [addSidecars_of_find im.common p3 _ mc hfind] at h
      cases h
    rcases h with h | ⟨s, hs, h⟩
    · unfold marshalTemplate at h
      cases hj : im.jsonMarshal (addOutputArtifactsRepoMetaData im woc p2 tmpl) with
      | error err => rw [hj] at h; cases h
      | ok b => rw [hj] at h; cases h
    · cases h
  · rintro ⟨hc, hs, ha, rfl⟩
    cases hsc : tmpl.Script with
    | none => exact absurd hsc hs
    | some script => exact assembleWorkflowPod_script_artifacts_panic im woc nodeName tmpl script hc hsc ha

/-- C18 (failing input): for the script template with the one input artifact `CODE` at
`/src`, a template with exactly one of container and script set, the assembly does not
return a pod or an error: it panics on the nil `tmpl.Container` in the first loop of
`addInputArtifactsVolumes`. The same template without the input artifact is assembled. -/
theorem assembleWorkflowPod_script_artifact_nil_dereference :
    (scriptTemplate [mkArtifact "CODE" "/src"] [] []).Container = none ∧
    (scriptTemplate [mkArtifact "CODE" "/src"] [] []).Script ≠ none ∧
    assembleWorkflowPod sampleImports (sampleCtx none none) "n1"
        (scriptTemplate [mkArtifact "CODE" "/src"] [] []) = .panic nilDereference ∧
    (createWorkflowPod sampleImports (sampleCtx none none) "n1"
        (scriptTemplate [mkArtifact "CODE" "/src"] [] [])).1 = .panic nilDereference ∧
    assembleWorkflowPod sampleImports (sampleCtx none none) "n1" (scriptTemplate [] [] []) =
      .ok (assembleWorkflowPod sampleImports (sampleCtx none none) "n1"
        (scriptTemplate [] [] [])).value := by
  have h : assembleWorkflowPod sampleImports (sampleCtx none none) "n1"
      (scriptTemplate [mkArtifact "CODE" "/src"] [] []) = .panic nilDereference :=
    (assembleWorkflowPod_panic_iff sampleImports (sampleCtx none none) "n1"
      (scriptTemplate [mkArtifact "CODE" "/src"] [] []) nilDereference).2
      ⟨rfl, by decide, by decide, rfl⟩
  refine ⟨rfl, by decide, h, ?_, rfl⟩
  simp [createWorkflowPod, h]

/-! ## Names of the volumes -/

/-- A volume that `getVolByName` returns has the name asked for and is a volume of the
workflow spec or a recorded claim. -/
theorem getVolByName_some (name : String) (wf : Workflow) (v : Volume)
    (h : getVolByName name wf = some v) :
    v.Name = name ∧ v ∈ wf.Spec.Volumes ++ wf.Status.PersistentVolumeClaims := by
  unfold getVolByName at h
  cases h1 : wf.Spec.Volumes.find? (fun vol => vol.Name == name) with
  | some u =>
    rw [h1] at h
    cases h
    exact ⟨by simpa using List.find?_some h1, List.mem_append_left _ (List.mem_of_find?_eq_some h1)⟩
  | none =>
    rw [h1] at h
    exact ⟨by simpa using List.find?_some h, List.mem_append_right _ (List.mem_of_find?_eq_some h)⟩

/-- The volumes resolved for a list of mounts have the names of the mounts, in order,
and are volumes of the workflow. -/
theorem resolved_names (wf : Workflow) (mounts : List VolumeMount) (vols : List Volume)
    (h : mounts.map (fun m => getVolByName m.Name wf) = vols.map some) :
    vols.map (fun v => v.Name) = mounts.map (fun m => m.Name) ∧
    ∀ v ∈ vols, v ∈ wf.Spec.Volumes ++ wf.Status.PersistentVolumeClaims := by
  induction mounts generalizing vols with
  | nil =>
    cases vols with
    | nil => simp
    | cons v vols => simp at h
  | cons m mounts ih =>
    cases vols with
    | nil => simp at h
    | cons v vols =>
      simp only [List.map_cons, List.cons.injEq] at h
      obtain ⟨hv, ht⟩ := h
      obtain ⟨hn, hmem⟩ := getVolByName_some _ _ _ hv
      obtain ⟨ihn, ihm⟩ := ih vols ht
      refine ⟨by simp [hn, ihn], ?_⟩
      intro u hu
      rcases List.mem_cons.1 hu with rfl | hu
      · exact hmem
      · exact ihm u hu

/-- The volumes that `addVolumeReferences` adds have the names of the explicit mounts of
the template, in order, and are volumes of the workflow. -/
theorem explicitVols_names (wf : Workflow) (tmpl : Template) (explicitVols : List Volume)
    (h : (match tmpl.Container with
        | none => []
        | some ctr => ctr.VolumeMounts.map (fun m => getVolByName m.Name wf)) =
        explicitVols.map some) :
    explicitVols.map (fun v => v.Name) = (explicitMounts tmpl).map (fun m => m.Name) ∧
    ∀ v ∈ explicitVols, v ∈ wf.Spec.Volumes ++ wf.Status.PersistentVolumeClaims := by
  unfold explicitMounts
  cases hc : tmpl.Container with
  | none =>
    rw [hc] at h
    cases explicitVols with
    | nil => simp
    | cons v vols => simp at h
  | some ctr =>
    rw [hc] at h
    exact resolved_names wf ctr.VolumeMounts explicitVols h

/-- C20 (counterexample): the sample workflow declares the single volume `data-vol`,
whose name is no platform volume name; the container template with the two mounts of
`data-vol` at `/a` and `/b` is assembled, and the pod has the volume `data-vol` twice. -/
theorem pod_volume_names_counterexample :
    assembleWorkflowPod sampleImports (sampleCtx none none) "n1"
        (containerTemplate [mkMount "data-vol" "/a", mkMount "data-vol" "/b"] [] [] []) =
      .ok (assembleWorkflowPod sampleImports (sampleCtx none none) "n1"
        (containerTemplate [mkMount "data-vol" "/a", mkMount "data-vol" "/b"] [] [] [])).value ∧
    (((sampleCtx none none).wf.Spec.Volumes ++
        (sampleCtx none none).wf.Status.PersistentVolumeClaims).map (fun v => v.Name)).Nodup ∧
    (∀ n ∈ ((sampleCtx none none).wf.Spec.Volumes ++
        (sampleCtx none none).wf.Status.PersistentVolumeClaims).map (fun v => v.Name),
      n ∉ [sampleImports.common.PodMetadataVolumeName, sampleImports.common.DockerLibVolumeName,
        "input-artifacts", "script"]) ∧
    (assembleWorkflowPod sampleImports (sampleCtx none none) "n1"
        (containerTemplate [mkMount "data-vol" "/a", mkMount "data-vol" "/b"] [] [] [])).value.1.Spec.Volumes.map
          (fun v => v.Name) = ["podmetadata", "docker-lib", "data-vol", "data-vol"] ∧
    ¬ ((assembleWorkflowPod sampleImports (sampleCtx none none) "n1"
        (containerTemplate [mkMount "data-vol" "/a", mkMount "data-vol" "/b"] [] [] [])).value.1.Spec.Volumes.map
          (fun v => v.Name)).Nodup := by
  have hv : (assembleWorkflowPod sampleImports (sampleCtx none none) "n1"
      (containerTemplate [mkMount "data-vol" "/a", mkMount "data-vol" "/b"] [] [] [])).value.1.Spec.Volumes.map
        (fun v => v.Name) = ["podmetadata", "docker-lib", "data-vol", "data-vol"] := rfl
  refine ⟨rfl, by decide, by decide, hv, ?_⟩
  rw [hv]
  decide

/-- C20 (amended): in a successfully assembled pod the names of the volumes are pairwise
distinct when the four platform volume names are pairwise distinct, no volume or claim
of the workflow has a platform volume name, and the explicit mounts of the template
reference pairwise distinct volume names. -/
theorem pod_volume_names_nodup (im : Imports) (woc : wfOperationCtx) (nodeName : String)
    (tmpl : Template) (r : Pod × Template)
    (h : assembleWorkflowPod im woc nodeName tmpl = .ok r)
    (hplat : [im.common.PodMetadataVolumeName, im.common.DockerLibVolumeName,
      "input-artifacts", "script"].Nodup)
    (hwf : ∀ v ∈ woc.wf.Spec.Volumes ++ woc.wf.Status.PersistentVolumeClaims,
      v.Name ∉ [im.common.PodMetadataVolumeName, im.common.DockerLibVolumeName,
        "input-artifacts", "script"])
    (hmounts : ((explicitMounts tmpl).map (fun m => m.Name)).Nodup) :
    (r.1.Spec.Volumes.map (fun v => v.Name)).Nodup := by
  obtain ⟨explicitVols, hres, hvols⟩ := assembleWorkflowPod_Volumes im woc nodeName tmpl r h
  obtain ⟨hnames, hmem⟩ := explicitVols_names woc.wf tmpl explicitVols hres
  have hnd : (explicitVols.map (fun v => v.Name)).Nodup := by rw [hnames]; exact hmounts
  have hno : ∀ n ∈ explicitVols.map (fun v => v.Name),
      n ≠ im.common.PodMetadataVolumeName ∧ n ≠ im.common.DockerLibVolumeName ∧
      n ≠ "input-artifacts" ∧ n ≠ "script" := by
    intro n hn
    obtain ⟨v, hv, rfl⟩ := List.mem_map.1 hn
    have := hwf v (hmem v hv)
    simpa using this
  have hpm : ∀ n ∈ explicitVols.map (fun v => v.Name), n ≠ im.common.PodMetadataVolumeName :=
    fun n hn => (hno n hn).1
  have hdl : ∀ n ∈ explicitVols.map (fun v => v.Name), n ≠ im.common.DockerLibVolumeName :=
    fun n hn => (hno n hn).2.1
  have hia : ∀ n ∈ explicitVols.map (fun v => v.Name), n ≠ "input-artifacts" :=
    fun n hn => (hno n hn).2.2.1
  have hsc : ∀ n ∈ explicitVols.map (fun v => v.Name), n ≠ "script" :=
    fun n hn => (hno n hn).2.2.2
  simp only [List.nodup_cons, List.mem_cons, List.mem_singleton, List.not_mem_nil, not_or,
    List.nodup_nil, not_false_eq_true, and_true] at hplat
  obtain ⟨⟨h12, h13, h14⟩, ⟨h23, h24⟩, h34⟩ := hplat
  rw [hvols]
  simp only [List.map_append, List.map_cons, List.map_nil, volumePodMetadata, volumeDockerLib,
    List.cons_append, List.nil_append, List.nodup_cons, List.mem_cons, List.mem_append, not_or]
  have hA : ∀ n ∈ (if tmpl.Inputs.Artifacts.length > 0 then [artVol] else []).map
      (fun v => v.Name), n = "input-artifacts" := by
    intro n hn
    split_ifs at hn
    · simpa [artVol] using hn
    · simp at hn
  have hS : ∀ n ∈ (if tmpl.Script ≠ none then [scriptVol] else []).map
      (fun v => v.Name), n = "script" := by
    intro n hn
    split_ifs at hn
    · simpa [scriptVol] using hn
    · simp at hn
  have hAnd : ((if tmpl.Inputs.Artifacts.length > 0 then [artVol] else []).map
      (fun v => v.Name)).Nodup := by
    split_ifs <;> simp
  have hSnd : ((if tmpl.Script ≠ none then [scriptVol] else []).map
      (fun v => v.Name)).Nodup := by
    split_ifs <;> simp
  refine ⟨⟨h12, ⟨fun hm => hpm _ hm rfl, fun hm => h13 (hA _ hm)⟩, fun hm => h14 (hS _ hm)⟩,
    ⟨⟨fun hm => hdl _ hm rfl, fun hm => h23 (hA _ hm)⟩, fun hm => h24 (hS _ hm)⟩, ?_⟩
  rw [List.nodup_append]
  refine ⟨?_, hSnd, ?_⟩
  · rw [List.nodup_append]
    refine ⟨hnd, hAnd, ?_⟩
    intro n hn1 hn2
    exact hia n hn1 (hA n hn2)
  · intro n hn1 hn2
    rcases List.mem_append.1 hn1 with hn1 | hn1
    · exact hsc n hn1 (hS n hn2)
    · exact h34 ((hA n hn1).symm.trans (hS n hn2))

theorem pod_volume_names_nodup_witness :
    assembleWorkflowPod sampleImports (sampleCtx none none) "n1"
        (containerTemplate [mkMount "data-vol" "/a"] [mkArtifact "CODE" "/src"] [] []) =
      .ok (assembleWorkflowPod sampleImports (sampleCtx none none) "n1"
        (containerTemplate [mkMount "data-vol" "/a"] [mkArtifact "CODE" "/src"] [] [])).value ∧
    [sampleImports.common.PodMetadataVolumeName, sampleImports.common.DockerLibVolumeName,
      "input-artifacts", "script"].Nodup ∧
    ((explicitMounts (containerTemplate [mkMount "data-vol" "/a"] [mkArtifact "CODE" "/src"] []
      [])).map (fun m => m.Name)).Nodup ∧
    ((assembleWorkflowPod sampleImports (sampleCtx none none) "n1"
        (containerTemplate [mkMount "data-vol" "/a"]
          [mkArtifact "CODE" "/src"] [] [])).value.1.Spec.Volumes.map (fun v => v.Name)).Nodup :=
  ⟨rfl, by decide, by decide,
   pod_volume_names_nodup sampleImports (sampleCtx none none) "n1"
     (containerTemplate [mkMount "data-vol" "/a"] [mkArtifact "CODE" "/src"] [] []) _ rfl
     (by decide) (by decide) (by decide)⟩

/-! ## Mounts and volumes -/

/-- The first loop of `addScriptVolume` leaves each init container with mounts it had,
or the script mount. -/
theorem addScriptVolume_initLoop_mounts (c : Common) (l : List Container) :
    ∀ c3 ∈ addScriptVolume_initLoop c l, ∃ c2 ∈ l,
      ∀ mnt ∈ c3.VolumeMounts, mnt ∈ c2.VolumeMounts ∨ mnt = scriptVolMount c := by
  induction l with
  | nil => simp [addScriptVolume_initLoop]
  | cons x l ih =>
    intro c3 h3
    by_cases hx : x.Name = c.InitContainerName
    · simp only [addScriptVolume_initLoop, hx, if_true, List.mem_cons] at h3
      rcases h3 with rfl | h3
      · refine ⟨x, by simp, ?_⟩
        intro mnt hmnt
        simpa using hmnt
      · exact ⟨c3, by simp [h3], fun mnt hmnt => Or.inl hmnt⟩
    · simp only [addScriptVolume_initLoop, hx, if_false, List.mem_cons] at h3
      rcases h3 with rfl | h3
      · exact ⟨c3, by simp, fun mnt hmnt => Or.inl hmnt⟩
      · obtain ⟨c2, hc2, hsub⟩ := ih c3 h3
        exact ⟨c2, by simp [hc2], hsub⟩

/-- The second loop of `addScriptVolume` leaves each container with mounts it had, or
the script mount. -/
theorem addScriptVolume_mainLoop_mounts (c : Common) (l : List Container) :
    ∀ c3 ∈ (addScriptVolume_mainLoop c l).1, ∃ c2 ∈ l,
      ∀ mnt ∈ c3.VolumeMounts, mnt ∈ c2.VolumeMounts ∨ mnt = scriptVolMount c := by
  induction l with
  | nil => simp [addScriptVolume_mainLoop]
  | cons x l ih =>
    intro c3 h3
    by_cases hx : x.Name = c.MainContainerName
    · simp only [addScriptVolume_mainLoop, hx, if_true, List.mem_cons] at h3
      rcases h3 with rfl | h3
      · refine ⟨x, by simp, ?_⟩
        intro mnt hmnt
        simpa using hmnt
      · exact ⟨c3, by simp [h3], fun mnt hmnt => Or.inl hmnt⟩
    · simp only [addScriptVolume_mainLoop, hx, if_false, List.mem_cons] at h3
      rcases h3 with rfl | h3
      · refine ⟨x, by simp, ?_⟩
        intro mnt hmnt
        left
        split_ifs at hmnt <;> exact hmnt
      · obtain ⟨c2, hc2, hsub⟩ := ih c3 h3
        exact ⟨c2, by simp [hc2], hsub⟩

/-- A successful `addScriptVolume` leaves each init container and each container with
mounts that one of them had before, or the script mount. -/
theorem addScriptVolume_mounts (c : Common) (pod pod3 : Pod)
    (h : addScriptVolume c pod = .ok pod3) :
    (∀ c3 ∈ pod3.Spec.InitContainers, ∃ c2 ∈ pod.Spec.InitContainers,
      ∀ mnt ∈ c3.VolumeMounts, mnt ∈ c2.VolumeMounts ∨ mnt = scriptVolMount c) ∧
    (∀ c3 ∈ pod3.Spec.Containers, ∃ c2 ∈ pod.Spec.Containers,
      ∀ mnt ∈ c3.VolumeMounts, mnt ∈ c2.VolumeMounts ∨ mnt = scriptVolMount c) := by
  simp only [addScriptVolume] at h
  split_ifs at h with hf
  cases h
  exact ⟨addScriptVolume_initLoop_mounts c _, addScriptVolume_mainLoop_mounts c _⟩

/-- A successful `addSidecars` on a template with sidecars mirrors the mounts of a
container of the pod. -/
theorem addSidecars_ok_mem (c : Common) (pod pod4 : Pod) (tmpl : Template)
    (h : addSidecars c pod tmpl = .ok pod4) :
    ∃ mainCtr, (tmpl.Sidecars ≠ [] → mainCtr ∈ pod.Spec.Containers) ∧
      pod4 = { pod with
        Spec.Containers := pod.Spec.Containers ++ tmpl.Sidecars.map (addSidecars_step mainCtr) } := by
  cases hf : pod.Spec.Containers.find? (fun ctr => ctr.Name == c.MainContainerName) with
  | some mainCtr =>
    rw [addSidecars_of_find c pod tmpl mainCtr hf] at h
    exact ⟨mainCtr, fun _ => List.mem_of_find?_eq_some hf, (Outcome.ok.inj h).symm⟩
  | none =>
    unfold addSidecars at h
    split_ifs at h with hl
    · have hnil : tmpl.Sidecars = [] := List.length_eq_zero.1 hl
      cases h
      exact ⟨Container.zero, fun hne => absurd hnil hne, by simp [hnil]⟩
    · simp only [hf] at h
      cases h

/-- C19 (counterexample): the container template with a sidecar that declares its own
mount of a volume `own` is assembled, although the workflow has no volume `own`; the
sidecar's container in the pod has the mount `own` and the pod has no volume of that
name. -/
theorem mounts_resolved_counterexample :
    assembleWorkflowPod sampleImports (sampleCtx none none) "n1"
        (containerTemplate [] [] []
          [{ Container := busybox [mkMount "own" "/own"], Options := { VolumeMirroring := none } }]) =
      .ok (assembleWorkflowPod sampleImports (sampleCtx none none) "n1"
        (containerTemplate [] [] []
          [{ Container := busybox [mkMount "own" "/own"],
             Options := { VolumeMirroring := none } }])).value ∧
    (assembleWorkflowPod sampleImports (sampleCtx none none) "n1"
        (containerTemplate [] [] []
          [{ Container := busybox [mkMount "own" "/own"],
             Options := { VolumeMirroring := none } }])).value.1.Spec.Containers[2]? =
      some (busybox [mkMount "own" "/own"]) ∧
    (assembleWorkflowPod sampleImports (sampleCtx none none) "n1"
        (containerTemplate [] [] []
          [{ Container := busybox [mkMount "own" "/own"],
             Options := { VolumeMirroring := none } }])).value.1.Spec.Volumes.map (fun v => v.Name) =
      ["podmetadata", "docker-lib"] ∧
    ¬ (∀ ctr ∈ (assembleWorkflowPod sampleImports (sampleCtx none none) "n1"
        (containerTemplate [] [] []
          [{ Container := busybox [mkMount "own" "/own"],
             Options := { VolumeMirroring := none } }])).value.1.Spec.Containers,
      ∀ mnt ∈ ctr.VolumeMounts,
        ∃ v ∈ (assembleWorkflowPod sampleImports (sampleCtx none none) "n1"
          (containerTemplate [] [] []
            [{ Container := busybox [mkMount "own" "/own"],
               Options := { VolumeMirroring := none } }])).value.1.Spec.Volumes,
          v.Name = mnt.Name) := by
  have hc : (assembleWorkflowPod sampleImports (sampleCtx none none) "n1"
      (containerTemplate [] [] []
        [{ Container := busybox [mkMount "own" "/own"],
           Options := { VolumeMirroring := none } }])).value.1.Spec.Containers[2]? =
      some (busybox [mkMount "own" "/own"]) := rfl
  have hv : (assembleWorkflowPod sampleImports (sampleCtx none none) "n1"
      (containerTemplate [] [] []
        [{ Container := busybox [mkMount "own" "/own"],
           Options := { VolumeMirroring := none } }])).value.1.Spec.Volumes.map (fun v => v.Name) =
      ["podmetadata", "docker-lib"] := rfl
  refine ⟨rfl, hc, hv, ?_⟩
  intro hall
  obtain ⟨v, hvmem, hvn⟩ := hall (busybox [mkMount "own" "/own"]) (List.getElem?_mem hc)
    (mkMount "own" "/own") (by simp [busybox])
  have hmem : v.Name ∈ ["podmetadata", "docker-lib"] := by
    rw [← hv]
    exact List.mem_map_of_mem _ hvmem
  rw [hvn] at hmem
  revert hmem
  decide

/-- C19 (amended): in a successfully assembled pod, every mount of every init container
and of the wait and main containers (the first two containers) has the name of a volume
of the pod; and the mounts of the container of the `i`-th sidecar are the sidecar's own
declared mounts followed by mirrored mounts, each of which has the name of a volume of
the pod. -/
theorem mounts_resolved (im : Imports) (woc : wfOperationCtx) (nodeName : String)
    (tmpl : Template) (r : Pod × Template)
    (h : assembleWorkflowPod im woc nodeName tmpl = .ok r) :
    (∀ ctr ∈ r.1.Spec.InitContainers ++ r.1.Spec.Containers.take 2,
      ∀ mnt ∈ ctr.VolumeMounts, ∃ v ∈ r.1.Spec.Volumes, v.Name = mnt.Name) ∧
    (∀ (i : Nat) (sidecar : Sidecar) (ctr : Container), tmpl.Sidecars[i]? = some sidecar →
      r.1.Spec.Containers[2 + i]? = some ctr →
      ∃ mirrored, ctr.VolumeMounts = sidecar.Container.VolumeMounts ++ mirrored ∧
        ∀ mnt ∈ mirrored, ∃ v ∈ r.1.Spec.Volumes, v.Name = mnt.Name) := by
  obtain ⟨explicitVols, hres, hvols⟩ := assembleWorkflowPod_Volumes im woc nodeName tmpl r h
  obtain ⟨hnames, -⟩ := explicitVols_names woc.wf tmpl explicitVols hres
  -- membership of names in the volumes of the pod
  have hV : ∀ n : String, n ∈ r.1.Spec.Volumes.map (fun v => v.Name) →
      ∃ v ∈ r.1.Spec.Volumes, v.Name = n := by
    intro n hn
    obtain ⟨v, hv, rfl⟩ := List.mem_map.1 hn
    exact ⟨v, hv, rfl⟩
  have hnamesV : r.1.Spec.Volumes.map (fun v => v.Name) =
      [im.common.PodMetadataVolumeName, im.common.DockerLibVolumeName] ++
        (explicitMounts tmpl).map (fun m => m.Name) ++
        (if tmpl.Inputs.Artifacts.length > 0 then ["input-artifacts"] else []) ++
        (if tmpl.Script ≠ none then ["script"] else []) := by
    rw [hvols]
    simp only [List.map_append, hnames]
    congr 1
    · congr 1
      split_ifs <;> rfl
    · split_ifs <;> rfl
  have hPM : ∀ mnt : VolumeMount, mnt.Name = im.common.PodMetadataVolumeName →
      ∃ v ∈ r.1.Spec.Volumes, v.Name = mnt.Name := by
    intro mnt hn
    exact hV _ (by rw [hnamesV, hn]; simp)
  have hDL : ∀ mnt : VolumeMount, mnt.Name = im.common.DockerLibVolumeName →
      ∃ v ∈ r.1.Spec.Volumes, v.Name = mnt.Name := by
    intro mnt hn
    exact hV _ (by rw [hnamesV, hn]; simp)
  have hEX : ∀ mnt : VolumeMount, mnt.Name ∈ (explicitMounts tmpl).map (fun m => m.Name) →
      ∃ v ∈ r.1.Spec.Volumes, v.Name = mnt.Name := by
    intro mnt hn
    exact hV _ (by rw [hnamesV]; simp [hn])
  have hIA : ∀ mnt : VolumeMount, tmpl.Inputs.Artifacts ≠ [] → mnt.Name = "input-artifacts" →
      ∃ v ∈ r.1.Spec.Volumes, v.Name = mnt.Name := by
    intro mnt ha hn
    exact hV _ (by rw [hnamesV, hn, if_pos (List.length_pos.2 ha)]; simp)
  have hSC : ∀ mnt : VolumeMount, tmpl.Script ≠ none → mnt.Name = "script" →
      ∃ v ∈ r.1.Spec.Volumes, v.Name = mnt.Name := by
    intro mnt hs hn
    exact hV _ (by rw [hnamesV, hn, if_pos hs]; simp)
  obtain ⟨pod, t'⟩ := r
  obtain ⟨w, m, p1, p2, p3, p4, s, hw, hmain, h1, h2, h3, h4, -, rfl, rfl⟩ :=
    (assembleWorkflowPod_ok_iff im woc nodeName tmpl pod t').1 h
  obtain ⟨w0, hw0, -, hwv⟩ := newWaitContainer_ok im woc tmpl
  rw [hw] at hw0
  cases hw0
  have hmv := mainContainerOf_VolumeMounts _ _ _ hmain
  obtain ⟨-, hi1, hc1, -⟩ := addVolumeReferences_frame woc _ _ tmpl h1
  rw [startPod_Containers] at hc1
  obtain ⟨⟨w', m', hc2, -, hw'v, -, hm'v⟩, hinil, hicons⟩ :=
    addInputArtifactsVolumes_shape im woc nodeName tmpl w
      { m with Name := im.common.MainContainerName } p1 p2 hi1 hc1 rfl h2
  -- the mounts of the containers after the artifact step
  have hart : ∀ mnt ∈ artifactMounts im.common tmpl,
      tmpl.Inputs.Artifacts ≠ [] ∧ mnt.Name = "input-artifacts" := by
    intro mnt hmnt
    simp only [artifactMounts, List.mem_map, List.mem_filter] at hmnt
    obtain ⟨art, ⟨hart, -⟩, rfl⟩ := hmnt
    exact ⟨List.ne_nil_of_mem hart, rfl⟩
  have hok2c : ∀ c2 ∈ p2.Spec.Containers, ∀ mnt ∈ c2.VolumeMounts,
      ∃ v ∈ (({ p4 with
          ObjectMeta.Annotations :=
            GoMap.set p4.ObjectMeta.Annotations im.common.AnnotationKeyTemplate s } : Pod)).Spec.Volumes,
        v.Name = mnt.Name := by
    intro c2 hc2mem mnt hmnt
    rw [hc2] at hc2mem
    simp only [List.mem_cons, List.mem_singleton, List.not_mem_nil, or_false] at hc2mem
    rcases hc2mem with rfl | rfl
    · rw [hw'v, hwv] at hmnt
      simp only [List.mem_cons, List.mem_singleton, List.not_mem_nil, or_false] at hmnt
      rcases hmnt with rfl | rfl
      · exact hPM _ rfl
      · exact hDL _ rfl
    · rw [hm'v] at hmnt
      rcases List.mem_append.1 hmnt with hmnt | hmnt
      · have hmnt' : mnt ∈ explicitMounts tmpl := by rw [← hmv]; exact hmnt
        exact hEX _ (List.mem_map_of_mem _ hmnt')
      · exact hIA _ (hart mnt hmnt).1 (hart mnt hmnt).2
  have hok2i : ∀ c2 ∈ p2.Spec.InitContainers, ∀ mnt ∈ c2.VolumeMounts,
      ∃ v ∈ (({ p4 with
          ObjectMeta.Annotations :=
            GoMap.set p4.ObjectMeta.Annotations im.common.AnnotationKeyTemplate s } : Pod)).Spec.Volumes,
        v.Name = mnt.Name := by
    intro c2 hc2mem mnt hmnt
    by_cases ha : tmpl.Inputs.Artifacts = []
    · rw [hinil ha, hi1, startPod_InitContainers] at hc2mem
      split_ifs at hc2mem
      · have hc2' : c2 = newInitContainer im woc tmpl := by simpa using hc2mem
        subst hc2'
        have hmnt' : mnt = volumeMountPodMetadata im.common := by
          simpa [newInitContainer] using hmnt
        subst hmnt'
        exact hPM _ rfl
      · simp at hc2mem
    · obtain ⟨tmplCtr, htc, hi⟩ := hicons ha
      rw [hi] at hc2mem
      have hc2' : c2 = stagedInit im.common tmplCtr (newInitContainer im woc tmpl) := by
        simpa using hc2mem
      subst hc2'
      simp only [stagedInit, newInitContainer, List.mem_append, List.mem_cons, List.mem_singleton,
        List.not_mem_nil, or_false, List.mem_map] at hmnt
      rcases hmnt with (rfl | rfl) | ⟨mnt0, hmnt0, rfl⟩
      · exact hPM _ rfl
      · exact hIA _ ha rfl
      · have hmnt' : mnt0 ∈ explicitMounts tmpl := by
          simp only [explicitMounts, htc]
          exact hmnt0
        have hname := List.mem_map_of_mem (fun m : VolumeMount => m.Name) hmnt'
        exact hEX _ hname
  -- the script step
  have hok3 : (∀ c3 ∈ p3.Spec.InitContainers, ∀ mnt ∈ c3.VolumeMounts,
      ∃ v ∈ (({ p4 with
          ObjectMeta.Annotations :=
            GoMap.set p4.ObjectMeta.Annotations im.common.AnnotationKeyTemplate s } : Pod)).Spec.Volumes,
        v.Name = mnt.Name) ∧
      (∀ c3 ∈ p3.Spec.Containers, ∀ mnt ∈ c3.VolumeMounts,
      ∃ v ∈ (({ p4 with
          ObjectMeta.Annotations :=
            GoMap.set p4.ObjectMeta.Annotations im.common.AnnotationKeyTemplate s } : Pod)).Spec.Volumes,
        v.Name = mnt.Name) ∧
      p3.Spec.Containers.length = 2 := by
    split_ifs at h3 with hs
    · obtain ⟨hmi, hmc⟩ := addScriptVolume_mounts im.common p2 p3 h3
      have hlen : p3.Spec.Containers.length = 2 := by
        have := congrArg List.length (addScriptVolume_frame im.common p2 p3 h3).2.2.2
        simpa [hc2] using this
      refine ⟨?_, ?_, hlen⟩
      · intro c3 hc3 mnt hmnt
        obtain ⟨c2, hc2m, hsub⟩ := hmi c3 hc3
        rcases hsub mnt hmnt with hin | rfl
        · exact hok2i c2 hc2m mnt hin
        · exact hSC _ hs rfl
      · intro c3 hc3 mnt hmnt
        obtain ⟨c2, hc2m, hsub⟩ := hmc c3 hc3
        rcases hsub mnt hmnt with hin | rfl
        · exact hok2c c2 hc2m mnt hin
        · exact hSC _ hs rfl
    · cases h3
      exact ⟨hok2i, hok2c, by simp [hc2]⟩
  obtain ⟨hok3i, hok3c, hlen3⟩ := hok3
  obtain ⟨mc, hmc, hp4⟩ := addSidecars_ok_mem im.common p3 p4 _ h4
  have hI4 : p4.Spec.InitContainers = p3.Spec.InitContainers := by rw [hp4]
  have hC4 : p4.Spec.Containers = p3.Spec.Containers ++ tmpl.Sidecars.map (addSidecars_step mc) := by
    rw [hp4]
    rfl
  constructor
  · intro ctr hctr mnt hmnt
    have hctr' : ctr ∈ p3.Spec.InitContainers ∨ ctr ∈ p3.Spec.Containers := by
      have : ctr ∈ p4.Spec.InitContainers ++ p4.Spec.Containers.take 2 := hctr
      rw [hI4, hC4, List.take_left' hlen3] at this
      exact List.mem_append.1 this
    rcases hctr' with hc | hc
    · exact hok3i ctr hc mnt hmnt
    · exact hok3c ctr hc mnt hmnt
  · intro i sidecar ctr hi hget
    have hget' : p4.Spec.Containers[2 + i]? = some ctr := hget
    rw [hC4, ← hlen3, List.getElem?_append_right (Nat.le_add_right _ _), Nat.add_sub_cancel_left,
      List.getElem?_map, hi, Option.map_some'] at hget'
    cases hget'
    rw [addSidecars_step_eq]
    have hne : tmpl.Sidecars ≠ [] := by
      intro hnil
      rw [hnil] at hi
      simp at hi
    split_ifs with hmir
    · exact ⟨mc.VolumeMounts, rfl, fun mnt hmnt => hok3c mc (hmc hne) mnt hmnt⟩
    · exact ⟨[], by simp, by simp⟩

theorem mounts_resolved_witness :
    assembleWorkflowPod sampleImports (sampleCtx none none) "n1"
        (containerTemplate [mkMount "data-vol" "/data"] [mkArtifact "CODE" "/src"] []
          [{ Container := busybox [mkMount "own" "/own"], Options := { VolumeMirroring := some true } }]) =
      .ok (assembleWorkflowPod sampleImports (sampleCtx none none) "n1"
        (containerTemplate [mkMount "data-vol" "/data"] [mkArtifact "CODE" "/src"] []
          [{ Container := busybox [mkMount "own" "/own"],
             Options := { VolumeMirroring := some true } }])).value ∧
    (containerTemplate [mkMount "data-vol" "/data"] [mkArtifact "CODE" "/src"] []
        [{ Container := busybox [mkMount "own" "/own"],
           Options := { VolumeMirroring := some true } }]).Sidecars[0]? =
      some { Container := busybox [mkMount "own" "/own"],
             Options := { VolumeMirroring := some true } } ∧
    (assembleWorkflowPod sampleImports (sampleCtx none none) "n1"
        (containerTemplate [mkMount "data-vol" "/data"] [mkArtifact "CODE" "/src"] []
          [{ Container := busybox [mkMount "own" "/own"],
             Options := { VolumeMirroring := some true } }])).value.1.Spec.Containers[2 + 0]? =
      some { busybox [mkMount "own" "/own"] with
             VolumeMounts :=
               [mkMount "own" "/own", mkMount "data-vol" "/data",
                { Name := "input-artifacts", ReadOnly := false, MountPath := "/src",
                  SubPath := "CODE" }] } ∧
    ∃ mirrored,
      ({ busybox [mkMount "own" "/own"] with
         VolumeMounts :=
           [mkMount "own" "/own", mkMount "data-vol" "/data",
            { Name := "input-artifacts", ReadOnly := false, MountPath := "/src",
              SubPath := "CODE" }] } : Container).VolumeMounts =
        (busybox [mkMount "own" "/own"]).VolumeMounts ++ mirrored ∧
      ∀ mnt ∈ mirrored,
        ∃ v ∈ (assembleWorkflowPod sampleImports (sampleCtx none none) "n1"
          (containerTemplate [mkMount "data-vol" "/data"] [mkArtifact "CODE" "/src"] []
            [{ Container := busybox [mkMount "own" "/own"],
               Options := { VolumeMirroring := some true } }])).value.1.Spec.Volumes,
          v.Name = mnt.Name :=
  ⟨rfl, rfl, rfl,
   (mounts_resolved sampleImports (sampleCtx none none) "n1"
      (containerTemplate [mkMount "data-vol" "/data"] [mkArtifact "CODE" "/src"] []
        [{ Container := busybox [mkMount "own" "/own"],
           Options := { VolumeMirroring := some true } }]) _ rfl).2 0 _ _ rfl rfl⟩

/-! ## The caller's template -/

/-- The assembly on values is the lines before the write, the write, and the lines
after it. -/
theorem assembleWorkflowPod_eq_phases (im : Imports) (woc : wfOperationCtx) (nodeName : String)
    (tmpl : Template) :
    assembleWorkflowPod im woc nodeName tmpl =
      match podBeforeOutputArtifacts im woc nodeName tmpl with
      | .error e => .error e
      | .panic m => .panic m
      | .ok pod =>
        match podAfterOutputArtifacts im pod (addOutputArtifactsRepoMetaData im woc pod tmpl) with
        | .error e => .error e
        | .panic m => .panic m
        | .ok assembled => .ok (assembled, addOutputArtifactsRepoMetaData im woc pod tmpl) := by
  unfold assembleWorkflowPod podBeforeOutputArtifacts podAfterOutputArtifacts
  simp only [Template.DeepCopy]
  cases h1 : newWaitContainer im woc tmpl with
  | error e => rfl
  | panic m => rfl
  | ok waitCtr =>
    simp only [Outcome.ok_bind]
    cases h2 : mainContainerOf im.common tmpl with
    | error e => rfl
    | panic m => rfl
    | ok mainCtr =>
      simp only [Outcome.ok_bind]
      cases h3 : addVolumeReferences woc (startPod im woc nodeName tmpl waitCtr
          { mainCtr with Name := im.common.MainContainerName }) tmpl with
      | error e => rfl
      | panic m => rfl
      | ok pod1 =>
        simp only [Outcome.ok_bind]
        cases h4 : addInputArtifactsVolumes im.common pod1 tmpl with
        | error e => rfl
        | panic m => rfl
        | ok pod2 =>
          simp only [Outcome.ok_bind]
          cases h5 : (if (addOutputArtifactsRepoMetaData im woc pod2 tmpl).Script ≠ none then
              addScriptVolume im.common pod2 else Outcome.ok pod2) with
          | error e => rfl
          | panic m => rfl
          | ok pod3 =>
            simp only [Outcome.ok_bind]
            cases h6 : addSidecars im.common pod3
                (addOutputArtifactsRepoMetaData im woc pod2 tmpl) with
            | error e => rfl
            | panic m => rfl
            | ok pod4 =>
              simp only [Outcome.ok_bind]
              cases h7 : marshalTemplate im (addOutputArtifactsRepoMetaData im woc pod2 tmpl) with
              | error e => rfl
              | panic m => rfl
              | ok bytes => rfl

/-- The object just allocated is at the end of the heap. -/
theorem TemplateHeap.getElem?_concat (heap : TemplateHeap) (t : Template) :
    (heap ++ [t])[heap.length]? = some t := by
  simp

/-- Writing the object just allocated leaves the others as they are. -/
theorem TemplateHeap.set_concat (heap : TemplateHeap) (t w : Template) :
    (heap ++ [t]).set heap.length w = heap ++ [w] := by
  induction heap with
  | nil => rfl
  | cons a heap ih => simp only [List.cons_append, List.length_cons, List.set_cons_succ, ih]

/-- The assembly on pointers, for a pointer to an object: the outcome is that of the
assembly on the value of the object, and the heap after the call is the heap before it
followed by one new object, the copy as the assembly leaves it. -/
theorem assembleWorkflowPodAt_eq (im : Imports) (woc : wfOperationCtx) (nodeName : String)
    (heap : TemplateHeap) (p : TemplatePtr) (tmpl : Template) (hp : heap[p]? = some tmpl) :
    assembleWorkflowPodAt im woc nodeName heap p =
      match podBeforeOutputArtifacts im woc nodeName tmpl with
      | .error e => (.error e, heap ++ [tmpl])
      | .panic m => (.panic m, heap ++ [tmpl])
      | .ok pod =>
        (podAfterOutputArtifacts im pod (addOutputArtifactsRepoMetaData im woc pod tmpl),
         heap ++ [addOutputArtifactsRepoMetaData im woc pod tmpl]) := by
  simp only [assembleWorkflowPodAt, TemplateHeap.DeepCopy, hp, Template.DeepCopy,
    assembleWorkflowPodBody, TemplateHeap.getElem?_concat]
  cases podBeforeOutputArtifacts im woc nodeName tmpl with
  | error e => rfl
  | panic m => rfl
  | ok pod => simp only [TemplateHeap.set_concat]

/-- The assembly on pointers writes no object that was in the heap before the call,
whatever its outcome: the heap after the call starts with the heap before it. -/
theorem assembleWorkflowPodAt_frame (im : Imports) (woc : wfOperationCtx) (nodeName : String)
    (heap : TemplateHeap) (p : TemplatePtr) :
    heap <+: (assembleWorkflowPodAt im woc nodeName heap p).2 := by
  cases hp : heap[p]? with
  | none =>
    simp only [assembleWorkflowPodAt, TemplateHeap.DeepCopy, hp, assembleWorkflowPodBody]
    exact List.prefix_refl _
  | some tmpl =>
    rw [assembleWorkflowPodAt_eq im woc nodeName heap p tmpl hp]
    cases podBeforeOutputArtifacts im woc nodeName tmpl with
    | error e => exact List.prefix_append _ _
    | panic m => exact List.prefix_append _ _
    | ok pod => exact List.prefix_append _ _

/-- A successful assembly on pointers: the pod is that of the assembly on the value of
the caller's object, and the heap gains the copy as the assembly leaves it. -/
theorem assembleWorkflowPodAt_ok (im : Imports) (woc : wfOperationCtx) (nodeName : String)
    (heap : TemplateHeap) (p : TemplatePtr) (tmpl : Template) (r : Pod × Template)
    (hp : heap[p]? = some tmpl) (h : assembleWorkflowPod im woc nodeName tmpl = .ok r) :
    assembleWorkflowPodAt im woc nodeName heap p = (.ok r.1, heap ++ [r.2]) := by
  rw [assembleWorkflowPodAt_eq im woc nodeName heap p tmpl hp]
  rw [assembleWorkflowPod_eq_phases] at h
  cases h1 : podBeforeOutputArtifacts im woc nodeName tmpl with
  | error e => rw [h1] at h; cases h
  | panic m => rw [h1] at h; cases h
  | ok pod =>
    rw [h1] at h
    simp only at h ⊢
    cases h2 : podAfterOutputArtifacts im pod (addOutputArtifactsRepoMetaData im woc pod tmpl) with
    | error e => rw [h2] at h; cases h
    | panic m => rw [h2] at h; cases h
    | ok assembled =>
      rw [h2] at h
      cases h
      rfl

/-- Lines 85 to 170 write the object behind the pointer they are given: run on a pointer
to an object, with success, they leave the template of the result in that object. -/
theorem assembleWorkflowPodBody_ok (im : Imports) (woc : wfOperationCtx) (nodeName : String)
    (heap : TemplateHeap) (p : TemplatePtr) (tmpl : Template) (r : Pod × Template)
    (hp : heap[p]? = some tmpl) (h : assembleWorkflowPod im woc nodeName tmpl = .ok r) :
    assembleWorkflowPodBody im woc nodeName heap p = (.ok r.1, heap.set p r.2) := by
  rw [assembleWorkflowPod_eq_phases] at h
  simp only [assembleWorkflowPodBody, hp]
  cases h1 : podBeforeOutputArtifacts im woc nodeName tmpl with
  | error e => rw [h1] at h; cases h
  | panic m => rw [h1] at h; cases h
  | ok pod =>
    rw [h1] at h
    simp only at h ⊢
    cases h2 : podAfterOutputArtifacts im pod (addOutputArtifactsRepoMetaData im woc pod tmpl) with
    | error e => rw [h2] at h; cases h
    | panic m => rw [h2] at h; cases h
    | ok assembled =>
      rw [h2] at h
      cases h
      rfl

/-- C15: for a successfully assembled pod, the annotation under `AnnotationKeyTemplate`
is the serialization of the template `r.2`, the copy of the caller's template after
`addOutputArtifactsRepoMetaData`: `r.2` is the result of that function on the caller's
template (with the labels and name of the pod), it equals the caller's template in
every field but `Outputs`, and in particular has the container, with its mounts, and
the sidecars of the caller's template. The caller's template itself is left unchanged:
called with a pointer `p` to an object with the value `tmpl`, the assembly returns the
pod `r.1` and leaves a heap that is the heap before the call followed by one new object
with the value `r.2`, so the object behind `p`, like every object the heap had, still
has its value. This is the effect of the copy of line 84: lines 85 to 170 run on the
caller's pointer would store `r.2` in the caller's object, and for the sample template
with one output artifact and a configured store that is another value. -/
theorem serialized_template (im : Imports) (woc : wfOperationCtx) (nodeName : String)
    (tmpl : Template) (r : Pod × Template)
    (h : assembleWorkflowPod im woc nodeName tmpl = .ok r) :
    im.jsonMarshal r.2 =
      .ok (GoMap.get r.1.ObjectMeta.Annotations im.common.AnnotationKeyTemplate) ∧
    r.2 = addOutputArtifactsRepoMetaData im woc r.1 tmpl ∧
    r.2.Outputs.Artifacts =
      tmpl.Outputs.Artifacts.map (addOutputArtifactsRepoMetaData_step im woc r.1) ∧
    { r.2 with Outputs := tmpl.Outputs } = tmpl ∧
    r.2.Name = tmpl.Name ∧ r.2.Inputs = tmpl.Inputs ∧ r.2.Script = tmpl.Script ∧
    r.2.Container = tmpl.Container ∧
    r.2.Container.map (fun ctr => ctr.VolumeMounts) =
      tmpl.Container.map (fun ctr => ctr.VolumeMounts) ∧
    r.2.Sidecars = tmpl.Sidecars ∧
    (∀ (heap : TemplateHeap) (p : TemplatePtr), heap[p]? = some tmpl →
      assembleWorkflowPodAt im woc nodeName heap p = (.ok r.1, heap ++ [r.2]) ∧
      (assembleWorkflowPodAt im woc nodeName heap p).2[p]? = some tmpl ∧
      (∀ q, q < heap.length →
        (assembleWorkflowPodAt im woc nodeName heap p).2[q]? = heap[q]?) ∧
      assembleWorkflowPodBody im woc nodeName heap p = (.ok r.1, heap.set p r.2) ∧
      (assembleWorkflowPodBody im woc nodeName heap p).2[p]? = some r.2) ∧
    (assembleWorkflowPodBody sampleImports (sampleCtx (some storeRepo) none) "n1"
        [containerTemplate [] [] [mkArtifact "result" "/out"] []] 0).2 =
      [containerTemplate [] []
        [{ mkArtifact "result" "/out" with
           S3 := some { S3Bucket := storeRepo.S3Bucket, Key := "store/wf/wf-n1/result" } }] []] ∧
    (assembleWorkflowPodAt sampleImports (sampleCtx (some storeRepo) none) "n1"
        [containerTemplate [] [] [mkArtifact "result" "/out"] []] 0).2 =
      [containerTemplate [] [] [mkArtifact "result" "/out"] [],
       containerTemplate [] []
        [{ mkArtifact "result" "/out" with
           S3 := some { S3Bucket := storeRepo.S3Bucket, Key := "store/wf/wf-n1/result" } }] []] := by
  obtain ⟨s, hj, hmeta, ht⟩ := assembleWorkflowPod_ObjectMeta im woc nodeName tmpl r h
  have hr : r.2 = addOutputArtifactsRepoMetaData im woc r.1 tmpl := by
    rw [ht]
    exact addOutputArtifactsRepoMetaData_congr im woc _ _ tmpl (by rw [hmeta]) (by rw [hmeta])
  refine ⟨?_, hr, ?_, ?_, ?_, ?_, ?_, ?_, ?_, ?_, ?_, rfl, rfl⟩
  · rw [hj, hmeta]
    simp only [GoMap.get_set_self]
  · rw [hr]
    rfl
  · rw [ht]
    rfl
  · rw [ht]
    rfl
  · rw [ht]
    rfl
  · rw [ht]
    rfl
  · rw [ht]
    rfl
  · rw [ht]
    rfl
  · rw [ht]
    rfl
  · intro heap p hp
    have hlt : p < heap.length := by
      by_contra hge
      rw [List.getElem?_eq_none (Nat.le_of_not_lt hge)] at hp
      cases hp
    rw [assembleWorkflowPodAt_ok im woc nodeName heap p tmpl r hp h,
      assembleWorkflowPodBody_ok im woc nodeName heap p tmpl r hp h]
    refine ⟨rfl, ?_, ?_, rfl, ?_⟩
    · show (heap ++ [r.2])[p]? = some tmpl
      rw [List.getElem?_append_left hlt, hp]
    · intro q hq
      show (heap ++ [r.2])[q]? = heap[q]?
      rw [List.getElem?_append_left hq]
    · show (heap.set p r.2)[p]? = some r.2
      simp [hlt]

theorem serialized_template_witness :
    assembleWorkflowPod sampleImports (sampleCtx (some storeRepo) none) "n1"
        (containerTemplate [mkMount "data-vol" "/data"] [mkArtifact "CODE" "/src"]
          [mkArtifact "result" "/out"]
          [{ Container := busybox [], Options := { VolumeMirroring := some true } }]) =
      .ok (assembleWorkflowPod sampleImports (sampleCtx (some storeRepo) none) "n1"
        (containerTemplate [mkMount "data-vol" "/data"] [mkArtifact "CODE" "/src"]
          [mkArtifact "result" "/out"]
          [{ Container := busybox [], Options := { VolumeMirroring := some true } }])).value ∧
    (assembleWorkflowPod sampleImports (sampleCtx (some storeRepo) none) "n1"
        (containerTemplate [mkMount "data-vol" "/data"] [mkArtifact "CODE" "/src"]
          [mkArtifact "result" "/out"]
          [{ Container := busybox [],
             Options := { VolumeMirroring := some true } }])).value.1.Spec.Containers.map
          (fun x => x.VolumeMounts.map (fun mnt => mnt.Name)) =
      [["podmetadata", "docker-lib"], ["data-vol", "input-artifacts"],
       ["data-vol", "input-artifacts"]] ∧
    (assembleWorkflowPod sampleImports (sampleCtx (some storeRepo) none) "n1"
        (containerTemplate [mkMount "data-vol" "/data"] [mkArtifact "CODE" "/src"]
          [mkArtifact "result" "/out"]
          [{ Container := busybox [],
             Options := { VolumeMirroring := some true } }])).value.2 =
      containerTemplate [mkMount "data-vol" "/data"] [mkArtifact "CODE" "/src"]
        [{ mkArtifact "result" "/out" with
           S3 := some { S3Bucket := storeRepo.S3Bucket, Key := "store/wf/wf-n1/result" } }]
        [{ Container := busybox [], Options := { VolumeMirroring := some true } }] ∧
    (assembleWorkflowPod sampleImports (sampleCtx (some storeRepo) none) "n1"
        (containerTemplate [mkMount "data-vol" "/data"] [mkArtifact "CODE" "/src"]
          [mkArtifact "result" "/out"]
          [{ Container := busybox [], Options := { VolumeMirroring := some true } }])).value.2.Sidecars =
      (containerTemplate [mkMount "data-vol" "/data"] [mkArtifact "CODE" "/src"]
          [mkArtifact "result" "/out"]
          [{ Container := busybox [], Options := { VolumeMirroring := some true } }]).Sidecars ∧
    [emptyTemplate,
     containerTemplate [mkMount "data-vol" "/data"] [mkArtifact "CODE" "/src"]
       [mkArtifact "result" "/out"]
       [{ Container := busybox [], Options := { VolumeMirroring := some true } }]][1]? =
      some (containerTemplate [mkMount "data-vol" "/data"] [mkArtifact "CODE" "/src"]
        [mkArtifact "result" "/out"]
        [{ Container := busybox [], Options := { VolumeMirroring := some true } }]) ∧
    (assembleWorkflowPodAt sampleImports (sampleCtx (some storeRepo) none) "n1"
        [emptyTemplate,
         containerTemplate [mkMount "data-vol" "/data"] [mkArtifact "CODE" "/src"]
           [mkArtifact "result" "/out"]
           [{ Container := busybox [], Options := { VolumeMirroring := some true } }]] 1).2[1]? =
      some (containerTemplate [mkMount "data-vol" "/data"] [mkArtifact "CODE" "/src"]
        [mkArtifact "result" "/out"]
        [{ Container := busybox [], Options := { VolumeMirroring := some true } }]) :=
  ⟨rfl, rfl, rfl,
   (serialized_template sampleImports (sampleCtx (some storeRepo) none) "n1"
      (containerTemplate [mkMount "data-vol" "/data"] [mkArtifact "CODE" "/src"]
        [mkArtifact "result" "/out"]
        [{ Container := busybox [], Options := { VolumeMirroring := some true } }])
      _ rfl).2.2.2.2.2.2.2.2.2.1,
   rfl,
   ((serialized_template sampleImports (sampleCtx (some storeRepo) none) "n1"
      (containerTemplate [mkMount "data-vol" "/data"] [mkArtifact "CODE" "/src"]
        [mkArtifact "result" "/out"]
        [{ Container := busybox [], Options := { VolumeMirroring := some true } }])
      _ rfl).2.2.2.2.2.2.2.2.2.2.1
      [emptyTemplate,
       containerTemplate [mkMount "data-vol" "/data"] [mkArtifact "CODE" "/src"]
         [mkArtifact "result" "/out"]
         [{ Container := busybox [], Options := { VolumeMirroring := some true } }]] 1 rfl).2.1⟩

end Workflowpod
